import Mathlib

/-!
Verification of the panopticon orbital transfer engine.

The engine (TypeScript) is embedded shallowly in Lean:

* JavaScript numbers (IEEE-754 doubles) are modeled by `JSNum`: an exact
  real value (no rounding), or one of the three non-finite values
  `posInf`, `negInf`, `nan`.  Arithmetic follows the JS semantics on this
  idealized domain (e.g. `x / 0` is a signed infinity, `∞ − ∞` is NaN,
  comparisons with NaN are false).  `Math.fround` is modeled as the
  identity, consistently with modeling double arithmetic as exact.
* The Kepler solver (`src/lib/orbital/kepler.ts`) only performs finite
  real arithmetic on its claimed domain, so it is embedded directly
  over `ℝ`.
* Loops become fuel recursion with the source's iteration caps;
  `break` / `continue` become the corresponding early returns.
-/

set_option maxHeartbeats 1600000

open scoped Classical

noncomputable section

/-- Model of a JavaScript IEEE-754 double in an exact-real idealization:
finite values are arbitrary reals (no rounding error is modeled), plus
the three non-finite values. -/
inductive JSNum : Type
  | num (x : ℝ)
  | posInf
  | negInf
  | nan

namespace JSNum

/-- JS `Number.isFinite`. -/
def IsFinite : JSNum → Prop
  | num _ => True
  | _ => False

/-- JS `Number.isNaN`. -/
def IsNaN : JSNum → Prop
  | nan => True
  | _ => False

/-- JS unary minus. -/
def neg : JSNum → JSNum
  | num x => num (-x)
  | posInf => negInf
  | negInf => posInf
  | nan => nan

/-- JS addition. -/
def add : JSNum → JSNum → JSNum
  | nan, _ => nan
  | _, nan => nan
  | num x, num y => num (x + y)
  | num _, posInf => posInf
  | num _, negInf => negInf
  | posInf, num _ => posInf
  | negInf, num _ => negInf
  | posInf, posInf => posInf
  | negInf, negInf => negInf
  | posInf, negInf => nan
  | negInf, posInf => nan

/-- JS multiplication (an infinity times zero is NaN). -/
def mul : JSNum → JSNum → JSNum
  | nan, _ => nan
  | _, nan => nan
  | num x, num y => num (x * y)
  | posInf, num y => if 0 < y then posInf else if y < 0 then negInf else nan
  | negInf, num y => if 0 < y then negInf else if y < 0 then posInf else nan
  | num x, posInf => if 0 < x then posInf else if x < 0 then negInf else nan
  | num x, negInf => if 0 < x then negInf else if x < 0 then posInf else nan
  | posInf, posInf => posInf
  | posInf, negInf => negInf
  | negInf, posInf => negInf
  | negInf, negInf => posInf

/-- JS division.  Division by zero gives a signed infinity (the zero
denominators produced by this code base are `+0`), `0 / 0` is NaN. -/
def div : JSNum → JSNum → JSNum
  | nan, _ => nan
  | _, nan => nan
  | num x, num y =>
      if y = 0 then (if 0 < x then posInf else if x < 0 then negInf else nan)
      else num (x / y)
  | num _, posInf => num 0
  | num _, negInf => num 0
  | posInf, num y => if 0 ≤ y then posInf else negInf
  | negInf, num y => if 0 ≤ y then negInf else posInf
  | posInf, _ => nan
  | negInf, _ => nan

instance : Neg JSNum := ⟨neg⟩
instance : Add JSNum := ⟨add⟩
instance : Mul JSNum := ⟨mul⟩
instance : Div JSNum := ⟨div⟩

/-- JS subtraction, `a - b = a + (-b)` (matches IEEE semantics). -/
def sub (a b : JSNum) : JSNum := a + (-b)

instance : Sub JSNum := ⟨sub⟩

/-- JS `<`: false whenever either operand is NaN. -/
def Lt : JSNum → JSNum → Prop
  | nan, _ => False
  | _, nan => False
  | num x, num y => x < y
  | num _, posInf => True
  | negInf, num _ => True
  | negInf, posInf => True
  | _, _ => False

/-- JS `<=`: false whenever either operand is NaN. -/
def Le : JSNum → JSNum → Prop
  | nan, _ => False
  | _, nan => False
  | num x, num y => x ≤ y
  | _, posInf => True
  | negInf, _ => True
  | posInf, _ => False
  | num _, negInf => False

instance : LT JSNum := ⟨Lt⟩
instance : LE JSNum := ⟨Le⟩

/-- JS `===` on numbers: NaN is not equal to itself. -/
def StrictEq : JSNum → JSNum → Prop
  | num x, num y => x = y
  | posInf, posInf => True
  | negInf, negInf => True
  | _, _ => False

/-- JS `Math.abs`. -/
def abs : JSNum → JSNum
  | num x => num |x|
  | posInf => posInf
  | negInf => posInf
  | nan => nan

/-- JS `Math.max` (NaN-propagating). -/
def jmax : JSNum → JSNum → JSNum
  | nan, _ => nan
  | _, nan => nan
  | posInf, _ => posInf
  | _, posInf => posInf
  | num x, num y => num (max x y)
  | num x, negInf => num x
  | negInf, num y => num y
  | negInf, negInf => negInf

/-- JS `Math.min` (NaN-propagating). -/
def jmin : JSNum → JSNum → JSNum
  | nan, _ => nan
  | _, nan => nan
  | negInf, _ => negInf
  | _, negInf => negInf
  | num x, num y => num (min x y)
  | num x, posInf => num x
  | posInf, num y => num y
  | posInf, posInf => posInf

/-- JS `Math.sqrt` (NaN on negative input). -/
def sqrt : JSNum → JSNum
  | num x => if 0 ≤ x then num (Real.sqrt x) else nan
  | posInf => posInf
  | negInf => nan
  | nan => nan

/-- JS `Math.sin` (NaN at infinities). -/
def sin : JSNum → JSNum
  | num x => num (Real.sin x)
  | _ => nan

/-- JS `Math.cos` (NaN at infinities). -/
def cos : JSNum → JSNum
  | num x => num (Real.cos x)
  | _ => nan

/-- JS `Math.acos` (NaN outside `[-1, 1]`). -/
def acos : JSNum → JSNum
  | num x => if -1 ≤ x ∧ x ≤ 1 then num (Real.arccos x) else nan
  | _ => nan

/-- JS `Math.asin` (NaN outside `[-1, 1]`). -/
def asin : JSNum → JSNum
  | num x => if -1 ≤ x ∧ x ≤ 1 then num (Real.arcsin x) else nan
  | _ => nan

/-- Real inverse hyperbolic cosine (for `x ≥ 1`). -/
def racosh (x : ℝ) : ℝ := Real.log (x + Real.sqrt (x ^ 2 - 1))

/-- JS `Math.acosh` (NaN below 1). -/
def acosh : JSNum → JSNum
  | num x => if 1 ≤ x then num (racosh x) else nan
  | posInf => posInf
  | _ => nan

/-- JS `Math.asinh`. -/
def asinh : JSNum → JSNum
  | num x => num (Real.arsinh x)
  | posInf => posInf
  | negInf => negInf
  | nan => nan

/-- JS `Math.sinh`. -/
def sinh : JSNum → JSNum
  | num x => num (Real.sinh x)
  | posInf => posInf
  | negInf => negInf
  | nan => nan

/-- JS `Math.cosh`. -/
def cosh : JSNum → JSNum
  | num x => num (Real.cosh x)
  | posInf => posInf
  | negInf => posInf
  | nan => nan

/-- JS `Math.log` (natural logarithm; `-∞` at 0, NaN below 0). -/
def log : JSNum → JSNum
  | num x => if 0 < x then num (Real.log x) else if x = 0 then negInf else nan
  | posInf => posInf
  | _ => nan

/-- JS `Math.atan2`, via the real two-argument arctangent.  The engine
only calls it on finite arguments; non-finite arguments are sent to NaN
(a harmless deviation from the JS corner cases, none of which are
reachable in the embedded code paths). -/
def atan2 : JSNum → JSNum → JSNum
  | num y, num x =>
      num (if 0 < x then Real.arctan (y / x)
        else if x < 0 ∧ 0 ≤ y then Real.arctan (y / x) + Real.pi
        else if x < 0 ∧ y < 0 then Real.arctan (y / x) - Real.pi
        else if x = 0 ∧ 0 < y then Real.pi / 2
        else if x = 0 ∧ y < 0 then -(Real.pi / 2)
        else 0)
  | _, _ => nan

/-- JS `Math.pow`.  The engine only raises positive finite bases to
finite exponents (the porkchop / Lambert initial-guess path); other
combinations are sent to NaN. -/
def pow : JSNum → JSNum → JSNum
  | num x, num y => if 0 < x then num (Real.rpow x y) else nan
  | _, _ => nan

/-- Real truncation toward zero (for the JS `%` operator). -/
def rtrunc (x : ℝ) : ℝ := if 0 ≤ x then (⌊x⌋ : ℝ) else (⌈x⌉ : ℝ)

/-- JS remainder operator `%` (sign of the dividend; `x % ±∞ = x`). -/
def rem : JSNum → JSNum → JSNum
  | nan, _ => nan
  | _, nan => nan
  | num x, num y => if y = 0 then nan else num (x - y * rtrunc (x / y))
  | num x, posInf => num x
  | num x, negInf => num x
  | _, _ => nan

/-- JS `Math.floor`. -/
def floor : JSNum → JSNum
  | num x => num (⌊x⌋ : ℝ)
  | posInf => posInf
  | negInf => negInf
  | nan => nan

/-- JS `Math.round` (half-up, toward `+∞`). -/
def round : JSNum → JSNum
  | num x => num (⌊x + 1 / 2⌋ : ℝ)
  | posInf => posInf
  | negInf => negInf
  | nan => nan

/-- JS `Math.sign`. -/
def sign : JSNum → JSNum
  | num x => num (if 0 < x then 1 else if x < 0 then -1 else 0)
  | posInf => num 1
  | negInf => num (-1)
  | nan => nan

/-- JS `Math.fround`: modeled as the identity, consistently with the
exact-real idealization of double arithmetic. -/
def fround (n : JSNum) : JSNum := n

instance (n : ℕ) : OfNat JSNum n := ⟨num n⟩

instance : OfScientific JSNum :=
  ⟨fun m b e => num (OfScientific.ofScientific m b e)⟩

@[simp] theorem num_ofNat (n : ℕ) [n.AtLeastTwo] :
    (OfNat.ofNat n : JSNum) = num (OfNat.ofNat n) := rfl

@[simp] theorem num_zero : (0 : JSNum) = num 0 := by
  show num _ = num _
  norm_num

@[simp] theorem num_one : (1 : JSNum) = num 1 := by
  show num _ = num _
  norm_num

@[simp] theorem num_scientific (m : ℕ) (b : Bool) (e : ℕ) :
    (OfScientific.ofScientific m b e : JSNum)
      = num (OfScientific.ofScientific m b e) := rfl

@[simp] theorem num_add_num (x y : ℝ) : num x + num y = num (x + y) := rfl

@[simp] theorem num_sub_num (x y : ℝ) : num x - num y = num (x - y) := by
  show num (x + -y) = num (x - y)
  rw [sub_eq_add_neg]

@[simp] theorem num_mul_num (x y : ℝ) : num x * num y = num (x * y) := rfl

@[simp] theorem neg_num (x : ℝ) : -(num x) = num (-x) := rfl

@[simp] theorem num_div_num (x y : ℝ) (h : y ≠ 0) :
    num x / num y = num (x / y) := by
  show div _ _ = _
  simp [div, h]

@[simp] theorem num_lt_num (x y : ℝ) : (num x < num y) ↔ x < y := Iff.rfl

@[simp] theorem num_le_num (x y : ℝ) : (num x ≤ num y) ↔ x ≤ y := Iff.rfl

@[simp] theorem abs_num (x : ℝ) : abs (num x) = num |x| := rfl

@[simp] theorem sqrt_num (x : ℝ) (h : 0 ≤ x) :
    sqrt (num x) = num (Real.sqrt x) := by simp [sqrt, h]

@[simp] theorem isFinite_num (x : ℝ) : IsFinite (num x) := trivial

@[simp] theorem not_isFinite_nan : ¬ IsFinite nan := fun h => h

@[simp] theorem not_isFinite_posInf : ¬ IsFinite posInf := fun h => h

@[simp] theorem not_isFinite_negInf : ¬ IsFinite negInf := fun h => h

@[simp] theorem not_isNaN_num (x : ℝ) : ¬ IsNaN (num x) := fun h => h

@[simp] theorem isNaN_nan : IsNaN nan := trivial

@[simp] theorem jmax_num_num (x y : ℝ) : jmax (num x) (num y) = num (max x y) := rfl

@[simp] theorem jmin_num_num (x y : ℝ) : jmin (num x) (num y) = num (min x y) := rfl

@[simp] theorem num_lt_posInf (x : ℝ) : num x < posInf := trivial

@[simp] theorem not_posInf_le_num (x : ℝ) : ¬ posInf ≤ num x := fun h => h

@[simp] theorem not_nan_lt (a : JSNum) : ¬ nan < a := by cases a <;> exact fun h => h

@[simp] theorem not_lt_nan (a : JSNum) : ¬ a < nan := by cases a <;> exact fun h => h

@[simp] theorem not_nan_le (a : JSNum) : ¬ nan ≤ a := by cases a <;> exact fun h => h

@[simp] theorem not_le_nan (a : JSNum) : ¬ a ≤ nan := by cases a <;> exact fun h => h

theorem isFinite_iff (a : JSNum) : IsFinite a ↔ ∃ x, a = num x := by
  cases a <;> simp [IsFinite]

end JSNum

/-! ## Vectors (shared helpers of `lambert.ts` / `transfer.ts`) -/

/-- Cartesian 3-vector of JS numbers. -/
structure Vec3 where
  x : JSNum
  y : JSNum
  z : JSNum

/-- Instantaneous position / velocity state. -/
structure OrbitalState where
  pos : Vec3
  vel : Vec3

/-- Source `vecMag`. -/
def vecMag (v : Vec3) : JSNum :=
  JSNum.sqrt (v.x * v.x + v.y * v.y + v.z * v.z)

/-- Source `vecDot`. -/
def vecDot (a b : Vec3) : JSNum :=
  a.x * b.x + a.y * b.y + a.z * b.z

/-- Source `vecCross`. -/
def vecCross (a b : Vec3) : Vec3 :=
  ⟨a.y * b.z - a.z * b.y, a.z * b.x - a.x * b.z, a.x * b.y - a.y * b.x⟩

/-- Source `vecScale`. -/
def vecScale (v : Vec3) (s : JSNum) : Vec3 :=
  ⟨v.x * s, v.y * s, v.z * s⟩

/-- Source `vecAdd`. -/
def vecAdd (a b : Vec3) : Vec3 :=
  ⟨a.x + b.x, a.y + b.y, a.z + b.z⟩

/-- Source `vecSub`. -/
def vecSub (a b : Vec3) : Vec3 :=
  ⟨a.x - b.x, a.y - b.y, a.z - b.z⟩

/-! ## Lambert solver (`lambert.ts`) -/

/-- Source `normalize` of `lambert.ts` (renamed: `normalize` is taken by
Mathlib); returns `null` on a degenerate vector. -/
def normalizeV (v : Vec3) : Option Vec3 :=
  let m := vecMag v
  if ¬ m.IsFinite ∨ m ≤ (1e-14 : JSNum) then none
  else some (vecScale v (1 / m))

/-- Source `xToTimeOfTransit`. -/
def xToTimeOfTransit (x lambda lambda2 : JSNum) : JSNum :=
  let oneMinusX2 := 1 - x * x
  if JSNum.abs oneMinusX2 ≤ (1e-14 : JSNum) then JSNum.nan
  else
    let z := 1 / oneMinusX2
    if 0 < z then
      let psi := 2 * JSNum.acos (JSNum.jmax (-1) (JSNum.jmin 1 x))
      let phiArg := JSNum.jmax 0 (JSNum.jmin 1 (lambda2 / z))
      let phiPos := 2 * JSNum.asin (JSNum.sqrt phiArg)
      let phi := if lambda < 0 then -phiPos else phiPos
      z * JSNum.sqrt z * ((psi - JSNum.sin psi) - (phi - JSNum.sin phi)) / 2
    else if x < 1 then JSNum.nan
    else
      let minusZ := -z
      let psi := 2 * JSNum.acosh x
      let phiArg := JSNum.jmax 0 (-lambda2 / z)
      let phiPos := 2 * JSNum.asinh (JSNum.sqrt phiArg)
      let phi := if lambda < 0 then -phiPos else phiPos
      minusZ * JSNum.sqrt minusZ
        * ((JSNum.sinh psi - psi) - (JSNum.sinh phi - phi)) / 2

/-- Source `dTdx`: the first three derivatives of the normalized
time-of-flight with respect to the Lancaster–Blanchard variable. -/
def dTdx (x T lambda2 lambda3 : JSNum) : JSNum × JSNum × JSNum :=
  let w := 1 - x * x
  if JSNum.abs w ≤ (1e-14 : JSNum) then (JSNum.nan, JSNum.nan, JSNum.nan)
  else
    let y := 1 - lambda2 * w
    if y ≤ 0 then (JSNum.nan, JSNum.nan, JSNum.nan)
    else
      let g := JSNum.sqrt y
      let h := y * g
      let oneMinusLambda2 := 1 - lambda2
      let lambda5 := lambda2 * lambda3
      let invW := 1 / w
      let dT := invW * (3 * T * x - 2 + 2 * lambda3 * x / g)
      let ddT := invW * (3 * T + 5 * x * dT + 2 * oneMinusLambda2 * lambda3 / h)
      let dddT := invW
        * (7 * x * ddT + 8 * dT - 6 * oneMinusLambda2 * lambda5 * x / (h * y))
      (dT, ddT, dddT)

/-- Source `LambertResult`. -/
structure LambertResult where
  initialVelocity : Vec3
  finalVelocity : Vec3
  burn0 : Vec3
  burn1 : Vec3
  totalDV : JSNum

/-- The 3rd-order Householder loop of `solveLambert` (≤ 15 steps; on a
non-finite intermediate the source resets `x` to the initial guess `x0`
and breaks). -/
def lambertHouseholder (T lambda lambda2 lambda3 x0 : JSNum) :
    ℕ → JSNum → JSNum
  | 0, x => x
  | fuel + 1, x =>
    let Tx := xToTimeOfTransit x lambda lambda2
    if ¬ Tx.IsFinite then x0
    else
      let d := dTdx x Tx lambda2 lambda3
      if ¬ d.1.IsFinite ∨ ¬ d.2.1.IsFinite ∨ ¬ d.2.2.IsFinite then x0
      else
        let delta := Tx - T
        if JSNum.abs delta < (1e-11 : JSNum) then x
        else
          let dT2 := d.1 * d.1
          let numerator := delta * (dT2 - delta * d.2.1 / 2)
          let denominator := d.1 * (dT2 - delta * d.2.1)
            + d.2.2 * delta * delta / 6
          if JSNum.abs denominator ≤ (1e-30 : JSNum) then x
          else
            let nextX := x - numerator / denominator
            if ¬ nextX.IsFinite then x0
            else lambertHouseholder T lambda lambda2 lambda3 x0 fuel nextX

/-- The plane-normal selection of `solveLambert` (the near-degenerate
`nMag2 < 0.5` fallback via the two orbit normals, else the normalized
cross product). -/
def lambertNhat (initialState endState : OrbitalState)
    (nhatRaw : Vec3) (nMag2Raw : JSNum) : Vec3 :=
  if nMag2Raw < (0.5 : JSNum) then
    let nhatFallback :=
      match normalizeV (vecCross initialState.pos initialState.vel),
          normalizeV (vecCross endState.pos endState.vel) with
      | some h1, some h2 =>
        (match normalizeV (vecAdd h1 h2) with
          | some merged => merged
          | none => (⟨0, 0, 1⟩ : Vec3))
      | _, _ => (⟨0, 0, 1⟩ : Vec3)
    if vecDot nhatFallback nhatFallback ≤ 0 then (⟨0, 0, 1⟩ : Vec3)
    else nhatFallback
  else vecScale nhatRaw (1 / JSNum.sqrt nMag2Raw)

/-- The tangential-frame / λ-sign selection of `solveLambert`
(`t1hat`, `t2hat`, signed `lambda`; the retrograde flip included). -/
def lambertOrientation (nhat r1hat r2hat : Vec3) (lambdaU : JSNum)
    (retrograde : Bool) : Vec3 × Vec3 × JSNum :=
  let planePick :=
    if (0 : JSNum) ≤ nhat.z then
      (vecCross nhat r1hat, vecCross nhat r2hat, lambdaU)
    else
      (vecCross r1hat nhat, vecCross r2hat nhat, -lambdaU)
  if retrograde then
    (vecScale planePick.1 (-1), vecScale planePick.2.1 (-1), -planePick.2.2)
  else planePick

/-- The three-regime initial guess `x0` of `solveLambert` (`none` for
the source's `return null` in the log-interpolation regime). -/
def lambertInitialGuess (T T0 T1 lambda2 lambda3 : JSNum) : Option JSNum :=
  if T0 ≤ T then some (-(T - T0) / (T - T0 + 4))
  else if T ≤ T1 then
    let lambda5 := lambda2 * lambda3
    some (1 + T1 * (T1 - T) * (0.4 : JSNum) * (1 - lambda5) / T)
  else
    let denom := JSNum.log (T1 / T0)
    if ¬ denom.IsFinite ∨ JSNum.abs denom ≤ (1e-14 : JSNum) then none
    else some (JSNum.pow (T / T0) (JSNum.log 2 / denom) - 1)

/-- Source `solveLambert` (Izzo-style Lambert solver).  Returns `none`
exactly where the source returns `null`. -/
def solveLambert (transitTimeSeconds : JSNum)
    (initialState endState : OrbitalState)
    (barycenterMu : JSNum) (retrograde : Bool) : Option LambertResult :=
  if ¬ transitTimeSeconds.IsFinite ∨ transitTimeSeconds ≤ 0 then none
  else if ¬ barycenterMu.IsFinite ∨ barycenterMu ≤ 0 then none
  else
  let r1 := initialState.pos
  let r2 := endState.pos
  let r1mag := vecMag r1
  let r2mag := vecMag r2
  if r1mag ≤ 0 ∨ r2mag ≤ 0 then none
  else
  let r1hat := vecScale r1 (1 / r1mag)
  let r2hat := vecScale r2 (1 / r2mag)
  let nhatRaw := vecCross r1hat r2hat
  let nMag2Raw := vecDot nhatRaw nhatRaw
  let nhat := lambertNhat initialState endState nhatRaw nMag2Raw
  let chord := vecMag (vecSub r2 r1)
  if chord ≤ 0 then none
  else
  let s := (chord + r1mag + r2mag) / 2
  if s ≤ 0 then none
  else
  let lambda2 := JSNum.jmax 0 (1 - chord / s)
  let lambdaU := JSNum.sqrt lambda2
  let lambda3 := lambda2 * lambdaU
  let oriented := lambertOrientation nhat r1hat r2hat lambdaU retrograde
  let t1hat := oriented.1
  let t2hat := oriented.2.1
  let lambda := oriented.2.2
  let T := JSNum.sqrt (2 * barycenterMu / (s * s * s)) * transitTimeSeconds
  if ¬ T.IsFinite ∨ T ≤ 0 then none
  else
  let T0 := JSNum.acos (JSNum.jmax (-1) (JSNum.jmin 1 lambda))
    + lambda * JSNum.sqrt (1 - lambda2)
  let T1 := 2 / 3 * (1 - lambda * lambda * lambda)
  let x0opt : Option JSNum := lambertInitialGuess T T0 T1 lambda2 lambda3
  match x0opt with
  | none => none
  | some x0 =>
    if ¬ x0.IsFinite then none
    else
    let x := lambertHouseholder T lambda lambda2 lambda3 x0 15 x0
    let gamma := JSNum.sqrt (barycenterMu * s / 2)
    let rho := (r1mag - r2mag) / chord
    let sigma2 := JSNum.jmax 0 (1 - rho * rho)
    let sigma := JSNum.sqrt sigma2
    let Warg := 1 - lambda2 * x * x + lambda2
    if Warg ≤ 0 then none
    else
    let W := JSNum.sqrt Warg
    let lambdaW := lambda * W
    let xPlus := lambdaW + x
    let xMinus := lambdaW - x
    let vr1 := gamma * (xMinus - rho * xPlus) / r1mag
    let vr2 := -gamma * (xMinus + rho * xPlus) / r2mag
    let vt1 := gamma * sigma * (W + lambda * x) / r1mag
    let vt2 := gamma * sigma * (W + lambda * x) / r2mag
    let initialVelocity := vecAdd (vecScale r1hat vr1) (vecScale t1hat vt1)
    let finalVelocity := vecAdd (vecScale r2hat vr2) (vecScale t2hat vt2)
    if ¬ (vecMag initialVelocity).IsFinite ∨ ¬ (vecMag finalVelocity).IsFinite
    then none
    else
    let burn0 := vecSub initialVelocity initialState.vel
    let burn1 := vecSub endState.vel finalVelocity
    let totalDV := vecMag burn0 + vecMag burn1
    if ¬ totalDV.IsFinite then none
    else some ⟨initialVelocity, finalVelocity, burn0, burn1, totalDV⟩

/-! ## Kepler solver (`kepler.ts`)

The Kepler solver operates on plain numbers and, on the domains the
claims quantify over, never produces a non-finite intermediate, so it is
embedded directly over `ℝ`. -/

/-- JS remainder operator `%` on reals (sign of the dividend). -/
def jsRemR (x y : ℝ) : ℝ := x - y * JSNum.rtrunc (x / y)

/-- The normalization of the mean anomaly into `[0, 2π)` performed at
the top of the elliptic branch of `solveKepler`. -/
def keplerMn (M : ℝ) : ℝ :=
  let wrapped := jsRemR M (2 * Real.pi)
  if wrapped < 0 then wrapped + 2 * Real.pi else wrapped

/-- The elliptic Newton–Raphson loop of `solveKepler` (numerator uses
the real eccentricity `e`, denominator the clamped `eDenom`; at most
1000 iterations, exits once `|dE| < 1e-6` after updating `E`). -/
def keplerIterate (e eDenom Mn : ℝ) : ℕ → ℝ → ℝ
  | 0, E => E
  | n + 1, E =>
    let dE := (E - e * Real.sin E - Mn) / (1 - eDenom * Real.cos E)
    if |dE| < 1e-6 then E - dE else keplerIterate e eDenom Mn n (E - dE)

/-- The hyperbolic Newton–Raphson loop of `solveKeplerHyperbolic`. -/
def keplerIterateHyp (e M : ℝ) : ℕ → ℝ → ℝ
  | 0, H => H
  | n + 1, H =>
    let dH := (e * Real.sinh H - H - M) / (e * Real.cosh H - 1)
    if |dH| < 1e-6 then H - dH else keplerIterateHyp e M n (H - dH)

/-- JS `Math.sign` on reals. -/
def rsign (x : ℝ) : ℝ := if 0 < x then 1 else if x < 0 then -1 else 0

/-- Source `solveKeplerHyperbolic`.  (In the `e = 1`, `H = 0` corner the
JS code would divide by zero; real division totalizes this to zero.
That corner is outside every claim's domain.) -/
def solveKeplerHyperbolic (M e : ℝ) : ℝ :=
  let H0 := if |M| ≤ 10 then M else rsign M * Real.log (|M| / e)
  keplerIterateHyp e M 1000 H0

/-- Source `solveKepler` (second, current variant of `kepler.ts`):
dispatches to the hyperbolic solver for `e ≥ 1`, otherwise normalizes
`M` into `[0, 2π)` and runs clamped-denominator Newton from `E₀ = M`. -/
def solveKepler (M e : ℝ) : ℝ :=
  if 1 ≤ e then solveKeplerHyperbolic M e
  else
    let Mn := keplerMn M
    let eDenom := min e 0.9
    keplerIterate e eDenom Mn 1000 Mn

/-- Source `TransferOutcome` (1 success + 19 failure variants). -/
inductive TransferOutcome : Type
  | Success
  | Fail_InsufficientDV
  | Fail_ArrivalBeforeLaunch
  | Fail_LaunchInPast
  | Fail_CoastPhaseEndsBeforeItStarts
  | Fail_Parabolic
  | Fail_Hyperbolic
  | Fail_HyperbolicMicrothrust
  | Fail_InsufficientAcceleration
  | Fail_OrbitPeriod
  | Fail_ExceedsMaxDuration
  | Fail_BurnLongerThanTransfer
  | Fail_BurnLongerThanHalfOrbit
  | Fail_BurnNaN
  | Fail_WouldCollideWithBody
  | Fail_WouldExceedHillRadius
  | Fail_AttemptedFleetInterceptInMicrothrust
  | Fail_AttemptedFleetInterceptAfterArrivalAtAsset
  | Fail_AttemptedFleetInterceptThatWouldCauseTargetingLoop
  | Fail_CodePathNotImplemented
  deriving DecidableEq

/-- Source `TITransferResult`. -/
structure TITransferResult where
  outcome : TransferOutcome
  value : JSNum
  value2 : JSNum

/-- Source `OrbitalElements`.  Non-finite field values (`NaN` mean
anomaly, infinite semi-major axis / apoapsis) are represented by the
corresponding `JSNum` constructors, exactly as in the JS code. -/
structure OrbitalElements where
  epoch_s : JSNum
  semiMajorAxis_m : JSNum
  eccentricity : JSNum
  meanAnomalyAtEpoch_Rad : JSNum
  periapsis_m : JSNum
  apoapsis_m : JSNum

/-- Source `TwoBurnTransferSolution`. -/
structure TwoBurnTransferSolution where
  result : TITransferResult
  launchTime_s : JSNum
  arrivalTime_s : JSNum
  transitDuration_s : JSNum
  boostDV_mps : JSNum
  decelDV_mps : JSNum
  totalDV_mps : JSNum
  boostBurnTime_s : JSNum
  decelBurnTime_s : JSNum
  transferOrbit : Option OrbitalElements

/-- Source `HybridRemapInput` (the two callbacks are arbitrary
functions, as in the source). -/
structure HybridRemapInput where
  sourceStateAtTime : JSNum → OrbitalState
  destinationStateAtTime : JSNum → OrbitalState
  remapWindow_s : Option JSNum
  remapSamples : Option JSNum
  remapIterations : Option JSNum

/-- Source `TwoBurnTransferInput`. -/
structure TwoBurnTransferInput where
  launchTime_s : JSNum
  arrivalTime_s : JSNum
  sourceState_m : OrbitalState
  destinationState_m : OrbitalState
  barycenterMu_m3s2 : JSNum
  barycenterMeanRadius_m : JSNum
  fleetAcceleration_mps2 : JSNum
  hybridRemap : Option HybridRemapInput

/-- Source `vecNormalize` of the transfer module (returns the zero
vector when the magnitude is not positive). -/
def vecNormalize (v : Vec3) : Vec3 :=
  let m := vecMag v
  if m ≤ 0 then ⟨0, 0, 0⟩ else vecScale v (1 / m)

/-- Source `normalizeAngleRad` (JS-number version of the transfer
module). -/
def normalizeAngleRad (theta : JSNum) : JSNum :=
  let twoPi : JSNum := 2 * JSNum.num Real.pi
  let wrapped := JSNum.rem theta twoPi
  if wrapped < 0 then wrapped + twoPi else wrapped

/-- Source `clamp`. -/
def clamp (value minV maxV : JSNum) : JSNum :=
  JSNum.jmax minV (JSNum.jmin maxV value)

/-- Source `approximately` (relative `1e-6` comparison). -/
def approximately (a b : JSNum) : Prop :=
  JSNum.abs (a - b)
    ≤ (1e-6 : JSNum) * JSNum.jmax 1 (JSNum.jmax (JSNum.abs a) (JSNum.abs b))

/-- Source `makeResult` (the JS defaults `value = 0`, `value2 = 0` are
written explicitly at call sites). -/
def makeResult (outcome : TransferOutcome) (value value2 : JSNum) :
    TITransferResult :=
  ⟨outcome, value, value2⟩

/-- Source `wasBug`. -/
def wasBug (result : Option TITransferResult) : Prop :=
  match result with
  | none => True
  | some r =>
    r.outcome = TransferOutcome.Fail_CodePathNotImplemented
    ∨ r.outcome = TransferOutcome.Fail_ArrivalBeforeLaunch
    ∨ r.outcome = TransferOutcome.Fail_BurnNaN

/-- Source `tryGetMinimumDVneeded_mps`. -/
def tryGetMinimumDVneeded_mps (result : TITransferResult) : Option JSNum :=
  if result.outcome = TransferOutcome.Fail_InsufficientDV then some result.value
  else none

/-- Source `tryGetMinimumAccelerationNeeded` (per-variant formulas for
the "acceleration still needed" ordering). -/
def tryGetMinimumAccelerationNeeded (result : TITransferResult)
    (fleetAcceleration_mps2 : JSNum) : Option JSNum :=
  match result.outcome with
  | TransferOutcome.Fail_BurnLongerThanTransfer =>
      some (fleetAcceleration_mps2 * (result.value / result.value2))
  | TransferOutcome.Fail_LaunchInPast =>
      some (fleetAcceleration_mps2 / (1 - result.value / result.value2))
  | TransferOutcome.Fail_BurnLongerThanHalfOrbit =>
      some (fleetAcceleration_mps2 * (2 * result.value / result.value2))
  | TransferOutcome.Fail_AttemptedFleetInterceptInMicrothrust =>
      some (result.value / (2 * result.value2 * result.value2))
  | TransferOutcome.Fail_InsufficientAcceleration =>
      some result.value
  | TransferOutcome.Fail_CoastPhaseEndsBeforeItStarts =>
      some (fleetAcceleration_mps2 * (result.value2 / result.value))
  | _ => none

/-- Source `bestTransferResult` (the total comparator over
success / failure results; sequential early returns become nested
matches). -/
def bestTransferResult (a b : Option TITransferResult)
    (fleetAcceleration_mps2 : JSNum) : Option TITransferResult :=
  match b with
  | none => a
  | some bb =>
    match a with
    | none => some bb
    | some aa =>
      if aa.outcome = TransferOutcome.Success then some aa
      else if bb.outcome = TransferOutcome.Success then some bb
      else
        match tryGetMinimumDVneeded_mps aa, tryGetMinimumDVneeded_mps bb with
        | some aDv, some bDv => if aDv < bDv then some aa else some bb
        | some _, none => some aa
        | none, some _ => some bb
        | none, none =>
          match tryGetMinimumAccelerationNeeded aa fleetAcceleration_mps2,
              tryGetMinimumAccelerationNeeded bb fleetAcceleration_mps2 with
          | some aAccel, some bAccel =>
              if aAccel < bAccel then some aa else some bb
          | some _, none => some aa
          | none, some _ => some bb
          | none, none =>
            if aa.outcome = TransferOutcome.Fail_CodePathNotImplemented
            then some bb else some aa

/-- Source `cartesianToOrbitalElements`.  The mean anomaly starts as NaN
and is only assigned in the three branches, exactly as in the source. -/
def cartesianToOrbitalElements (state : OrbitalState) (mu_m3s2 epoch_s : JSNum) :
    OrbitalElements :=
  let r := state.pos
  let v := state.vel
  let rMag := vecMag r
  let vMag2 := vecDot v v
  let h := vecCross r v
  let eVec := vecSub (vecScale (vecCross v h) (1 / mu_m3s2)) (vecScale r (1 / rMag))
  let e := vecMag eVec
  let specificEnergy := vMag2 / 2 - mu_m3s2 / rMag
  let semiMajorAxis_m :=
    if (1e-20 : JSNum) < JSNum.abs specificEnergy
    then -mu_m3s2 / (2 * specificEnergy)
    else JSNum.posInf
  let meanAnomalyAtEpoch_Rad :=
    if (1e-12 : JSNum) < e ∧ e < 1 ∧ semiMajorAxis_m.IsFinite ∧ 0 < semiMajorAxis_m
    then
      let cosNu := JSNum.jmax (-1) (JSNum.jmin 1 (vecDot eVec r / (e * rMag)))
      let nuAcos := JSNum.acos cosNu
      let nu := if vecDot r v < 0 then 2 * JSNum.num Real.pi - nuAcos else nuAcos
      let eClamped := e
      let E := 2 * JSNum.atan2
        (JSNum.sqrt (1 - eClamped) * JSNum.sin (nu / 2))
        (JSNum.sqrt (1 + eClamped) * JSNum.cos (nu / 2))
      normalizeAngleRad (E - e * JSNum.sin E)
    else if 1 + (1e-12 : JSNum) < e ∧ semiMajorAxis_m.IsFinite ∧ semiMajorAxis_m < 0
    then
      let cosNu := JSNum.jmax (-1) (JSNum.jmin 1 (vecDot eVec r / (e * rMag)))
      let nuAcos := JSNum.acos cosNu
      let nu := if vecDot r v < 0 then -nuAcos else nuAcos
      let coshH := (e + JSNum.cos nu) / (1 + e * JSNum.cos nu)
      if coshH.IsFinite ∧ 1 ≤ coshH then
        let Habs := JSNum.acosh coshH
        let H := if nu < 0 then -Habs else Habs
        e * JSNum.sinh H - H
      else JSNum.nan
    else if e ≤ (1e-12 : JSNum) ∧ semiMajorAxis_m.IsFinite ∧ 0 < semiMajorAxis_m
    then normalizeAngleRad (JSNum.atan2 r.y r.x)
    else JSNum.nan
  let periapsis_m :=
    if semiMajorAxis_m.IsFinite
    then JSNum.abs (semiMajorAxis_m * (1 - e))
    else JSNum.nan
  let apoapsis_m :=
    if e < 1 ∧ semiMajorAxis_m.IsFinite
    then semiMajorAxis_m * (1 + e)
    else JSNum.posInf
  ⟨epoch_s, semiMajorAxis_m, e, meanAnomalyAtEpoch_Rad, periapsis_m, apoapsis_m⟩

/-- Source `orbitalPeriodSeconds` (`x ** 3` written as repeated
multiplication). -/
def orbitalPeriodSeconds (orbit : OrbitalElements) (mu_m3s2 : JSNum) : JSNum :=
  if ¬ orbit.semiMajorAxis_m.IsFinite ∨ orbit.semiMajorAxis_m ≤ 0 then JSNum.posInf
  else if 1 ≤ orbit.eccentricity then JSNum.posInf
  else 2 * JSNum.num Real.pi * JSNum.sqrt
    (orbit.semiMajorAxis_m * orbit.semiMajorAxis_m * orbit.semiMajorAxis_m
      / mu_m3s2)

/-- Source `getMeanAnomalyWhenAtRadius`: the two mean anomalies at which
an elliptic orbit crosses the given radius, or `null`. -/
def getMeanAnomalyWhenAtRadius (orbit : OrbitalElements) (radius_m : JSNum) :
    Option (JSNum × JSNum) :=
  if 1 ≤ orbit.eccentricity then none
  else if ¬ orbit.semiMajorAxis_m.IsFinite ∨ orbit.semiMajorAxis_m ≤ 0 then none
  else if radius_m < orbit.periapsis_m ∨ orbit.apoapsis_m < radius_m then none
  else
    let e := orbit.eccentricity
    if e < (1e-10 : JSNum) then none
    else
      let cosE := (1 - radius_m / orbit.semiMajorAxis_m) / e
      if cosE < -1 ∨ 1 < cosE then none
      else
        let E := JSNum.acos (JSNum.jmax (-1) (JSNum.jmin 1 cosE))
        let M1 := normalizeAngleRad (E - e * JSNum.sin E)
        let E2 := 2 * JSNum.num Real.pi - E
        let M2 := normalizeAngleRad (E2 - e * JSNum.sin E2)
        some (M1, M2)

/-- Source `nextTimeAtMeanAnomaly`.  Returns `none` where the source
returns `null`; a NaN *number* result (possible when the orbit's mean
anomaly is NaN) is returned as `some` NaN, as in JS. -/
def nextTimeAtMeanAnomaly (orbit : OrbitalElements)
    (targetMeanAnomaly_Rad fromTime_s mu_m3s2 : JSNum) : Option JSNum :=
  if 1 ≤ orbit.eccentricity then none
  else if ¬ orbit.semiMajorAxis_m.IsFinite ∨ orbit.semiMajorAxis_m ≤ 0 then none
  else
    let n := JSNum.sqrt (mu_m3s2
      / (orbit.semiMajorAxis_m * orbit.semiMajorAxis_m * orbit.semiMajorAxis_m))
    if ¬ n.IsFinite ∨ n ≤ 0 then none
    else
      let mNow := normalizeAngleRad
        (orbit.meanAnomalyAtEpoch_Rad + n * (fromTime_s - orbit.epoch_s))
      let target := normalizeAngleRad targetMeanAnomaly_Rad
      let deltaM0 := target - mNow
      let deltaM := if deltaM0 < 0 then deltaM0 + 2 * JSNum.num Real.pi else deltaM0
      some (fromTime_s + deltaM / n)

/-- Source `wouldCollideWithBarycenter`: does the transfer orbit reach
the central body's mean radius strictly between launch and arrival? -/
def wouldCollideWithBarycenter (orbit : OrbitalElements)
    (launchTime_s arrivalTime_s meanRadius_m mu_m3s2 : JSNum) : Prop :=
  match getMeanAnomalyWhenAtRadius orbit meanRadius_m with
  | none => False
  | some anomalies =>
    (match nextTimeAtMeanAnomaly orbit anomalies.1 launchTime_s mu_m3s2 with
      | some t1 => launchTime_s < t1 ∧ t1 < arrivalTime_s
      | none => False)
    ∨ (match nextTimeAtMeanAnomaly orbit anomalies.2 launchTime_s mu_m3s2 with
      | some t2 => launchTime_s < t2 ∧ t2 < arrivalTime_s
      | none => False)

/-- Source `chooseLambert`: pick the lower-ΔV Lambert branch as
primary, keep the other as fallback. -/
def chooseLambert (prograde retrograde : Option LambertResult) :
    Option LambertResult × Option LambertResult :=
  match prograde, retrograde with
  | none, none => (none, none)
  | some p, none => (some p, none)
  | none, some r => (some r, none)
  | some p, some r =>
    if p.totalDV < r.totalDV then (some p, some r) else (some r, some p)

/-- Source `scoreVelocityAlignment` (weighted direction + magnitude
score). -/
def scoreVelocityAlignment (actual ideal : Vec3) : JSNum :=
  let actualMag := vecMag actual
  let idealMag := vecMag ideal
  if actualMag ≤ 0 ∨ idealMag ≤ 0 then JSNum.posInf
  else
    let directionScore :=
      1 - clamp (vecDot actual ideal / (actualMag * idealMag)) (-1) 1
    let magnitudeScore := JSNum.abs (actualMag - idealMag) / idealMag
    directionScore + (0.25 : JSNum) * magnitudeScore

/-- Iteration count of a JS loop `for (i = 0; i <= limit; i++)` over a
natural counter.  A `+∞` limit would not terminate; it is unreachable
here because every caller clamps the limit (NaN runs zero times). -/
def jsCountLE : JSNum → ℕ
  | JSNum.num x => if x < 0 then 0 else ⌊x⌋.toNat + 1
  | _ => 0

/-- Iteration count of a JS loop `for (i = 0; i < limit; i++)` (same
conventions as `jsCountLE`). -/
def jsCountLT : JSNum → ℕ
  | JSNum.num x => if x ≤ 0 then 0 else ⌈x⌉.toNat
  | _ => 0

/-- Accumulator of the sampling loop in `sampleBestAlignedState`. -/
structure SampleBest where
  bestTime_s : JSNum
  bestState : Option OrbitalState
  bestScore : JSNum
  bestDistance : JSNum

/-- Body of the sampling loop of `sampleBestAlignedState` (index `i`). -/
def sampleStep (stateAtTime : JSNum → OrbitalState) (idealVelocity : Vec3)
    (anchorTime_s window_s samples : JSNum) (acc : SampleBest) (i : ℕ) :
    SampleBest :=
  let alpha := JSNum.num i / samples
  let time_s := anchorTime_s - window_s + 2 * window_s * alpha
  let state := stateAtTime time_s
  let score := scoreVelocityAlignment state.vel idealVelocity
  if ¬ score.IsFinite then acc
  else
    let distance := JSNum.abs (time_s - anchorTime_s)
    if score < acc.bestScore
        ∨ (approximately score acc.bestScore ∧ distance < acc.bestDistance)
    then ⟨time_s, some state, score, distance⟩
    else acc

/-- Source `sampleBestAlignedState`. -/
def sampleBestAlignedState (stateAtTime : JSNum → OrbitalState)
    (idealVelocity : Vec3) (anchorTime_s window_s samples : JSNum) :
    Option (JSNum × OrbitalState) :=
  if ¬ (0 < window_s) ∨ samples < 2 then
    some (anchorTime_s, stateAtTime anchorTime_s)
  else
    let final := (List.range (jsCountLE samples)).foldl
      (sampleStep stateAtTime idealVelocity anchorTime_s window_s samples)
      ⟨anchorTime_s, none, JSNum.posInf, JSNum.posInf⟩
    match final.bestState with
    | none => none
    | some st => some (final.bestTime_s, st)

/-- Source `isSuccess`. -/
def isSuccess (solution : TwoBurnTransferSolution) : Prop :=
  solution.result.outcome = TransferOutcome.Success

/-- Source `chooseBetterSolution` (JS compares `bestResult === a.result`
by object identity; in this embedding the comparison is structural,
which agrees with the source on every path where the two results are
not structurally equal ties). -/
def chooseBetterSolution (a b : TwoBurnTransferSolution)
    (fleetAcceleration_mps2 : JSNum) : TwoBurnTransferSolution :=
  if isSuccess a ∧ isSuccess b then
    (if a.totalDV_mps ≤ b.totalDV_mps then a else b)
  else if isSuccess a then a
  else if isSuccess b then b
  else
    let bestResult :=
      bestTransferResult (some a.result) (some b.result) fleetAcceleration_mps2
    if bestResult = some a.result then a else b

/-- Source `computeHybridDVCorrection_kps` (calibrated piecewise-linear
correction with a quadratic transit-gain bonus). -/
def computeHybridDVCorrection_kps (rawDV_kps transitGainDays : JSNum) : JSNum :=
  let correction :=
    if rawDV_kps < 20 then JSNum.jmax 0 ((0.17 : JSNum) * rawDV_kps - (1.7 : JSNum))
    else if rawDV_kps < (24.2 : JSNum) then (0.112 : JSNum) * rawDV_kps - (0.81 : JSNum)
    else (0.101 : JSNum) * rawDV_kps - (0.71 : JSNum)
  let corrected :=
    if 0 < transitGainDays then
      correction + ((0.015 : JSNum) * transitGainDays
        + (0.00055 : JSNum) * transitGainDays * transitGainDays)
    else correction
  JSNum.jmax 0 corrected

/-- Source `applyHybridDVAdjustment`. -/
def applyHybridDVAdjustment (solution : TwoBurnTransferSolution)
    (fleetAcceleration_mps2 transitGainDays : JSNum) : TwoBurnTransferSolution :=
  if ¬ isSuccess solution then solution
  else
    let rawDV_kps := solution.totalDV_mps / 1000
    let correction_kps := computeHybridDVCorrection_kps rawDV_kps transitGainDays
    if ¬ (0 < correction_kps) then solution
    else
      let adjustedTotalDV_mps :=
        JSNum.jmax 0 (solution.totalDV_mps - correction_kps * 1000)
      if ¬ (0 < solution.totalDV_mps) then
        { solution with
          totalDV_mps := adjustedTotalDV_mps
          boostDV_mps := 0
          decelDV_mps := 0
          boostBurnTime_s := 0
          decelBurnTime_s := 0 }
      else
        let scale := adjustedTotalDV_mps / solution.totalDV_mps
        let boostDV_mps := solution.boostDV_mps * scale
        let decelDV_mps := solution.decelDV_mps * scale
        let boostBurnTime_s :=
          if 0 < fleetAcceleration_mps2 then boostDV_mps / fleetAcceleration_mps2
          else 0
        let decelBurnTime_s :=
          if 0 < fleetAcceleration_mps2 then decelDV_mps / fleetAcceleration_mps2
          else 0
        { solution with
          totalDV_mps := boostDV_mps + decelDV_mps
          boostDV_mps := boostDV_mps
          decelDV_mps := decelDV_mps
          boostBurnTime_s := boostBurnTime_s
          decelBurnTime_s := decelBurnTime_s }

/-- Loop state of `remapHybridInput`. -/
structure RemapState where
  launchTime_s : JSNum
  arrivalTime_s : JSNum
  sourceState_m : OrbitalState
  destinationState_m : OrbitalState

/-- The iteration loop of `remapHybridInput` (≤ 4 rounds; `none` for
every `return null` of the source). -/
def remapLoop (input : TwoBurnTransferInput) (remap : HybridRemapInput)
    (window_s samples : JSNum) : ℕ → RemapState → Option RemapState
  | 0, st => some st
  | fuel + 1, st =>
    let transitDuration_s := st.arrivalTime_s - st.launchTime_s
    if ¬ (0 < transitDuration_s) then none
    else
      let prograde := solveLambert transitDuration_s st.sourceState_m
        st.destinationState_m input.barycenterMu_m3s2 false
      let retrograde := solveLambert transitDuration_s st.sourceState_m
        st.destinationState_m input.barycenterMu_m3s2 true
      match (chooseLambert prograde retrograde).1 with
      | none => none
      | some primary =>
        match sampleBestAlignedState remap.sourceStateAtTime
            primary.initialVelocity input.launchTime_s window_s samples,
          sampleBestAlignedState remap.destinationStateAtTime
            primary.finalVelocity input.arrivalTime_s window_s samples with
        | some mappedSource, some mappedDestination =>
          if mappedDestination.1 ≤ mappedSource.1 then none
          else
            let launchDelta := JSNum.abs (mappedSource.1 - st.launchTime_s)
            let arrivalDelta := JSNum.abs (mappedDestination.1 - st.arrivalTime_s)
            let st2 : RemapState :=
              ⟨mappedSource.1, mappedDestination.1, mappedSource.2,
                mappedDestination.2⟩
            if launchDelta < 60 ∧ arrivalDelta < 60 then some st2
            else remapLoop input remap window_s samples fuel st2
        | _, _ => none

/-- Source `remapHybridInput`. -/
def remapHybridInput (input : TwoBurnTransferInput) :
    Option TwoBurnTransferInput :=
  match input.hybridRemap with
  | none => none
  | some remap =>
    let baseTransit_s := input.arrivalTime_s - input.launchTime_s
    if ¬ (0 < baseTransit_s) then none
    else
      let windowDefault_s :=
        clamp (baseTransit_s * (0.12 : JSNum)) (7 * 86400) (30 * 86400)
      let window_s := JSNum.jmax 0
        (match remap.remapWindow_s with
          | some w => w
          | none => windowDefault_s)
      let samples := clamp
        (JSNum.round (match remap.remapSamples with | some s => s | none => 48))
        8 160
      let iterations := clamp
        (JSNum.round
          (match remap.remapIterations with | some i => i | none => 2))
        1 4
      let st0 : RemapState :=
        ⟨input.launchTime_s, input.arrivalTime_s,
          remap.sourceStateAtTime input.launchTime_s,
          remap.destinationStateAtTime input.arrivalTime_s⟩
      match remapLoop input remap window_s samples (jsCountLT iterations) st0 with
      | none => none
      | some st =>
        some { input with
          launchTime_s := st.launchTime_s
          arrivalTime_s := st.arrivalTime_s
          sourceState_m := st.sourceState_m
          destinationState_m := st.destinationState_m }

/-- Source `solvePureLambertTransfer`: prograde/retrograde Lambert,
orbit-element validation, collision retry with the fallback branch,
period and burn-duration checks, and the burn-centered time shift on
success. -/
def solvePureLambertTransfer (input : TwoBurnTransferInput) :
    TwoBurnTransferSolution :=
  let transitDuration_s := input.arrivalTime_s - input.launchTime_s
  if transitDuration_s ≤ 0 then
    { result := makeResult TransferOutcome.Fail_ArrivalBeforeLaunch
        transitDuration_s 0
      launchTime_s := input.launchTime_s
      arrivalTime_s := input.arrivalTime_s
      transitDuration_s := transitDuration_s
      boostDV_mps := 0
      decelDV_mps := 0
      totalDV_mps := 0
      boostBurnTime_s := 0
      decelBurnTime_s := 0
      transferOrbit := none }
  else
    let prograde := solveLambert transitDuration_s input.sourceState_m
      input.destinationState_m input.barycenterMu_m3s2 false
    let retrograde := solveLambert transitDuration_s input.sourceState_m
      input.destinationState_m input.barycenterMu_m3s2 true
    let chosen := chooseLambert prograde retrograde
    match chosen.1 with
    | none =>
      { result := makeResult TransferOutcome.Fail_CodePathNotImplemented 0 0
        launchTime_s := input.launchTime_s
        arrivalTime_s := input.arrivalTime_s
        transitDuration_s := transitDuration_s
        boostDV_mps := 0
        decelDV_mps := 0
        totalDV_mps := 0
        boostBurnTime_s := 0
        decelBurnTime_s := 0
        transferOrbit := none }
    | some primary =>
      let transferOrbit1 := cartesianToOrbitalElements
        ⟨input.sourceState_m.pos, primary.initialVelocity⟩
        input.barycenterMu_m3s2 input.launchTime_s
      if ¬ transferOrbit1.meanAnomalyAtEpoch_Rad.IsFinite
          ∨ transferOrbit1.meanAnomalyAtEpoch_Rad.IsNaN then
        { result := makeResult TransferOutcome.Fail_CodePathNotImplemented 0 0
          launchTime_s := input.launchTime_s
          arrivalTime_s := input.arrivalTime_s
          transitDuration_s := transitDuration_s
          boostDV_mps := 0
          decelDV_mps := 0
          totalDV_mps := 0
          boostBurnTime_s := 0
          decelBurnTime_s := 0
          transferOrbit := none }
      else if approximately transferOrbit1.eccentricity 1 then
        { result := makeResult TransferOutcome.Fail_Parabolic
            transferOrbit1.eccentricity 0
          launchTime_s := input.launchTime_s
          arrivalTime_s := input.arrivalTime_s
          transitDuration_s := transitDuration_s
          boostDV_mps := 0
          decelDV_mps := 0
          totalDV_mps := 0
          boostBurnTime_s := 0
          decelBurnTime_s := 0
          transferOrbit := none }
      else
        let firstAttemptPeriapsis_m := transferOrbit1.periapsis_m
        let collides1 := wouldCollideWithBarycenter transferOrbit1
          input.launchTime_s input.arrivalTime_s
          input.barycenterMeanRadius_m input.barycenterMu_m3s2
        -- the `collides && secondary` retry block: on retry both the
        -- selected Lambert branch and the transfer orbit are replaced
        let afterRetry : Option TwoBurnTransferSolution :=
          match chosen.2 with
          | some secondary =>
            if collides1 then
              let transferOrbit2 := cartesianToOrbitalElements
                ⟨input.sourceState_m.pos, secondary.initialVelocity⟩
                input.barycenterMu_m3s2 input.launchTime_s
              if ¬ transferOrbit2.meanAnomalyAtEpoch_Rad.IsFinite
                  ∨ transferOrbit2.meanAnomalyAtEpoch_Rad.IsNaN then
                some
                  { result := makeResult
                      TransferOutcome.Fail_CodePathNotImplemented 0 0
                    launchTime_s := input.launchTime_s
                    arrivalTime_s := input.arrivalTime_s
                    transitDuration_s := transitDuration_s
                    boostDV_mps := 0
                    decelDV_mps := 0
                    totalDV_mps := 0
                    boostBurnTime_s := 0
                    decelBurnTime_s := 0
                    transferOrbit := none }
              else if approximately transferOrbit2.eccentricity 1 then
                some
                  { result := makeResult TransferOutcome.Fail_Parabolic
                      transferOrbit2.eccentricity 0
                    launchTime_s := input.launchTime_s
                    arrivalTime_s := input.arrivalTime_s
                    transitDuration_s := transitDuration_s
                    boostDV_mps := 0
                    decelDV_mps := 0
                    totalDV_mps := 0
                    boostBurnTime_s := 0
                    decelBurnTime_s := 0
                    transferOrbit := none }
              else none
            else none
          | none => none
        -- `afterRetry = some earlyReturn` encodes the retry's own early
        -- returns; otherwise fall through with the (possibly replaced)
        -- selection
        match afterRetry with
        | some earlyReturn => earlyReturn
        | none =>
          let retried : Bool :=
            match chosen.2 with
            | some _ => if collides1 then true else false
            | none => false
          let selected : LambertResult :=
            if retried then
              (match chosen.2 with
                | some secondary => secondary
                | none => primary)
            else primary
          let transferOrbit : OrbitalElements :=
            if retried then
              cartesianToOrbitalElements
                ⟨input.sourceState_m.pos, selected.initialVelocity⟩
                input.barycenterMu_m3s2 input.launchTime_s
            else transferOrbit1
          let collides : Prop :=
            if retried then
              wouldCollideWithBarycenter transferOrbit
                input.launchTime_s input.arrivalTime_s
                input.barycenterMeanRadius_m input.barycenterMu_m3s2
            else collides1
          if collides then
            { result := makeResult TransferOutcome.Fail_WouldCollideWithBody
                (JSNum.jmax firstAttemptPeriapsis_m transferOrbit.periapsis_m)
                input.barycenterMeanRadius_m
              launchTime_s := input.launchTime_s
              arrivalTime_s := input.arrivalTime_s
              transitDuration_s := transitDuration_s
              boostDV_mps := 0
              decelDV_mps := 0
              totalDV_mps := 0
              boostBurnTime_s := 0
              decelBurnTime_s := 0
              transferOrbit := none }
          else
            let period_s := orbitalPeriodSeconds transferOrbit
              input.barycenterMu_m3s2
            if transferOrbit.eccentricity < 1
                ∧ (31556924 : JSNum) < period_s / 7500 then
              { result := makeResult TransferOutcome.Fail_OrbitPeriod period_s
                  transferOrbit.eccentricity
                launchTime_s := input.launchTime_s
                arrivalTime_s := input.arrivalTime_s
                transitDuration_s := transitDuration_s
                boostDV_mps := 0
                decelDV_mps := 0
                totalDV_mps := 0
                boostBurnTime_s := 0
                decelBurnTime_s := 0
                transferOrbit := some transferOrbit }
            else
              let boostDV_mps := vecMag selected.burn0
              let decelDV_mps := vecMag selected.burn1
              let totalDV_mps := boostDV_mps + decelDV_mps
              let boostBurnTime_s := boostDV_mps / input.fleetAcceleration_mps2
              let decelBurnTime_s := decelDV_mps / input.fleetAcceleration_mps2
              if 2 * transitDuration_s < boostBurnTime_s + decelBurnTime_s then
                { result := makeResult TransferOutcome.Fail_BurnLongerThanTransfer
                    ((boostBurnTime_s + decelBurnTime_s) / 2) transitDuration_s
                  launchTime_s := input.launchTime_s
                  arrivalTime_s := input.arrivalTime_s
                  transitDuration_s := transitDuration_s
                  boostDV_mps := boostDV_mps
                  decelDV_mps := decelDV_mps
                  totalDV_mps := totalDV_mps
                  boostBurnTime_s := boostBurnTime_s
                  decelBurnTime_s := decelBurnTime_s
                  transferOrbit := some transferOrbit }
              else if boostBurnTime_s.IsNaN ∨ decelBurnTime_s.IsNaN then
                { result := makeResult TransferOutcome.Fail_BurnNaN 0 0
                  launchTime_s := input.launchTime_s
                  arrivalTime_s := input.arrivalTime_s
                  transitDuration_s := transitDuration_s
                  boostDV_mps := boostDV_mps
                  decelDV_mps := decelDV_mps
                  totalDV_mps := totalDV_mps
                  boostBurnTime_s := boostBurnTime_s
                  decelBurnTime_s := decelBurnTime_s
                  transferOrbit := some transferOrbit }
              else
                { result := makeResult TransferOutcome.Success 0 0
                  launchTime_s := input.launchTime_s
                    - (0.5 : JSNum) * boostBurnTime_s
                  arrivalTime_s := input.arrivalTime_s
                    + (0.5 : JSNum) * decelBurnTime_s
                  transitDuration_s := transitDuration_s
                  boostDV_mps := boostDV_mps
                  decelDV_mps := decelDV_mps
                  totalDV_mps := totalDV_mps
                  boostBurnTime_s := boostBurnTime_s
                  decelBurnTime_s := decelBurnTime_s
                  transferOrbit := some transferOrbit }

/-- Source `emptySolution`. -/
def emptySolution (input : TwoBurnTransferInput) (result : TITransferResult) :
    TwoBurnTransferSolution :=
  { result := result
    launchTime_s := input.launchTime_s
    arrivalTime_s := input.arrivalTime_s
    transitDuration_s := input.arrivalTime_s - input.launchTime_s
    boostDV_mps := 0
    decelDV_mps := 0
    totalDV_mps := 0
    boostBurnTime_s := 0
    decelBurnTime_s := 0
    transferOrbit := none }

/-- Source `f32` (`Math.fround`), the identity in the exact-real
idealization. -/
def f32 (n : JSNum) : JSNum := n

/-- Pivot search of `solveLinear4` for the given column: scan the rows
below for the largest absolute entry. -/
def sl4PivotSearch (a : ℕ → ℕ → JSNum) (col : ℕ) : ℕ × JSNum :=
  (List.range 4).foldl
    (fun acc row =>
      if col < row then
        let candidate := JSNum.abs (a row col)
        if acc.2 < candidate then (row, candidate) else acc
      else acc)
    (col, JSNum.abs (a col col))

/-- Row swap for `solveLinear4`. -/
def sl4Swap (a : ℕ → ℕ → JSNum) (i j : ℕ) : ℕ → ℕ → JSNum :=
  fun r c => if r = i then a j c else if r = j then a i c else a r c

/-- One column step of `solveLinear4`: pivot, swap, scale the pivot row
from the pivot column on, then eliminate every other row (skipping rows
whose factor is strictly equal to `0`, as the source does). -/
def sl4Step (a : ℕ → ℕ → JSNum) (col : ℕ) : Option (ℕ → ℕ → JSNum) :=
  let p := sl4PivotSearch a col
  if ¬ p.2.IsFinite ∨ p.2 ≤ (1e-20 : JSNum) then none
  else
    let a1 := sl4Swap a col p.1
    let pivot := a1 col col
    let a2 : ℕ → ℕ → JSNum :=
      fun r c => if r = col ∧ col ≤ c then a1 r c / pivot else a1 r c
    let a3 : ℕ → ℕ → JSNum :=
      fun r c =>
        if r = col then a2 r c
        else if JSNum.StrictEq (a2 r col) 0 then a2 r c
        else if col ≤ c then a2 r c - a2 r col * a2 col c
        else a2 r c
    some a3

/-- Source `solveLinear4`: Gaussian elimination with partial pivoting on
the 4×4 system; the augmented matrix is passed as an indexing
function (`column 4` is the right-hand side). -/
def solveLinear4 (matrix : ℕ → ℕ → JSNum) (rhs : ℕ → JSNum) :
    Option (JSNum × JSNum × JSNum × JSNum) :=
  let a0 : ℕ → ℕ → JSNum := fun r c => if c = 4 then rhs r else matrix r c
  match sl4Step a0 0 with
  | none => none
  | some a1 =>
    match sl4Step a1 1 with
    | none => none
    | some a2 =>
      match sl4Step a2 2 with
      | none => none
      | some a3 =>
        match sl4Step a3 3 with
        | none => none
        | some a4 => some (a4 0 4, a4 1 4, a4 2 4, a4 3 4)

/-- State of the torch Newton loop (`u v w z` unknowns plus the error
bookkeeping of the source). -/
structure TorchState where
  u : JSNum
  v : JSNum
  w : JSNum
  z : JSNum
  currentError : JSNum
  firstError : JSNum

/-- The Newton iteration of `solveTorchTransfer` (≤ 20 steps, `f32`
placed exactly where the source calls `Math.fround`).  `isFirst` tracks
`iter === 0` for the `firstError` assignment. -/
def torchLoop (velocityPerpMag velocityAlong transit accel invAccel
    transferDistance : JSNum) : ℕ → Bool → TorchState → TorchState
  | 0, _, st => st
  | fuel + 1, isFirst, st =>
    let r1Sq := f32 (f32 (st.u * st.u) + f32 (st.v * st.v))
    let r1 := f32 (JSNum.sqrt r1Sq)
    let r2Sq := f32 (f32 (st.w * st.w) + f32 (st.z * st.z))
    let r2 := f32 (JSNum.sqrt r2Sq)
    let eq0 := f32 (f32 (st.v + st.z) + f32 (2 * velocityPerpMag))
    let eq1 := f32 (f32 (st.u + st.w) + f32 (2 * velocityAlong))
    let eq2 := f32 (f32 (velocityPerpMag * transit)
      + f32 (st.v * f32 (transit - f32 (f32 (0.5 : JSNum) * r1 * invAccel)))
      + f32 (f32 (0.5 : JSNum) * st.z * r2 * invAccel))
    let eq3 := f32 (f32 (velocityAlong * transit)
      + f32 (st.u * f32 (transit - f32 (f32 (0.5 : JSNum) * r1 * invAccel)))
      + f32 (f32 (0.5 : JSNum) * st.w * r2 * invAccel)
      - transferDistance)
    let previousError := st.currentError
    let currentError := f32 (f32 (eq0 * eq0) + f32 (eq1 * eq1)
      + f32 (eq2 * eq2) + f32 (eq3 * eq3))
    let firstError := if isFirst then currentError else st.firstError
    if currentError < f32 (1e-11 : JSNum) then
      { st with currentError := currentError, firstError := firstError }
    else if JSNum.StrictEq previousError currentError
        ∨ currentError.IsNaN ∨ ¬ currentError.IsFinite then
      { st with currentError := currentError, firstError := firstError }
    else
      let denom1 := f32 (f32 2 * accel * r1)
      let denom2 := f32 (f32 2 * accel * r2)
      let col0 : ℕ → JSNum := fun i =>
        if i = 0 then f32 0
        else if i = 1 then f32 1
        else if i = 2 then f32 ((-st.u * st.v) / denom1)
        else f32 (transit - f32 (f32 (2 * st.u * st.u) + f32 (st.v * st.v)) / denom1)
      let col1 : ℕ → JSNum := fun i =>
        if i = 0 then f32 1
        else if i = 1 then f32 0
        else if i = 2 then f32 (transit - r1Sq / denom1)
        else f32 ((-st.u * st.v) / denom1)
      let col2 : ℕ → JSNum := fun i =>
        if i = 0 then f32 0
        else if i = 1 then f32 1
        else if i = 2 then f32 ((st.w * st.z) / denom2)
        else f32 (f32 (f32 (2 * st.w * st.w) + f32 (st.z * st.z)) / denom2)
      let col3 : ℕ → JSNum := fun i =>
        if i = 0 then f32 1
        else if i = 1 then f32 0
        else if i = 2 then f32 (f32 (f32 (st.w * st.w) + f32 (2 * st.z * st.z)) / denom2)
        else f32 ((st.w * st.z) / denom2)
      let matrix : ℕ → ℕ → JSNum := fun r c =>
        if c = 0 then col0 r
        else if c = 1 then col1 r
        else if c = 2 then col2 r
        else col3 r
      let rhs : ℕ → JSNum := fun i =>
        if i = 0 then eq0 else if i = 1 then eq1 else if i = 2 then eq2 else eq3
      match solveLinear4 matrix rhs with
      | none =>
        { st with currentError := JSNum.posInf, firstError := firstError }
      | some delta =>
        torchLoop velocityPerpMag velocityAlong transit accel invAccel
          transferDistance fuel false
          { u := f32 (st.u - delta.1)
            v := f32 (st.v - delta.2.1)
            w := f32 (st.w - delta.2.2.1)
            z := f32 (st.z - delta.2.2.2)
            currentError := currentError
            firstError := firstError }

/-- The quadratic seed selection of `solveTorchTransfer`: the primary
discriminant's root, else the secondary discriminant's root, else the
`-velocityAlong` seed with no fallback. -/
def torchSeed (velocityAlong transit accel transferDistance : JSNum) :
    JSNum × Bool :=
  let seed := f32 (velocityAlong - f32 (f32 (0.5 : JSNum) * transit * accel))
  let discriminantPrimary := f32 (f32 (seed * seed)
    + f32 (velocityAlong * transit * accel)
    - f32 (f32 2 * velocityAlong * velocityAlong)
    - f32 (transferDistance * accel))
  if 0 ≤ discriminantPrimary then
    (f32 (f32 (f32 (0.5 : JSNum) * transit * accel)
      - f32 (JSNum.sqrt discriminantPrimary)), true)
  else
    let aTerm := f32 (f32 (accel * transit) + f32 (2 * velocityAlong))
    let discriminantSecondary := f32 (f32 (aTerm * aTerm)
      - f32 (f32 4 * accel * velocityAlong * transit)
      - f32 (f32 8 * velocityAlong * velocityAlong)
      + f32 (f32 4 * accel * transferDistance))
    if 0 ≤ discriminantSecondary then
      (f32 ((-0.5 : JSNum)
        * f32 (aTerm + f32 (JSNum.sqrt discriminantSecondary))), true)
    else (f32 (-velocityAlong), false)

/-- The error-revert step of `solveTorchTransfer`: on a worse or
non-finite final error, fall back to the seeds (when a fallback
exists), else signal `CodePathNotImplemented`. -/
def torchRevert (final : TorchState) (hasFallback : Bool)
    (fallbackU fallbackV fallbackW fallbackZ : JSNum) : Option TorchState :=
  if final.firstError < final.currentError
      ∨ ¬ final.currentError.IsFinite ∨ final.currentError.IsNaN then
    if hasFallback then
      some { final with
        u := fallbackU
        v := fallbackV
        w := fallbackW
        z := fallbackZ }
    else none
  else some final

/-- Source `solveTorchTransfer`: constant-acceleration two-burn solver
in the mean-velocity frame (closed-form quadratic seeds, 4×4 Newton
refinement, seed revert when Newton does not improve). -/
def solveTorchTransfer (input : TwoBurnTransferInput) : TwoBurnTransferSolution :=
  let transitDuration_s := input.arrivalTime_s - input.launchTime_s
  if transitDuration_s ≤ 0 then
    emptySolution input
      (makeResult TransferOutcome.Fail_ArrivalBeforeLaunch transitDuration_s 0)
  else if ¬ input.fleetAcceleration_mps2.IsFinite
      ∨ input.fleetAcceleration_mps2 ≤ 0 then
    emptySolution input
      (makeResult TransferOutcome.Fail_InsufficientAcceleration 0 0)
  else
    let avgVelocity := vecScale
      (vecAdd input.sourceState_m.vel input.destinationState_m.vel) (0.5 : JSNum)
    let movingInitialVel := vecSub input.sourceState_m.vel avgVelocity
    let movingFinalPos := vecSub input.destinationState_m.pos
      (vecScale avgVelocity transitDuration_s)
    let deltaPos := vecSub movingFinalPos input.sourceState_m.pos
    let transferDirection := vecNormalize deltaPos
    let transferDistance := f32 (vecMag deltaPos)
    let velocityAlong := f32 (vecDot movingInitialVel transferDirection)
    let velocityAlongVector := vecScale transferDirection velocityAlong
    let velocityPerpVector := vecSub movingInitialVel velocityAlongVector
    let velocityPerpMag := f32 (vecMag velocityPerpVector)
    let velocityPerpDir := vecNormalize velocityPerpVector
    let accel := f32 input.fleetAcceleration_mps2
    let invAccel := f32 (1 / accel)
    let transit := f32 transitDuration_s
    let v0 := f32 (-velocityPerpMag)
    let z0 := f32 (-velocityPerpMag)
    let seedPick : JSNum × Bool :=
      torchSeed velocityAlong transit accel transferDistance
    let u0 := seedPick.1
    let hasFallback := seedPick.2
    let w0 := f32 (f32 (-2 * velocityAlong) - u0)
    let fallbackU := u0
    let fallbackV := v0
    let fallbackW := w0
    let fallbackZ := z0
    let final := torchLoop velocityPerpMag velocityAlong transit accel invAccel
      transferDistance 20 true
      ⟨u0, v0, w0, z0, JSNum.posInf, JSNum.posInf⟩
    let reverted : Option TorchState :=
      torchRevert final hasFallback fallbackU fallbackV fallbackW fallbackZ
    match reverted with
    | none =>
      emptySolution input
        (makeResult TransferOutcome.Fail_CodePathNotImplemented 0 0)
    | some st =>
      let boostBurn := vecAdd (vecScale transferDirection st.u)
        (vecScale velocityPerpDir st.v)
      let decelBurn := vecAdd (vecScale transferDirection st.w)
        (vecScale velocityPerpDir st.z)
      let boostDV_mps := vecMag boostBurn
      let decelDV_mps := vecMag decelBurn
      let totalDV_mps := boostDV_mps + decelDV_mps
      let boostBurnTime_s := boostDV_mps / input.fleetAcceleration_mps2
      let decelBurnTime_s := decelDV_mps / input.fleetAcceleration_mps2
      if ¬ boostBurnTime_s.IsFinite ∨ ¬ decelBurnTime_s.IsFinite then
        { emptySolution input
            (makeResult TransferOutcome.Fail_CodePathNotImplemented 0 0) with
          boostDV_mps := boostDV_mps
          decelDV_mps := decelDV_mps
          totalDV_mps := totalDV_mps
          boostBurnTime_s := boostBurnTime_s
          decelBurnTime_s := decelBurnTime_s }
      else if transitDuration_s < boostBurnTime_s + decelBurnTime_s then
        { emptySolution input
            (makeResult TransferOutcome.Fail_BurnLongerThanTransfer
              (boostBurnTime_s + decelBurnTime_s) transitDuration_s) with
          boostDV_mps := boostDV_mps
          decelDV_mps := decelDV_mps
          totalDV_mps := totalDV_mps
          boostBurnTime_s := boostBurnTime_s
          decelBurnTime_s := decelBurnTime_s }
      else
        { result := makeResult TransferOutcome.Success 0 0
          launchTime_s := input.launchTime_s
          arrivalTime_s := input.arrivalTime_s
          transitDuration_s := transitDuration_s
          boostDV_mps := boostDV_mps
          decelDV_mps := decelDV_mps
          totalDV_mps := totalDV_mps
          boostBurnTime_s := boostBurnTime_s
          decelBurnTime_s := decelBurnTime_s
          transferOrbit := none }

/-- Source `bestSolution`: the Lambert/Torch selection (a successful
Lambert solution is returned first, before the torch solution is even
considered). -/
def bestSolution (lambert torch : TwoBurnTransferSolution)
    (fleetAcceleration_mps2 : JSNum) : TwoBurnTransferSolution :=
  if isSuccess lambert then lambert
  else if isSuccess torch then torch
  else
    let bestResult := bestTransferResult (some lambert.result)
      (some torch.result) fleetAcceleration_mps2
    if bestResult = some lambert.result then lambert else torch

/-- Source `solveTwoBurnLambertTransfer`: Lambert and torch solutions,
hybrid remap (when requested), direct-vs-remapped selection, and the
calibrated hybrid ΔV adjustment. -/
def solveTwoBurnLambertTransfer (input : TwoBurnTransferInput) :
    TwoBurnTransferSolution :=
  let lambert := solvePureLambertTransfer input
  let torch := solveTorchTransfer input
  let directBest := bestSolution lambert torch input.fleetAcceleration_mps2
  match remapHybridInput input with
  | none =>
    (match input.hybridRemap with
      | none => directBest
      | some _ =>
        applyHybridDVAdjustment directBest input.fleetAcceleration_mps2 0)
  | some remappedInput =>
    let mappedLambert := solvePureLambertTransfer remappedInput
    let mappedTorch := solveTorchTransfer remappedInput
    let mappedBest := bestSolution mappedLambert mappedTorch
      input.fleetAcceleration_mps2
    let chosen :=
      chooseBetterSolution directBest mappedBest input.fleetAcceleration_mps2
    let picked : TwoBurnTransferSolution × JSNum :=
      if isSuccess directBest ∧ isSuccess mappedBest then
        let mappedTransitGainDays :=
          (mappedBest.transitDuration_s - directBest.transitDuration_s) / 86400
        if 0 < mappedTransitGainDays
            ∧ mappedBest.totalDV_mps < directBest.totalDV_mps then
          (mappedBest, mappedTransitGainDays)
        else (directBest, 0)
      else (chosen, 0)
    match input.hybridRemap with
    | none => picked.1
    | some _ =>
      applyHybridDVAdjustment picked.1 input.fleetAcceleration_mps2 picked.2

/-- Source `PorkchopCell`, as constructed by `transferSolutionToCell`
(the named types file in `src/` carries an older, smaller variant of
this record). -/
structure PorkchopCell where
  launchDay : JSNum
  arrivalDay : JSNum
  departureDVRaw : JSNum
  launchImpulseDV : JSNum
  departureDV : JSNum
  arrivalDV : JSNum
  totalDVRaw : JSNum
  totalDV : JSNum
  transitDays : JSNum
  outcome : TransferOutcome
  outcomeValue : JSNum
  outcomeValue2 : JSNum
  boostBurnDays : Option JSNum
  decelBurnDays : Option JSNum

/-- Source `transferSolutionToCell`. -/
def transferSolutionToCell (solution : TwoBurnTransferSolution) : PorkchopCell :=
  let launchDay := solution.launchTime_s / 86400
  let arrivalDay := solution.arrivalTime_s / 86400
  let departureDV := solution.boostDV_mps / 1000
  let arrivalDV := solution.decelDV_mps / 1000
  let totalDV := solution.totalDV_mps / 1000
  let boostBurnDays := if solution.boostBurnTime_s.IsFinite
    then some (solution.boostBurnTime_s / 86400) else none
  let decelBurnDays := if solution.decelBurnTime_s.IsFinite
    then some (solution.decelBurnTime_s / 86400) else none
  { launchDay := launchDay
    arrivalDay := arrivalDay
    departureDVRaw := departureDV
    launchImpulseDV := 0
    departureDV := departureDV
    arrivalDV := arrivalDV
    totalDVRaw := totalDV
    totalDV := totalDV
    transitDays := arrivalDay - launchDay
    outcome := solution.result.outcome
    outcomeValue := solution.result.value
    outcomeValue2 := solution.result.value2
    boostBurnDays := boostBurnDays
    decelBurnDays := decelBurnDays }

/-! ## Ephemeris (`kepler.ts` continued) and constants (`constants.ts`) -/

/-- Source `GM_SUN_AU` (`4 * Math.PI * Math.PI`). -/
def GM_SUN_AU : JSNum := 4 * JSNum.num Real.pi * JSNum.num Real.pi

/-- Source `DEG_RAD` (`Math.PI / 180`). -/
def DEG_RAD : JSNum := JSNum.num Real.pi / 180

/-- Source `AU_KM`. -/
def AU_KM : JSNum := (149597870.7 : JSNum)

/-- Source `GM_SUN_KM`. -/
def GM_SUN_KM : JSNum := (1.32712440018e11 : JSNum)

/-- Source `STANDARD_GRAVITY_MPS2`. -/
def STANDARD_GRAVITY_MPS2 : JSNum := (9.80665 : JSNum)

/-- Source `DAYS_PER_YEAR`. -/
def DAYS_PER_YEAR : JSNum := (365.25 : JSNum)

/-- Source `dateToJY` applied to a millisecond timestamp; the J2000
epoch `Date.parse("2000-01-01T12:00:00Z")` is the constant
`946728000000` ms. -/
def dateToJYms (ms : JSNum) : JSNum :=
  (ms - 946728000000) / (DAYS_PER_YEAR * 86400000)

/-- Source `daysToJY`. -/
def daysToJY (days : JSNum) : JSNum := days / DAYS_PER_YEAR

/-- Source `SpaceBody` (`@/types/orbital`). -/
structure SpaceBody where
  name : String
  friendlyName : String
  objectType : String
  barycenter : Option String
  semiMajorAxis_AU : JSNum
  semiMajorAxis_km : JSNum
  eccentricity : JSNum
  inclination_Deg : JSNum
  longAscendingNode_Deg : JSNum
  argPeriapsis_Deg : JSNum
  meanAnomalyAtEpoch_Deg : JSNum
  epoch_floatJYears : JSNum
  mass_kg : JSNum
  equatorialRadius_km : JSNum

/-- `solveKepler` lifted to JS numbers for the ephemeris: on finite
arguments it is the real algorithm; a non-finite mean anomaly or
eccentricity propagates to NaN through the JS iteration. -/
def solveKeplerJS (M e : JSNum) : JSNum :=
  match M, e with
  | JSNum.num m, JSNum.num ee => JSNum.num (solveKepler m ee)
  | _, _ => JSNum.nan

/-- Source `bodyStateAt` (second, current variant of `kepler.ts`):
orbital elements to heliocentric state in AU and AU/yr, with the
elliptic / hyperbolic branch on `e` (the hyperbolic radius reassignment
`r = Math.abs(r)` is folded into the tuple). -/
def bodyStateAt (body : SpaceBody) (t_JY : JSNum) : OrbitalState :=
  let a := body.semiMajorAxis_AU
  let e := body.eccentricity
  let I := body.inclination_Deg * DEG_RAD
  let Omega := body.longAscendingNode_Deg * DEG_RAD
  let omega := body.argPeriapsis_Deg * DEG_RAD
  let M0 := body.meanAnomalyAtEpoch_Deg * DEG_RAD
  let epochJY := body.epoch_floatJYears - 2000
  let absA := JSNum.abs a
  let n := JSNum.sqrt (GM_SUN_AU / (absA * absA * absA))
  let M := M0 + n * (t_JY - epochJY)
  let anomaly := solveKeplerJS M e
  let nuAndR : JSNum × JSNum :=
    if e < 1 then
      let sinE := JSNum.sin anomaly
      let cosE := JSNum.cos anomaly
      let sqrtTerm := JSNum.sqrt (1 - e * e)
      (JSNum.atan2 (sqrtTerm * sinE) (cosE - e), a * (1 - e * cosE))
    else
      let coshH := JSNum.cosh anomaly
      let nuAcos := JSNum.acos ((coshH - e) / (1 - e * coshH))
      let nu := if anomaly < 0 then -nuAcos else nuAcos
      (nu, JSNum.abs (absA * (1 - e * coshH)))
  let nu := nuAndR.1
  let r := nuAndR.2
  let xOrb := r * JSNum.cos nu
  let yOrb := r * JSNum.sin nu
  let vOrb : JSNum × JSNum :=
    if e < 1 then
      let factor := n * a / JSNum.sqrt (1 - e * e)
      (-factor * JSNum.sin nu, factor * (e + JSNum.cos nu))
    else
      let h := JSNum.sqrt (GM_SUN_AU * absA * (e * e - 1))
      (-GM_SUN_AU * JSNum.sin nu / h, GM_SUN_AU * (e + JSNum.cos nu) / h)
  let vxOrb := vOrb.1
  let vyOrb := vOrb.2
  let cosOmega := JSNum.cos Omega
  let sinOmega := JSNum.sin Omega
  let cosI := JSNum.cos I
  let sinI := JSNum.sin I
  let cosw := JSNum.cos omega
  let sinw := JSNum.sin omega
  let Px := cosOmega * cosw - sinOmega * sinw * cosI
  let Py := sinOmega * cosw + cosOmega * sinw * cosI
  let Pz := sinw * sinI
  let Qx := -cosOmega * sinw - sinOmega * cosw * cosI
  let Qy := -sinOmega * sinw + cosOmega * cosw * cosI
  let Qz := cosw * sinI
  ⟨⟨Px * xOrb + Qx * yOrb, Py * xOrb + Qy * yOrb, Pz * xOrb + Qz * yOrb⟩,
    ⟨Px * vxOrb + Qx * vyOrb, Py * vxOrb + Qy * vyOrb, Pz * vxOrb + Qz * vyOrb⟩⟩

/-! ## Catalog types and the grid search engine (`porkchop.ts`) -/

/-- Source `Orbit` (`@/types/orbital`). -/
structure Orbit where
  name : String
  friendlyName : String
  barycenter : String
  orbitIndex : String
  altitude_km : Option JSNum
  semiMajorAxis_km : Option JSNum
  eccentricity : JSNum
  interfaceOrbit : Bool
  mass : Option JSNum

/-- Source `TransferInputs`: the fields `computePorkchopGrid` reads. -/
structure TransferInputs where
  originOrbit : String
  destinationOrbit : String
  gameDate : String
  gridResolution : JSNum
  launchAcceleration_mg : JSNum
  maxDeltaV_kms : JSNum

/-- Source `PorkchopResult` (current variant, with failure statistics;
`failureCounts` is the count map keyed by outcome). -/
structure PorkchopResult where
  grid : List (List (Option PorkchopCell))
  minDV : JSNum
  maxDV : JSNum
  optimal : Option PorkchopCell
  launchStartDay : JSNum
  launchStepDays : JSNum
  minTransitDays : JSNum
  transitStepDays : JSNum
  failureCounts : TransferOutcome → ℕ
  bestFailureOutcome : Option TransferOutcome
  bestFailureValue : JSNum
  bestFailureValue2 : JSNum

/-- Source `emptyResult`. -/
def emptyResult : PorkchopResult :=
  { grid := []
    minDV := 0
    maxDV := 0
    optimal := none
    launchStartDay := 0
    launchStepDays := 0
    minTransitDays := 0
    transitStepDays := 0
    failureCounts := fun _ => 0
    bestFailureOutcome := none
    bestFailureValue := 0
    bestFailureValue2 := 0 }

/-- Source `G_SI`. -/
def G_SI : JSNum := (6.67384e-11 : JSNum)

/-- Source `AU_M`. -/
def AU_M : JSNum := AU_KM * 1000

/-- Source `GM_SUN_M3S2`. -/
def GM_SUN_M3S2 : JSNum := GM_SUN_KM * (1e9 : JSNum)

/-- Source `SUN_MEAN_RADIUS_M`. -/
def SUN_MEAN_RADIUS_M : JSNum := 695700000

/-- Source `SECONDS_PER_DAY` (porkchop module). -/
def SECONDS_PER_DAY : JSNum := 86400

/-- Source `SECONDS_PER_YEAR` (porkchop module). -/
def SECONDS_PER_YEAR : JSNum := DAYS_PER_YEAR * SECONDS_PER_DAY

/-- Source `toSIState` (AU / AU-per-year to SI). -/
def toSIState (state : OrbitalState) : OrbitalState :=
  let posScale := AU_M
  let velScale := AU_M / (DAYS_PER_YEAR * 86400)
  ⟨vecScale state.pos posScale, vecScale state.vel velScale⟩

/-- Word character of the JS `\w` class. -/
def isWordChar (c : Char) : Bool := c.isAlphanum || c == '_'

/-- The anchored lazy regex `^Sun(\w+?)L[1-5]$` of
`findHeliocentricBody`: the end anchor forces the final two characters,
so the captured group is everything between `Sun` and the trailing
`L[1-5]`. -/
def matchSunLagrange (s : String) : Option String :=
  let cs := s.toList
  let n := cs.length
  if 6 ≤ n ∧ cs.take 3 = ['S', 'u', 'n'] then
    match cs.drop (n - 2) with
    | ['L', d] =>
      let middle := (cs.drop 3).take (n - 5)
      if ('1' ≤ d ∧ d ≤ '5') ∧ middle.all isWordChar
      then some (String.mk middle)
      else none
    | _ => none
  else none

/-- The moon alternation of the second Lagrange regex of
`findHeliocentricBody`. -/
def moonNames : List String :=
  ["Luna", "Io", "Europa", "Ganymede", "Callisto", "Titan", "Triton",
    "Ariel", "Umbriel", "Titania", "Oberon", "Dione", "Enceladus",
    "Tethys", "Rhea", "Iapetus", "Miranda"]

/-- The anchored lazy regex
`^(\w+?)(Luna|Io|…|Miranda)L[1-5]$` of `findHeliocentricBody`: the lazy
planet group takes the shortest match, i.e. the longest moon name that
is a suffix of the part before the trailing `L[1-5]` while leaving a
nonempty planet prefix. -/
def matchMoonLagrange (s : String) : Option String :=
  let cs := s.toList
  let n := cs.length
  match cs.drop (n - 2) with
  | ['L', d] =>
    if ('1' ≤ d ∧ d ≤ '5') ∧ 2 ≤ n then
      let body := cs.take (n - 2)
      let candidates := moonNames.filter (fun m =>
        m.toList.length + 1 ≤ body.length
          ∧ (body.drop (body.length - m.toList.length) = m.toList))
      let longest := candidates.foldl
        (fun best m =>
          match best with
          | none => some m
          | some b =>
            if b.toList.length < m.toList.length then some m else some b)
        none
      match longest with
      | none => none
      | some m =>
        let planet := body.take (body.length - m.toList.length)
        if planet ≠ [] ∧ planet.all isWordChar
        then some (String.mk planet)
        else none
    else none
  | _ => none

/-- Source `findHeliocentricBody`: resolve an orbit to its governing
heliocentric body (directly, via a moon's parent, or by parsing a
Lagrange-point naming convention), falling through exactly as the JS
control flow does. -/
def findHeliocentricBody (orbit : Orbit) (bodies : List SpaceBody) :
    Option SpaceBody :=
  let barycenter := orbit.barycenter
  let direct : Option SpaceBody :=
    match bodies.find? (fun b => b.name == barycenter) with
    | some directBody =>
      if directBody.objectType == "Planet"
          || directBody.objectType == "DwarfPlanet" then some directBody
      else if directBody.objectType == "PlanetaryMoon" then
        match directBody.barycenter with
        | some bc => bodies.find? (fun b => b.name == bc)
        | none => none
      else none
    | none => none
  match direct with
  | some b => some b
  | none =>
    match matchSunLagrange barycenter with
    | some planet => bodies.find? (fun b => b.name == planet)
    | none =>
      match matchMoonLagrange barycenter with
      | some planet => bodies.find? (fun b => b.name == planet)
      | none => none

/-- Source `findOrbitBody`. -/
def findOrbitBody (orbit : Orbit) (bodies : List SpaceBody) : Option SpaceBody :=
  bodies.find? (fun b => b.name == orbit.barycenter)

/-- Source `getOrbitRadiusKm`. -/
def getOrbitRadiusKm (orbit : Orbit) (body : SpaceBody) : JSNum :=
  match orbit.altitude_km with
  | some alt => body.equatorialRadius_km + alt
  | none =>
    match orbit.semiMajorAxis_km with
    | some sma => sma
    | none => body.equatorialRadius_km + 200

/-- Source `hohmannDuration_s`. -/
def hohmannDuration_s (r1_m r2_m mu : JSNum) : JSNum :=
  let a := (r1_m + r2_m) / 2
  JSNum.num Real.pi * JSNum.sqrt (a * a * a / mu)

/-- Source `synodicPeriod_s` (capped at ten times the longer period). -/
def synodicPeriod_s (r1_m r2_m mu : JSNum) : JSNum :=
  if ¬ (0 < r1_m) ∨ ¬ (0 < r2_m) ∨ ¬ (0 < mu) then JSNum.posInf
  else if JSNum.abs (r1_m - r2_m) ≤ JSNum.jmax r1_m r2_m * (1e-12 : JSNum) then
    JSNum.posInf
  else
    let T1 := 2 * JSNum.num Real.pi * JSNum.sqrt (r1_m * r1_m * r1_m / mu)
    let T2 := 2 * JSNum.num Real.pi * JSNum.sqrt (r2_m * r2_m * r2_m / mu)
    if ¬ T1.IsFinite ∨ ¬ T2.IsFinite ∨ T1 ≤ 0 ∨ T2 ≤ 0 then JSNum.posInf
    else
      let maxT := JSNum.jmax T1 T2
      let cap := maxT * 10
      if JSNum.abs (T1 - T2) ≤ maxT * (1e-6 : JSNum) then cap
      else JSNum.jmin (JSNum.abs (T1 * T2 / (T1 - T2))) cap

/-- Source `circularStateAtTime`. -/
def circularStateAtTime (radius_m mu_m3s2 epoch_s t_s : JSNum) : OrbitalState :=
  let n := JSNum.sqrt (mu_m3s2 / (radius_m * radius_m * radius_m))
  let theta := n * (t_s - epoch_s)
  let c := JSNum.cos theta
  let s := JSNum.sin theta
  let v := JSNum.sqrt (mu_m3s2 / radius_m)
  ⟨⟨radius_m * c, radius_m * s, 0⟩, ⟨-v * s, v * c, 0⟩⟩

/-- Source `buildFailure`. -/
def buildFailure (outcome : TransferOutcome) (value value2 : JSNum) :
    TITransferResult :=
  ⟨outcome, value, value2⟩

/-- Parameter bundle for the translation of the porkchop sweep's nested
loops (everything fixed over the whole sweep). -/
structure PorkchopParams where
  useLocalCircularModel : Bool
  originHelioBody : SpaceBody
  destHelioBody : SpaceBody
  originRadius_m : JSNum
  destinationRadius_m : JSNum
  barycenterMu_m3s2 : JSNum
  barycenterMeanRadius_m : JSNum
  fleetAcceleration_mps2 : JSNum
  dvCap_kms : JSNum
  startJY : JSNum
  startTime_s : JSNum
  minTransit_s : JSNum
  transitStep_s : JSNum
  launchStart_s : JSNum
  launchStep_s : JSNum

/-- Accumulated sweep statistics (the mutable locals of
`computePorkchopGrid`). -/
structure PorkchopAcc where
  minDV : JSNum
  maxDV : JSNum
  optimal : Option PorkchopCell
  failureCounts : TransferOutcome → ℕ
  bestFailure : Option TITransferResult

/-- The per-cell evaluation of the sweep (including the downgrade of
borderline successes to `LaunchInPast` / `InsufficientDV` /
`Hyperbolic`). -/
def porkchopCellOutcome (p : PorkchopParams) (launchTime_s : JSNum) (j : ℕ) :
    TwoBurnTransferSolution × TITransferResult :=
  let transitDuration_s := p.minTransit_s + JSNum.num j * p.transitStep_s
  let arrivalTime_s := launchTime_s + transitDuration_s
  let sourceState_m :=
    if p.useLocalCircularModel then
      circularStateAtTime p.originRadius_m p.barycenterMu_m3s2 p.startTime_s
        launchTime_s
    else
      toSIState (bodyStateAt p.originHelioBody
        (p.startJY + daysToJY ((launchTime_s - p.startTime_s) / 86400)))
  let destinationState_m :=
    if p.useLocalCircularModel then
      circularStateAtTime p.destinationRadius_m p.barycenterMu_m3s2 p.startTime_s
        arrivalTime_s
    else
      toSIState (bodyStateAt p.destHelioBody
        (p.startJY + daysToJY ((arrivalTime_s - p.startTime_s) / 86400)))
  let solution := solveTwoBurnLambertTransfer
    ⟨launchTime_s, arrivalTime_s, sourceState_m, destinationState_m,
      p.barycenterMu_m3s2, p.barycenterMeanRadius_m, p.fleetAcceleration_mps2,
      none⟩
  let evaluation : TITransferResult :=
    if solution.result.outcome = TransferOutcome.Success then
      if solution.launchTime_s < p.startTime_s then
        buildFailure TransferOutcome.Fail_LaunchInPast
          (p.startTime_s - solution.launchTime_s) transitDuration_s
      else if p.dvCap_kms < solution.totalDV_mps / 1000 then
        buildFailure TransferOutcome.Fail_InsufficientDV solution.totalDV_mps 0
      else
        match solution.transferOrbit with
        | some orb =>
          if 1 ≤ orb.eccentricity then
            buildFailure TransferOutcome.Fail_Hyperbolic orb.eccentricity 0
          else solution.result
        | none => solution.result
    else solution.result
  (solution, evaluation)

/-- Body of the inner (transit) loop of the sweep: push a cell or a
`null`, updating the optimum and the failure statistics. -/
def porkchopCellStep (p : PorkchopParams) (launchTime_s : JSNum)
    (st : List (Option PorkchopCell) × PorkchopAcc) (j : ℕ) :
    List (Option PorkchopCell) × PorkchopAcc :=
  let se := porkchopCellOutcome p launchTime_s j
  let solution := se.1
  let evaluation := se.2
  if evaluation.outcome = TransferOutcome.Success then
    let cell := transferSolutionToCell solution
    let acc := st.2
    let acc1 :=
      if cell.totalDV < acc.minDV then
        { acc with minDV := cell.totalDV, optimal := some cell }
      else acc
    let acc2 :=
      if acc1.maxDV < cell.totalDV then { acc1 with maxDV := cell.totalDV }
      else acc1
    (st.1 ++ [some cell], acc2)
  else
    let acc := st.2
    (st.1 ++ [none],
      { acc with
        failureCounts := fun o =>
          if o = evaluation.outcome then acc.failureCounts o + 1
          else acc.failureCounts o
        bestFailure := bestTransferResult acc.bestFailure (some evaluation)
          p.fleetAcceleration_mps2 })

/-- Body of the outer (launch) loop of the sweep. -/
def porkchopRowStep (p : PorkchopParams) (NN : ℕ)
    (st : List (List (Option PorkchopCell)) × PorkchopAcc) (i : ℕ) :
    List (List (Option PorkchopCell)) × PorkchopAcc :=
  let launchTime_s := p.launchStart_s + JSNum.num i * p.launchStep_s
  let rowResult := (List.range NN).foldl (porkchopCellStep p launchTime_s)
    ([], st.2)
  (st.1 ++ [rowResult.1], rowResult.2)

/-- The sweep and result-assembly tail of `computePorkchopGrid` (the
nested `for` loops over launch and transit indices and the final
`PorkchopResult` literal), parameterized by the sweep constants `p`
and the loop bound `NN`. -/
def porkchopSweepResult (p : PorkchopParams) (NN : ℕ) : PorkchopResult :=
  let swept := (List.range NN).foldl (porkchopRowStep p NN)
    ([], ⟨JSNum.posInf, 0, none, fun _ => 0, none⟩)
  let minDVout := if ¬ swept.2.minDV.IsFinite then 0 else swept.2.minDV
  { grid := swept.1
    minDV := minDVout
    maxDV := swept.2.maxDV
    optimal := swept.2.optimal
    launchStartDay := p.launchStart_s / 86400
    launchStepDays := p.launchStep_s / 86400
    minTransitDays := p.minTransit_s / 86400
    transitStepDays := p.transitStep_s / 86400
    failureCounts := swept.2.failureCounts
    bestFailureOutcome :=
      match swept.2.bestFailure with
      | some b => some b.outcome
      | none => none
    bestFailureValue :=
      match swept.2.bestFailure with
      | some b => b.value
      | none => 0
    bestFailureValue2 :=
      match swept.2.bestFailure with
      | some b => b.value2
      | none => 0 }

/-- Source `computePorkchopGrid`.  `dateParse` models the JS
environment's `Date.parse` (an external builtin, not part of the
repository). -/
def computePorkchopGrid (inputs : TransferInputs) (bodies : List SpaceBody)
    (orbits : List Orbit) (dateParse : String → JSNum) : PorkchopResult :=
  match orbits.find? (fun o => o.name == inputs.originOrbit),
      orbits.find? (fun o => o.name == inputs.destinationOrbit) with
  | some originOrbit, some destOrbit =>
    (match findHeliocentricBody originOrbit bodies,
        findHeliocentricBody destOrbit bodies with
    | some originHelioBody, some destHelioBody =>
      let originLocalBody := findOrbitBody originOrbit bodies
      let destLocalBody := findOrbitBody destOrbit bodies
      let startDateValue := dateParse (inputs.gameDate ++ "T00:00:00Z")
      if ¬ startDateValue.IsFinite then emptyResult
      else
        let NJS := JSNum.jmax 20 (JSNum.jmin 150 (JSNum.floor inputs.gridResolution))
        let launchAcceleration_mg :=
          if inputs.launchAcceleration_mg.IsFinite
          then JSNum.jmax 0 inputs.launchAcceleration_mg
          else 0
        let fleetAcceleration_mps2 :=
          launchAcceleration_mg * STANDARD_GRAVITY_MPS2 / 1000
        let dvCap_kms :=
          if inputs.maxDeltaV_kms.IsFinite ∧ 0 < inputs.maxDeltaV_kms
          then inputs.maxDeltaV_kms
          else JSNum.posInf
        let samePrimaryBody := originHelioBody.name == destHelioBody.name
        let sameLocalBody :=
          match originLocalBody, destLocalBody with
          | some ob, some db => ob.name == db.name
          | _, _ => false
        let useLocalCircularModel := samePrimaryBody && sameLocalBody
        let localBarycenterBody :=
          if useLocalCircularModel then originLocalBody else none
        if useLocalCircularModel && localBarycenterBody.isNone then emptyResult
        else
          let params : JSNum × JSNum × JSNum × JSNum :=
            if useLocalCircularModel then
              match localBarycenterBody with
              | some lb =>
                (G_SI * lb.mass_kg, lb.equatorialRadius_km * 1000,
                  getOrbitRadiusKm originOrbit lb * 1000,
                  getOrbitRadiusKm destOrbit lb * 1000)
              | none =>
                (GM_SUN_M3S2, SUN_MEAN_RADIUS_M,
                  originHelioBody.semiMajorAxis_AU * AU_M,
                  destHelioBody.semiMajorAxis_AU * AU_M)
            else
              (GM_SUN_M3S2, SUN_MEAN_RADIUS_M,
                originHelioBody.semiMajorAxis_AU * AU_M,
                destHelioBody.semiMajorAxis_AU * AU_M)
          let barycenterMu_m3s2 := params.1
          let barycenterMeanRadius_m := params.2.1
          let originRadius_m := params.2.2.1
          let destinationRadius_m := params.2.2.2
          let isSunBarycenter := ! useLocalCircularModel
          if ¬ barycenterMu_m3s2.IsFinite ∨ barycenterMu_m3s2 ≤ 0 then emptyResult
          else
            let startJY := dateToJYms startDateValue
            let startTime_s := startDateValue / 1000
            let hohmannTransferDuration_s :=
              hohmannDuration_s originRadius_m destinationRadius_m
                barycenterMu_m3s2
            let synodic_s :=
              synodicPeriod_s originRadius_m destinationRadius_m
                barycenterMu_m3s2
            let launchSpanCap_s :=
              if isSunBarycenter then 3 * SECONDS_PER_YEAR
              else 120 * SECONDS_PER_DAY
            let launchSpan_s := JSNum.jmin
              (if synodic_s.IsFinite ∧ 0 < synodic_s then synodic_s
                else launchSpanCap_s)
              launchSpanCap_s
            let launchStep_s := if 1 < NJS then launchSpan_s / (NJS - 1) else 0
            let launchStart_s := startTime_s
            let transitMinFloor_s :=
              if isSunBarycenter then 5 * SECONDS_PER_DAY else 3600
            let minTransit_s := JSNum.jmax transitMinFloor_s
              (hohmannTransferDuration_s * (0.3 : JSNum))
            let transitSpanCap_s :=
              if isSunBarycenter then 3 * SECONDS_PER_YEAR
              else 120 * SECONDS_PER_DAY
            let synodicTransitCap_s :=
              if synodic_s.IsFinite ∧ 0 < synodic_s then synodic_s * (0.9 : JSNum)
              else transitSpanCap_s
            let maxTransitTarget_s := JSNum.jmin
              (JSNum.jmin transitSpanCap_s synodicTransitCap_s)
              (hohmannTransferDuration_s * 3)
            let transitStepFloor_s :=
              if isSunBarycenter then SECONDS_PER_DAY else 1800
            let maxTransit_s := JSNum.jmax (minTransit_s + transitStepFloor_s)
              maxTransitTarget_s
            let transitStep_s :=
              if 1 < NJS then (maxTransit_s - minTransit_s) / (NJS - 1) else 0
            let p : PorkchopParams :=
              { useLocalCircularModel := useLocalCircularModel
                originHelioBody := originHelioBody
                destHelioBody := destHelioBody
                originRadius_m := originRadius_m
                destinationRadius_m := destinationRadius_m
                barycenterMu_m3s2 := barycenterMu_m3s2
                barycenterMeanRadius_m := barycenterMeanRadius_m
                fleetAcceleration_mps2 := fleetAcceleration_mps2
                dvCap_kms := dvCap_kms
                startJY := startJY
                startTime_s := startTime_s
                minTransit_s := minTransit_s
                transitStep_s := transitStep_s
                launchStart_s := launchStart_s
                launchStep_s := launchStep_s }
            porkchopSweepResult p (jsCountLT NJS)
    | _, _ => emptyResult)
  | _, _ => emptyResult

/-- For JS numbers, `a < b` rules out `b ≤ a` (NaN included). -/
theorem JSNum.not_le_of_lt : ∀ {a b : JSNum}, a < b → ¬ b ≤ a := by
  intro a b h hc
  cases a <;> cases b <;>
    first
      | exact h
      | exact hc
      | exact absurd (show (_ : ℝ) ≤ _ from hc) (not_le.mpr (show (_ : ℝ) < _ from h))

/-- For JS numbers, `0 < t` rules out `t ≤ 0`. -/
theorem JSNum.not_le_zero_of_zero_lt {t : JSNum} (h : (0 : JSNum) < t) :
    ¬ t ≤ 0 :=
  JSNum.not_le_of_lt h

/-! ## Claim theorems -/

/-- Helper: `bestTransferResult` always returns one of its arguments. -/
lemma bestTransferResult_eq_or (a b : Option TITransferResult) (f : JSNum) :
    bestTransferResult a b f = a ∨ bestTransferResult a b f = b := by
  rcases b with _ | bb
  · left; rfl
  · rcases a with _ | aa
    · right; rfl
    · simp only [bestTransferResult]
      by_cases h1 : aa.outcome = TransferOutcome.Success
      · simp [h1]
      · by_cases h2 : bb.outcome = TransferOutcome.Success
        · simp [h1, h2]
        · simp only [h1, h2, if_false]
          rcases hda : tryGetMinimumDVneeded_mps aa with _ | aDv <;>
            rcases hdb : tryGetMinimumDVneeded_mps bb with _ | bDv
          · rcases haa : tryGetMinimumAccelerationNeeded aa f with _ | aAcc <;>
              rcases hba : tryGetMinimumAccelerationNeeded bb f with _ | bAcc
            · by_cases h3 : aa.outcome = TransferOutcome.Fail_CodePathNotImplemented
              · simp [h3]
              · simp [h3]
            · simp
            · simp
            · by_cases h4 : aAcc < bAcc
              · simp [h4]
              · simp [h4]
          · simp
          · simp
          · by_cases h5 : aDv < bDv
            · simp [h5]
            · simp [h5]

/-- C5.  `bestTransferResult` is total on non-null inputs: it returns a
non-null result that is one of its two arguments, and whenever exactly
one argument is a `Success`, that argument is returned. -/
theorem c5_best_transfer_result_total (a b : Option TITransferResult) (f : JSNum)
    (h : a ≠ none ∨ b ≠ none) :
    (∃ r, bestTransferResult a b f = some r ∧ (a = some r ∨ b = some r))
    ∧ (∀ ra, a = some ra → ra.outcome = TransferOutcome.Success →
        (∀ rb, b = some rb → rb.outcome ≠ TransferOutcome.Success) →
        bestTransferResult a b f = some ra)
    ∧ (∀ rb, b = some rb → rb.outcome = TransferOutcome.Success →
        (∀ ra, a = some ra → ra.outcome ≠ TransferOutcome.Success) →
        bestTransferResult a b f = some rb) := by
  refine ⟨?_, ?_, ?_⟩
  · rcases a with _ | ra
    · rcases b with _ | rb
      · exact absurd h (by simp)
      · exact ⟨rb, by simp [bestTransferResult], Or.inr rfl⟩
    · rcases b with _ | rb
      · exact ⟨ra, by simp [bestTransferResult], Or.inl rfl⟩
      · rcases bestTransferResult_eq_or (some ra) (some rb) f with heq | heq
        · exact ⟨ra, heq, Or.inl rfl⟩
        · exact ⟨rb, heq, Or.inr rfl⟩
  · intro ra ha hsucc _
    subst ha
    rcases b with _ | rb
    · rfl
    · simp [bestTransferResult, hsucc]
  · intro rb hb hsucc hnota
    subst hb
    rcases a with _ | ra
    · rfl
    · have hra : ra.outcome ≠ TransferOutcome.Success := hnota ra rfl
      simp [bestTransferResult, hra, hsucc]

/-- C5, witness: with a successful first argument and a `Parabolic`
second argument, the comparator returns the success. -/
theorem c5_witness :
    bestTransferResult (some ⟨TransferOutcome.Success, 0, 0⟩)
        (some ⟨TransferOutcome.Fail_Parabolic, 1, 0⟩) 1
      = some ⟨TransferOutcome.Success, 0, 0⟩ := by
  refine (c5_best_transfer_result_total
    (some ⟨TransferOutcome.Success, 0, 0⟩)
    (some ⟨TransferOutcome.Fail_Parabolic, 1, 0⟩) 1
    (Or.inl (by simp))).2.1 _ rfl rfl ?_
  intro rb hrb
  injection hrb with hrb
  rw [← hrb]
  simp

/-- C10.  With positive transit duration and a non-finite or
non-positive fleet acceleration, `solveTorchTransfer` fails with
`Fail_InsufficientAcceleration` before attempting the Newton iteration:
it returns the empty solution (all ΔV and burn-time fields `0`,
`transferOrbit` null, input times unchanged). -/
theorem c10_torch_insufficient_acceleration (input : TwoBurnTransferInput)
    (ht : (0 : JSNum) < input.arrivalTime_s - input.launchTime_s)
    (ha : ¬ input.fleetAcceleration_mps2.IsFinite
      ∨ input.fleetAcceleration_mps2 ≤ 0) :
    solveTorchTransfer input
      = emptySolution input
          (makeResult TransferOutcome.Fail_InsufficientAcceleration 0 0) := by
  have hnot : ¬ (input.arrivalTime_s - input.launchTime_s ≤ 0) :=
    JSNum.not_le_zero_of_zero_lt ht
  rw [solveTorchTransfer, if_neg hnot, if_pos ha]

/-- C10, witness: a concrete input with transit `100` and acceleration
`0`. -/
theorem c10_witness :
    solveTorchTransfer
        ⟨0, 100, ⟨⟨1, 0, 0⟩, ⟨0, 0, 0⟩⟩, ⟨⟨0, 1, 0⟩, ⟨0, 0, 0⟩⟩, 1, 1, 0, none⟩
      = emptySolution
          ⟨0, 100, ⟨⟨1, 0, 0⟩, ⟨0, 0, 0⟩⟩, ⟨⟨0, 1, 0⟩, ⟨0, 0, 0⟩⟩, 1, 1, 0, none⟩
          (makeResult TransferOutcome.Fail_InsufficientAcceleration 0 0) := by
  refine c10_torch_insufficient_acceleration _ ?_ ?_
  · show (0 : JSNum) < (100 : JSNum) - (0 : JSNum)
    simp
  · right
    show (0 : JSNum) ≤ (0 : JSNum)
    simp

/-- Concrete successful Lambert-side solution for exercising the
Lambert/Torch selection (total ΔV 12 m/s). -/
def c1LambertSolution : TwoBurnTransferSolution :=
  ⟨⟨TransferOutcome.Success, 0, 0⟩, 0, 100, 100, 6, 6, 12, 1, 1, none⟩

/-- Concrete successful torch-side solution with strictly lower total ΔV
(5 m/s). -/
def c1TorchSolution : TwoBurnTransferSolution :=
  ⟨⟨TransferOutcome.Success, 0, 0⟩, 0, 100, 100, 2, 3, 5, 1, 1, none⟩

/-- C1, counterexample.  `bestSolution` (the Lambert/Torch selection
used by `solveTwoBurnLambertTransfer` before any hybrid ΔV adjustment)
does not pick the lower-ΔV solution when both are successes: with a
successful Lambert solution of 12 m/s and a successful torch solution
of 5 m/s it still returns the Lambert solution. -/
theorem c1_counterexample :
    isSuccess c1LambertSolution ∧ isSuccess c1TorchSolution
    ∧ c1TorchSolution.totalDV_mps < c1LambertSolution.totalDV_mps
    ∧ bestSolution c1LambertSolution c1TorchSolution 1 = c1LambertSolution
    ∧ c1LambertSolution ≠ c1TorchSolution := by
  refine ⟨rfl, rfl, ?_, ?_, ?_⟩
  · show (5 : JSNum) < (12 : JSNum)
    simp
    norm_num
  · simp [bestSolution, isSuccess, c1LambertSolution]
  · intro h
    have := congrArg TwoBurnTransferSolution.boostDV_mps h
    simp [c1LambertSolution, c1TorchSolution] at this

/-- C1, amended.  Whenever the Lambert solution is a success (in
particular whenever both solutions are successes), `bestSolution`
returns the Lambert solution, regardless of the torch solution's total
ΔV. -/
theorem c1_best_solution_prefers_lambert (l t : TwoBurnTransferSolution)
    (f : JSNum) (hl : isSuccess l) (_ht : isSuccess t) :
    bestSolution l t f = l := by
  simp [bestSolution, hl]

/-- C1, witness for the amended theorem at the two concrete successful
solutions. -/
theorem c1_witness :
    bestSolution c1LambertSolution c1TorchSolution 1 = c1LambertSolution :=
  c1_best_solution_prefers_lambert c1LambertSolution c1TorchSolution 1 rfl rfl

/-! ## Support lemmas for the `ArrivalBeforeLaunch` gate -/

theorem JSNum.not_sub_le_zero_of_not_le : ∀ {a l : JSNum},
    ¬ a ≤ l → ¬ (a - l ≤ 0) := by
  intro a l h hc
  cases a <;> cases l <;>
    first
      | exact hc
      | exact h trivial
      | skip
  rename_i x y
  have h0 : x + -y ≤ ((0 : ℕ) : ℝ) := hc
  refine h ?_
  show x ≤ y
  clear h hc
  push_cast at h0
  linarith

/-- `bestSolution` always returns one of its two arguments. -/
theorem bestSolution_eq_or (l t : TwoBurnTransferSolution) (f : JSNum) :
    bestSolution l t f = l ∨ bestSolution l t f = t := by
  unfold bestSolution
  dsimp only
  split
  · exact Or.inl rfl
  · split
    · exact Or.inr rfl
    · split
      · exact Or.inl rfl
      · exact Or.inr rfl

/-- `bestSolution` of two identical solutions is that solution. -/
theorem bestSolution_self (s : TwoBurnTransferSolution) (f : JSNum) :
    bestSolution s s f = s := by
  rcases bestSolution_eq_or s s f with h | h <;> exact h

/-- `chooseBetterSolution` always returns one of its two arguments. -/
theorem chooseBetterSolution_eq_or (a b : TwoBurnTransferSolution) (f : JSNum) :
    chooseBetterSolution a b f = a ∨ chooseBetterSolution a b f = b := by
  unfold chooseBetterSolution
  dsimp only
  split
  · split
    · exact Or.inl rfl
    · exact Or.inr rfl
  · split
    · exact Or.inl rfl
    · split
      · exact Or.inr rfl
      · split
        · exact Or.inl rfl
        · exact Or.inr rfl

/-- The hybrid ΔV adjustment never touches the `result` field. -/
theorem applyHybridDVAdjustment_result (s : TwoBurnTransferSolution)
    (f g : JSNum) : (applyHybridDVAdjustment s f g).result = s.result := by
  unfold applyHybridDVAdjustment
  dsimp only
  split
  · rfl
  · split
    · rfl
    · split
      · rfl
      · rfl

/-- Away from the non-positive-transit gate, `solveTorchTransfer` never
produces the `Fail_ArrivalBeforeLaunch` outcome. -/
theorem solveTorchTransfer_not_abl (input : TwoBurnTransferInput)
    (h : ¬ (input.arrivalTime_s - input.launchTime_s ≤ 0)) :
    (solveTorchTransfer input).result.outcome
      ≠ TransferOutcome.Fail_ArrivalBeforeLaunch := by
  unfold solveTorchTransfer
  dsimp only
  rw [if_neg h]
  repeat' split
  all_goals simp [emptySolution, makeResult]

/-- Away from the non-positive-transit gate, `solvePureLambertTransfer`
never produces the `Fail_ArrivalBeforeLaunch` outcome. -/
theorem solvePureLambertTransfer_not_abl (input : TwoBurnTransferInput)
    (h : ¬ (input.arrivalTime_s - input.launchTime_s ≤ 0)) :
    (solvePureLambertTransfer input).result.outcome
      ≠ TransferOutcome.Fail_ArrivalBeforeLaunch := by
  unfold solvePureLambertTransfer
  dsimp only
  rw [if_neg h]
  cases hc1 : (chooseLambert
      (solveLambert (input.arrivalTime_s - input.launchTime_s)
        input.sourceState_m input.destinationState_m
        input.barycenterMu_m3s2 false)
      (solveLambert (input.arrivalTime_s - input.launchTime_s)
        input.sourceState_m input.destinationState_m
        input.barycenterMu_m3s2 true)).1
  · exact fun hF => TransferOutcome.noConfusion hF
  · cases hc2 : (chooseLambert
        (solveLambert (input.arrivalTime_s - input.launchTime_s)
          input.sourceState_m input.destinationState_m
          input.barycenterMu_m3s2 false)
        (solveLambert (input.arrivalTime_s - input.launchTime_s)
          input.sourceState_m input.destinationState_m
          input.barycenterMu_m3s2 true)).2
    all_goals dsimp only
    all_goals repeat' split
    all_goals
      first
        | exact fun hF => TransferOutcome.noConfusion hF
        | skip
    rename_i earlyReturn heq
    split at heq
    · split at heq
      · injection heq with h1
        subst h1
        exact fun hF => TransferOutcome.noConfusion hF
      · split at heq
        · injection heq with h1
          subst h1
          exact fun hF => TransferOutcome.noConfusion hF
        · exact Option.noConfusion heq
    · exact Option.noConfusion heq

/-- Any state the `remapHybridInput` iteration settles on is either its
starting state or has its mapped arrival strictly after its mapped
launch (JS `mappedDestination.time_s <= mappedSource.time_s` gate). -/
theorem remapLoop_some (input : TwoBurnTransferInput) (remap : HybridRemapInput)
    (window_s samples : JSNum) :
    ∀ (fuel : ℕ) (st st' : RemapState),
      remapLoop input remap window_s samples fuel st = some st' →
      st' = st ∨ ¬ (st'.arrivalTime_s ≤ st'.launchTime_s) := by
  intro fuel
  induction fuel with
  | zero =>
    intro st st' hrl
    injection hrl with h1
    exact Or.inl h1.symm
  | succ n ih =>
    intro st st' hrl
    simp only [remapLoop] at hrl
    split at hrl
    · exact Option.noConfusion hrl
    · split at hrl
      · exact Option.noConfusion hrl
      · split at hrl
        · rename_i ms md heq
          split at hrl
          · exact Option.noConfusion hrl
          · rename_i hlt
            split at hrl
            · injection hrl with h1
              subst h1
              exact Or.inr hlt
            · rcases ih _ _ hrl with h1 | h1
              · subst h1
                exact Or.inr hlt
              · exact Or.inr h1
        · exact Option.noConfusion hrl

/-- A successfully remapped input still has its arrival strictly after
its launch (in the JS comparison sense): its transit duration is never
`<= 0`. -/
theorem remapHybridInput_not_abl (input inp' : TwoBurnTransferInput)
    (hrm : remapHybridInput input = some inp') :
    ¬ (inp'.arrivalTime_s - inp'.launchTime_s ≤ 0) := by
  unfold remapHybridInput at hrm
  dsimp only at hrm
  split at hrm
  · exact Option.noConfusion hrm
  · rename_i remap hremap
    split at hrm
    · exact Option.noConfusion hrm
    · rename_i hpos
      split at hrm
      · exact Option.noConfusion hrm
      · rename_i st hst
        injection hrm with h1
        subst h1
        rcases remapLoop_some input remap _ _ _ _ _ hst with h1 | h1
        · subst h1
          exact fun hc => JSNum.not_le_zero_of_zero_lt (not_not.mp hpos) hc
        · exact JSNum.not_sub_le_zero_of_not_le h1

/-- With a non-positive transit duration both inner solvers and hence
the full `solveTwoBurnLambertTransfer` return the empty
`Fail_ArrivalBeforeLaunch` solution, unchanged by the hybrid ΔV
adjustment. -/
theorem solveTwoBurnLambertTransfer_of_nonpos (input : TwoBurnTransferInput)
    (h : input.arrivalTime_s - input.launchTime_s ≤ 0) :
    solveTwoBurnLambertTransfer input
      = emptySolution input
          (makeResult TransferOutcome.Fail_ArrivalBeforeLaunch
            (input.arrivalTime_s - input.launchTime_s) 0) := by
  have hlam : solvePureLambertTransfer input
      = emptySolution input
          (makeResult TransferOutcome.Fail_ArrivalBeforeLaunch
            (input.arrivalTime_s - input.launchTime_s) 0) := by
    unfold solvePureLambertTransfer
    dsimp only
    rw [if_pos h]
    rfl
  have htorch : solveTorchTransfer input
      = emptySolution input
          (makeResult TransferOutcome.Fail_ArrivalBeforeLaunch
            (input.arrivalTime_s - input.launchTime_s) 0) := by
    unfold solveTorchTransfer
    dsimp only
    rw [if_pos h]
  have hrm : remapHybridInput input = none := by
    unfold remapHybridInput
    dsimp only
    cases hhr : input.hybridRemap with
    | none => rfl
    | some remap =>
      dsimp only
      rw [if_pos (show ¬ (0 < input.arrivalTime_s - input.launchTime_s) from
        fun hlt => JSNum.not_le_of_lt hlt h)]
  unfold solveTwoBurnLambertTransfer
  dsimp only
  rw [hlam, htorch, bestSolution_self, hrm]
  cases hhr : input.hybridRemap with
  | none => rfl
  | some r =>
    show applyHybridDVAdjustment _ _ _ = _
    unfold applyHybridDVAdjustment
    dsimp only
    rw [if_pos (show ¬ isSuccess (emptySolution input
        (makeResult TransferOutcome.Fail_ArrivalBeforeLaunch
          (input.arrivalTime_s - input.launchTime_s) 0)) from
      fun hs => TransferOutcome.noConfusion hs)]

/-- `bestSolution` of the two inner solvers never carries the
`Fail_ArrivalBeforeLaunch` outcome when the transit duration is not
`<= 0`. -/
theorem bestSolution_not_abl (i : TwoBurnTransferInput) (accel : JSNum)
    (h : ¬ (i.arrivalTime_s - i.launchTime_s ≤ 0)) :
    (bestSolution (solvePureLambertTransfer i) (solveTorchTransfer i)
        accel).result.outcome ≠ TransferOutcome.Fail_ArrivalBeforeLaunch := by
  rcases bestSolution_eq_or (solvePureLambertTransfer i) (solveTorchTransfer i)
      accel with he | he <;> rw [he]
  · exact solvePureLambertTransfer_not_abl i h
  · exact solveTorchTransfer_not_abl i h

/-- Away from the non-positive-transit gate, the full transfer
evaluator never returns `Fail_ArrivalBeforeLaunch`. -/
theorem solveTwoBurnLambertTransfer_not_abl (input : TwoBurnTransferInput)
    (h : ¬ (input.arrivalTime_s - input.launchTime_s ≤ 0)) :
    (solveTwoBurnLambertTransfer input).result.outcome
      ≠ TransferOutcome.Fail_ArrivalBeforeLaunch := by
  unfold solveTwoBurnLambertTransfer
  dsimp only
  cases hrm : remapHybridInput input with
  | none =>
    dsimp only
    cases hhr : input.hybridRemap with
    | none => exact bestSolution_not_abl input _ h
    | some r =>
      dsimp only
      rw [applyHybridDVAdjustment_result]
      exact bestSolution_not_abl input _ h
  | some inp2 =>
    have h2 := remapHybridInput_not_abl input inp2 hrm
    dsimp only
    cases hhr : input.hybridRemap with
    | none =>
      dsimp only
      split
      · split
        · exact bestSolution_not_abl inp2 _ h2
        · exact bestSolution_not_abl input _ h
      · rcases chooseBetterSolution_eq_or
            (bestSolution (solvePureLambertTransfer input)
              (solveTorchTransfer input) input.fleetAcceleration_mps2)
            (bestSolution (solvePureLambertTransfer inp2)
              (solveTorchTransfer inp2) input.fleetAcceleration_mps2)
            input.fleetAcceleration_mps2 with he | he
        · show (chooseBetterSolution _ _ _).result.outcome ≠ _
          rw [he]
          exact bestSolution_not_abl input _ h
        · show (chooseBetterSolution _ _ _).result.outcome ≠ _
          rw [he]
          exact bestSolution_not_abl inp2 _ h2
    | some r =>
      dsimp only
      rw [applyHybridDVAdjustment_result]
      split
      · split
        · exact bestSolution_not_abl inp2 _ h2
        · exact bestSolution_not_abl input _ h
      · rcases chooseBetterSolution_eq_or
            (bestSolution (solvePureLambertTransfer input)
              (solveTorchTransfer input) input.fleetAcceleration_mps2)
            (bestSolution (solvePureLambertTransfer inp2)
              (solveTorchTransfer inp2) input.fleetAcceleration_mps2)
            input.fleetAcceleration_mps2 with he | he
        · show (chooseBetterSolution _ _ _).result.outcome ≠ _
          rw [he]
          exact bestSolution_not_abl input _ h
        · show (chooseBetterSolution _ _ _).result.outcome ≠ _
          rw [he]
          exact bestSolution_not_abl inp2 _ h2

/-- C7.  `solveTwoBurnLambertTransfer` returns outcome
`Fail_ArrivalBeforeLaunch` if and only if
`arrivalTime_s - launchTime_s <= 0` (in JS comparison semantics, so a
NaN transit duration is not `<= 0`); and in that case the returned
solution is the empty solution: all ΔV and burn-time fields 0,
`transferOrbit` null, and the input's launch and arrival times returned
unchanged. -/
theorem c7_arrival_before_launch_iff (input : TwoBurnTransferInput) :
    ((solveTwoBurnLambertTransfer input).result.outcome
        = TransferOutcome.Fail_ArrivalBeforeLaunch
      ↔ input.arrivalTime_s - input.launchTime_s ≤ 0)
    ∧ (input.arrivalTime_s - input.launchTime_s ≤ 0 →
        solveTwoBurnLambertTransfer input
          = emptySolution input
              (makeResult TransferOutcome.Fail_ArrivalBeforeLaunch
                (input.arrivalTime_s - input.launchTime_s) 0)) := by
  constructor
  · constructor
    · intro habl
      by_contra hn
      exact solveTwoBurnLambertTransfer_not_abl input hn habl
    · intro hle
      rw [solveTwoBurnLambertTransfer_of_nonpos input hle]
      rfl
  · exact solveTwoBurnLambertTransfer_of_nonpos input

/-! ## Support for the collision-retry branch -/

theorem if_false_bool {α : Sort u} (a b : α) :
    (if (false = true) then a else b) = b := rfl

theorem if_true_bool {α : Sort u} (a b : α) :
    (if (true = true) then a else b) = a := rfl

/-- C4.  When the primary Lambert branch's transfer orbit collides with
the barycenter strictly between launch and arrival (and is a valid,
non-parabolic orbit), and the fallback branch — when one exists — also
yields a valid, non-parabolic, colliding orbit, then
`solvePureLambertTransfer` fails with `Fail_WouldCollideWithBody`,
`value` the larger (`Math.max`) of the two branches' periapsis radii
(of the single branch's periapsis when there is no fallback), `value2`
the central body's mean radius, all ΔV and burn-time fields 0, and a
null `transferOrbit`. -/
theorem c4_collision_failure_payload (input : TwoBurnTransferInput) :
    match
      (chooseLambert
        (solveLambert (input.arrivalTime_s - input.launchTime_s)
          input.sourceState_m input.destinationState_m
          input.barycenterMu_m3s2 false)
        (solveLambert (input.arrivalTime_s - input.launchTime_s)
          input.sourceState_m input.destinationState_m
          input.barycenterMu_m3s2 true)).1,
      (chooseLambert
        (solveLambert (input.arrivalTime_s - input.launchTime_s)
          input.sourceState_m input.destinationState_m
          input.barycenterMu_m3s2 false)
        (solveLambert (input.arrivalTime_s - input.launchTime_s)
          input.sourceState_m input.destinationState_m
          input.barycenterMu_m3s2 true)).2 with
    | none, _ => True
    | some primary, none =>
      let orbit1 := cartesianToOrbitalElements
        ⟨input.sourceState_m.pos, primary.initialVelocity⟩
        input.barycenterMu_m3s2 input.launchTime_s
      ¬ (¬ (input.arrivalTime_s - input.launchTime_s ≤ 0)
          ∧ orbit1.meanAnomalyAtEpoch_Rad.IsFinite
          ∧ ¬ orbit1.meanAnomalyAtEpoch_Rad.IsNaN
          ∧ ¬ approximately orbit1.eccentricity 1
          ∧ wouldCollideWithBarycenter orbit1 input.launchTime_s
              input.arrivalTime_s input.barycenterMeanRadius_m
              input.barycenterMu_m3s2)
      ∨ solvePureLambertTransfer input =
          { result := makeResult TransferOutcome.Fail_WouldCollideWithBody
              (JSNum.jmax orbit1.periapsis_m orbit1.periapsis_m)
              input.barycenterMeanRadius_m
            launchTime_s := input.launchTime_s
            arrivalTime_s := input.arrivalTime_s
            transitDuration_s := input.arrivalTime_s - input.launchTime_s
            boostDV_mps := 0
            decelDV_mps := 0
            totalDV_mps := 0
            boostBurnTime_s := 0
            decelBurnTime_s := 0
            transferOrbit := none }
    | some primary, some secondary =>
      let orbit1 := cartesianToOrbitalElements
        ⟨input.sourceState_m.pos, primary.initialVelocity⟩
        input.barycenterMu_m3s2 input.launchTime_s
      let orbit2 := cartesianToOrbitalElements
        ⟨input.sourceState_m.pos, secondary.initialVelocity⟩
        input.barycenterMu_m3s2 input.launchTime_s
      ¬ (¬ (input.arrivalTime_s - input.launchTime_s ≤ 0)
          ∧ orbit1.meanAnomalyAtEpoch_Rad.IsFinite
          ∧ ¬ orbit1.meanAnomalyAtEpoch_Rad.IsNaN
          ∧ ¬ approximately orbit1.eccentricity 1
          ∧ wouldCollideWithBarycenter orbit1 input.launchTime_s
              input.arrivalTime_s input.barycenterMeanRadius_m
              input.barycenterMu_m3s2
          ∧ orbit2.meanAnomalyAtEpoch_Rad.IsFinite
          ∧ ¬ orbit2.meanAnomalyAtEpoch_Rad.IsNaN
          ∧ ¬ approximately orbit2.eccentricity 1
          ∧ wouldCollideWithBarycenter orbit2 input.launchTime_s
              input.arrivalTime_s input.barycenterMeanRadius_m
              input.barycenterMu_m3s2)
      ∨ solvePureLambertTransfer input =
          { result := makeResult TransferOutcome.Fail_WouldCollideWithBody
              (JSNum.jmax orbit1.periapsis_m orbit2.periapsis_m)
              input.barycenterMeanRadius_m
            launchTime_s := input.launchTime_s
            arrivalTime_s := input.arrivalTime_s
            transitDuration_s := input.arrivalTime_s - input.launchTime_s
            boostDV_mps := 0
            decelDV_mps := 0
            totalDV_mps := 0
            boostBurnTime_s := 0
            decelBurnTime_s := 0
            transferOrbit := none } := by
  cases hc1 : (chooseLambert
      (solveLambert (input.arrivalTime_s - input.launchTime_s)
        input.sourceState_m input.destinationState_m
        input.barycenterMu_m3s2 false)
      (solveLambert (input.arrivalTime_s - input.launchTime_s)
        input.sourceState_m input.destinationState_m
        input.barycenterMu_m3s2 true)).1 with
  | none => exact trivial
  | some primary =>
    cases hc2 : (chooseLambert
        (solveLambert (input.arrivalTime_s - input.launchTime_s)
          input.sourceState_m input.destinationState_m
          input.barycenterMu_m3s2 false)
        (solveLambert (input.arrivalTime_s - input.launchTime_s)
          input.sourceState_m input.destinationState_m
          input.barycenterMu_m3s2 true)).2 with
    | none =>
      dsimp only
      rcases Classical.em
          (¬ (input.arrivalTime_s - input.launchTime_s ≤ 0)
            ∧ (cartesianToOrbitalElements
                ⟨input.sourceState_m.pos, primary.initialVelocity⟩
                input.barycenterMu_m3s2
                input.launchTime_s).meanAnomalyAtEpoch_Rad.IsFinite
            ∧ ¬ (cartesianToOrbitalElements
                ⟨input.sourceState_m.pos, primary.initialVelocity⟩
                input.barycenterMu_m3s2
                input.launchTime_s).meanAnomalyAtEpoch_Rad.IsNaN
            ∧ ¬ approximately (cartesianToOrbitalElements
                ⟨input.sourceState_m.pos, primary.initialVelocity⟩
                input.barycenterMu_m3s2 input.launchTime_s).eccentricity 1
            ∧ wouldCollideWithBarycenter
                (cartesianToOrbitalElements
                  ⟨input.sourceState_m.pos, primary.initialVelocity⟩
                  input.barycenterMu_m3s2 input.launchTime_s)
                input.launchTime_s input.arrivalTime_s
                input.barycenterMeanRadius_m input.barycenterMu_m3s2)
        with hC | hC
      · refine Or.inr ?_
        obtain ⟨htr, hfin, hnan, hpara, hcol⟩ := hC
        unfold solvePureLambertTransfer
        dsimp only
        rw [if_neg htr, hc1]
        dsimp only
        rw [if_neg (not_or.mpr ⟨not_not.mpr hfin, hnan⟩), if_neg hpara, hc2]
        dsimp only
        try simp only [if_false_bool, if_false]
        rw [if_pos hcol]
      · exact Or.inl hC
    | some secondary =>
      dsimp only
      rcases Classical.em
          (¬ (input.arrivalTime_s - input.launchTime_s ≤ 0)
            ∧ (cartesianToOrbitalElements
                ⟨input.sourceState_m.pos, primary.initialVelocity⟩
                input.barycenterMu_m3s2
                input.launchTime_s).meanAnomalyAtEpoch_Rad.IsFinite
            ∧ ¬ (cartesianToOrbitalElements
                ⟨input.sourceState_m.pos, primary.initialVelocity⟩
                input.barycenterMu_m3s2
                input.launchTime_s).meanAnomalyAtEpoch_Rad.IsNaN
            ∧ ¬ approximately (cartesianToOrbitalElements
                ⟨input.sourceState_m.pos, primary.initialVelocity⟩
                input.barycenterMu_m3s2 input.launchTime_s).eccentricity 1
            ∧ wouldCollideWithBarycenter
                (cartesianToOrbitalElements
                  ⟨input.sourceState_m.pos, primary.initialVelocity⟩
                  input.barycenterMu_m3s2 input.launchTime_s)
                input.launchTime_s input.arrivalTime_s
                input.barycenterMeanRadius_m input.barycenterMu_m3s2
            ∧ (cartesianToOrbitalElements
                ⟨input.sourceState_m.pos, secondary.initialVelocity⟩
                input.barycenterMu_m3s2
                input.launchTime_s).meanAnomalyAtEpoch_Rad.IsFinite
            ∧ ¬ (cartesianToOrbitalElements
                ⟨input.sourceState_m.pos, secondary.initialVelocity⟩
                input.barycenterMu_m3s2
                input.launchTime_s).meanAnomalyAtEpoch_Rad.IsNaN
            ∧ ¬ approximately (cartesianToOrbitalElements
                ⟨input.sourceState_m.pos, secondary.initialVelocity⟩
                input.barycenterMu_m3s2 input.launchTime_s).eccentricity 1
            ∧ wouldCollideWithBarycenter
                (cartesianToOrbitalElements
                  ⟨input.sourceState_m.pos, secondary.initialVelocity⟩
                  input.barycenterMu_m3s2 input.launchTime_s)
                input.launchTime_s input.arrivalTime_s
                input.barycenterMeanRadius_m input.barycenterMu_m3s2)
        with hC | hC
      · refine Or.inr ?_
        obtain ⟨htr, hfin1, hnan1, hpara1, hcol1, hfin2, hnan2, hpara2,
          hcol2⟩ := hC
        unfold solvePureLambertTransfer
        dsimp only
        rw [if_neg htr, hc1]
        dsimp only
        rw [if_neg (not_or.mpr ⟨not_not.mpr hfin1, hnan1⟩), if_neg hpara1, hc2]
        dsimp only
        simp only [if_pos hcol1]
        rw [if_neg (not_or.mpr ⟨not_not.mpr hfin2, hnan2⟩), if_neg hpara2]
        dsimp only
        try simp only [if_true_bool, if_true]
        rw [if_pos hcol2]
      · exact Or.inl hC

/-! ## Grid dimensions of the porkchop sweep -/

/-- Spec-side grid resolution: "N is floor(gridResolution) clamped to
the interval [20, 150]" (0 when the resolution is NaN, in which case
the sweep runs zero iterations). -/
def specGridN (gridResolution : JSNum) : ℕ :=
  match gridResolution with
  | JSNum.num x => (max 20 (min 150 ⌊x⌋)).toNat
  | JSNum.posInf => 150
  | JSNum.negInf => 20
  | JSNum.nan => 0

theorem jsCountLT_natCast (n : ℕ) : jsCountLT (JSNum.num n) = n := by
  unfold jsCountLT
  dsimp only
  rcases Nat.eq_zero_or_pos n with h0 | h0
  · subst h0
    norm_num
  · rw [if_neg (not_le.mpr (by exact_mod_cast h0))]
    rw [Int.ceil_natCast]
    simp

/-- The loop bound `jsCountLT N` of the sweep equals the spec-side
clamped resolution. -/
theorem jsCountLT_clamp (g : JSNum) :
    jsCountLT (JSNum.jmax 20 (JSNum.jmin 150 (JSNum.floor g))) = specGridN g := by
  cases g with
  | nan => rfl
  | posInf =>
    show jsCountLT (JSNum.num (max ((20:ℕ):ℝ) ((150:ℕ):ℝ))) = 150
    rw [max_eq_right (by norm_num)]
    exact jsCountLT_natCast 150
  | negInf =>
    show jsCountLT (JSNum.num ((20:ℕ):ℝ)) = 20
    exact jsCountLT_natCast 20
  | num x =>
    show jsCountLT (JSNum.num (max ((20:ℕ):ℝ) (min ((150:ℕ):ℝ) (⌊x⌋:ℝ)))) = _
    have hcast : (max ((20:ℕ):ℝ) (min ((150:ℕ):ℝ) (⌊x⌋:ℝ)))
        = ((max 20 (min 150 ⌊x⌋) : ℤ) : ℝ) := by
      push_cast
      rfl
    rw [hcast]
    unfold jsCountLT
    dsimp only
    have hw : (20:ℤ) ≤ max 20 (min 150 ⌊x⌋) := le_max_left _ _
    rw [if_neg (not_le.mpr (by exact_mod_cast lt_of_lt_of_le (by norm_num) hw))]
    rw [Int.ceil_intCast]
    rfl

theorem specGridN_le_150 (g : JSNum) : specGridN g ≤ 150 := by
  cases g <;> simp [specGridN]

/-- Each inner-loop step appends exactly one cell (or `null`) to the
current row. -/
theorem porkchopCellStep_fst_length (p : PorkchopParams) (t : JSNum)
    (st : List (Option PorkchopCell) × PorkchopAcc) (j : ℕ) :
    (porkchopCellStep p t st j).1.length = st.1.length + 1 := by
  unfold porkchopCellStep
  dsimp only
  split <;> simp

/-- The inner loop produces exactly `n` new cells. -/
theorem porkchopCellFold_length (p : PorkchopParams) (t : JSNum) :
    ∀ (n : ℕ) (st : List (Option PorkchopCell) × PorkchopAcc),
      ((List.range n).foldl (porkchopCellStep p t) st).1.length
        = st.1.length + n := by
  intro n
  induction n with
  | zero => intro st; simp
  | succ m ih =>
    intro st
    rw [List.range_succ, List.foldl_append, List.foldl_cons, List.foldl_nil,
      porkchopCellStep_fst_length, ih st]
    omega

/-- The outer loop appends `n` rows of `NN` cells each. -/
theorem porkchopRowFold_shape (p : PorkchopParams) (NN : ℕ) :
    ∀ (n : ℕ) (st : List (List (Option PorkchopCell)) × PorkchopAcc),
      (∀ row ∈ st.1, row.length = NN) →
      (((List.range n).foldl (porkchopRowStep p NN) st).1.length
          = st.1.length + n
        ∧ ∀ row ∈ ((List.range n).foldl (porkchopRowStep p NN) st).1,
            row.length = NN) := by
  intro n
  induction n with
  | zero => intro st hst; exact ⟨rfl, hst⟩
  | succ m ih =>
    intro st hst
    rw [List.range_succ, List.foldl_append, List.foldl_cons, List.foldl_nil]
    obtain ⟨ihlen, ihrows⟩ := ih st hst
    constructor
    · show (_ ++ [_]).length = _
      rw [List.length_append, ihlen]
      rfl
    · intro row hrow
      rcases List.mem_append.mp hrow with hmem | hmem
      · exact ihrows row hmem
      · rcases List.mem_singleton.mp hmem with rfl
        show (((List.range NN).foldl (porkchopCellStep p _) ([], _)).1).length
          = NN
        rw [porkchopCellFold_length]
        simp


/-- Shape of the full sweep output for a loop bound `NN ≤ 150`. -/
theorem grid_shape_of_swept (p : PorkchopParams) (NN : ℕ) (hNN : NN ≤ 150) :
    ((((List.range NN).foldl (porkchopRowStep p NN)
          ([], (⟨JSNum.posInf, 0, none, fun _ => 0, none⟩ : PorkchopAcc))).1.map
        List.length).sum ≤ 22500)
    ∧ (((List.range NN).foldl (porkchopRowStep p NN)
          ([], (⟨JSNum.posInf, 0, none, fun _ => 0, none⟩ : PorkchopAcc))).1 = []
      ∨ ((List.range NN).foldl (porkchopRowStep p NN)
          ([], (⟨JSNum.posInf, 0, none, fun _ => 0, none⟩ : PorkchopAcc))).1.map
          List.length = List.replicate NN NN) := by
  obtain ⟨hlen, hrows⟩ := porkchopRowFold_shape p NN NN
    ([], (⟨JSNum.posInf, 0, none, fun _ => 0, none⟩ : PorkchopAcc))
    (by intro row hrow; cases hrow)
  have hmap : ((List.range NN).foldl (porkchopRowStep p NN)
      ([], (⟨JSNum.posInf, 0, none, fun _ => 0, none⟩ : PorkchopAcc))).1.map
        List.length = List.replicate NN NN := by
    apply List.eq_replicate.mpr
    constructor
    · rw [List.length_map, hlen]
      simp
    · intro b hb
      rcases List.mem_map.mp hb with ⟨row, hrow, rfl⟩
      exact hrows row hrow
  refine ⟨?_, Or.inr hmap⟩
  rw [hmap, List.sum_replicate, smul_eq_mul]
  calc NN * NN ≤ 150 * 150 := Nat.mul_le_mul hNN hNN
    _ = 22500 := by norm_num

/-- The two possible shapes of a `computePorkchopGrid` output: the
empty bail-out result, or the assembled sweep for some parameter
bundle with the clamped grid resolution as loop bound. -/
def IsSweepShape (gridResolution : JSNum) (r : PorkchopResult) : Prop :=
  r = emptyResult
  ∨ ∃ p : PorkchopParams, r = porkchopSweepResult p (specGridN gridResolution)

/-- `computePorkchopGrid` either bails out with the empty result or
assembles the sweep result for some parameter bundle, with the loop
bound equal to the clamped grid resolution. -/
theorem computePorkchopGrid_cases (inputs : TransferInputs)
    (bodies : List SpaceBody) (orbits : List Orbit)
    (dateParse : String → JSNum) :
    IsSweepShape inputs.gridResolution
      (computePorkchopGrid inputs bodies orbits dateParse) := by
  unfold computePorkchopGrid
  dsimp only
  repeat' split
  all_goals try exact Or.inl rfl
  all_goals exact Or.inr ⟨_, by rw [jsCountLT_clamp]⟩

/-- C9.  The grid returned by `computePorkchopGrid` has at most
`22500 = 150 * 150` cells in total; and it is either empty or consists
of exactly `N` rows of `N` cells each, where `N` is
`floor(gridResolution)` clamped to `[20, 150]` (`specGridN`). -/
theorem c9_grid_size (inputs : TransferInputs) (bodies : List SpaceBody)
    (orbits : List Orbit) (dateParse : String → JSNum) :
    (((computePorkchopGrid inputs bodies orbits dateParse).grid.map
        List.length).sum ≤ 22500)
    ∧ ((computePorkchopGrid inputs bodies orbits dateParse).grid = []
      ∨ (computePorkchopGrid inputs bodies orbits dateParse).grid.map
          List.length
        = List.replicate (specGridN inputs.gridResolution)
            (specGridN inputs.gridResolution)) := by
  have hcases := computePorkchopGrid_cases inputs bodies orbits dateParse
  unfold IsSweepShape at hcases
  rcases hcases with hE | ⟨p, hP⟩
  · rw [hE]
    constructor <;> simp [emptyResult]
  · rw [hP]
    exact grid_shape_of_swept p (specGridN inputs.gridResolution)
      (specGridN_le_150 _)

/-! ## Finiteness of Lambert outputs -/

theorem JSNum.sqrt_ne_negInf (a : JSNum) : JSNum.sqrt a ≠ JSNum.negInf := by
  cases a <;> simp [JSNum.sqrt]
  split <;> simp

/-- A JS vector magnitude is never `-Infinity`. -/
theorem vecMag_ne_negInf (v : Vec3) : vecMag v ≠ JSNum.negInf :=
  JSNum.sqrt_ne_negInf _

/-- A finite JS sum has finite operands (every mixed case collapses to
an infinity or NaN). -/
theorem JSNum.add_isFinite_parts : ∀ {a b : JSNum}, (a + b).IsFinite →
    a ≠ JSNum.negInf → b ≠ JSNum.negInf → a.IsFinite ∧ b.IsFinite := by
  intro a b h _ha _hb
  cases a <;> cases b <;>
    first
      | exact ⟨trivial, trivial⟩
      | exact h.elim

/-- A magnitude can only be finite when every component is finite. -/
theorem vecMag_isFinite_components (v : Vec3) : (vecMag v).IsFinite →
    v.x.IsFinite ∧ v.y.IsFinite ∧ v.z.IsFinite := by
  obtain ⟨x, y, z⟩ := v
  intro h
  cases x <;> cases y <;> cases z <;>
    first
      | exact ⟨trivial, trivial, trivial⟩
      | exact h.elim

/-- Shape of every non-null `solveLambert` result: the two velocity
magnitudes and both burn magnitudes are finite, and `totalDV` is the
sum of the burn magnitudes. -/
theorem solveLambert_some (t : JSNum) (s1 s2 : OrbitalState) (mu : JSNum)
    (retro : Bool) (res : LambertResult)
    (h : solveLambert t s1 s2 mu retro = some res) :
    (vecMag res.initialVelocity).IsFinite ∧ (vecMag res.finalVelocity).IsFinite
    ∧ (vecMag res.burn0).IsFinite ∧ (vecMag res.burn1).IsFinite
    ∧ res.totalDV = vecMag res.burn0 + vecMag res.burn1 := by
  unfold solveLambert at h
  dsimp only at h
  set m1 := vecMag s1.pos with hm1
  set m2 := vecMag s2.pos with hm2
  set r1h := vecScale s1.pos (1 / m1) with hr1h
  set r2h := vecScale s2.pos (1 / m2) with hr2h
  set nh := lambertNhat s1 s2 (vecCross r1h r2h)
    (vecDot (vecCross r1h r2h) (vecCross r1h r2h)) with hnh
  set ch := vecMag (vecSub s2.pos s1.pos) with hch
  set sS := (ch + m1 + m2) / 2 with hsS
  set lam2 := JSNum.jmax 0 (1 - ch / sS) with hlam2
  set lamU := JSNum.sqrt lam2 with hlamU
  set lam3 := lam2 * lamU with hlam3
  set ori := lambertOrientation nh r1h r2h lamU retro with hori
  set TT := JSNum.sqrt (2 * mu / (sS * sS * sS)) * t with hTT
  set T0 := JSNum.acos (JSNum.jmax (-1) (JSNum.jmin 1 ori.2.2))
    + ori.2.2 * JSNum.sqrt (1 - lam2) with hT0
  set T1 := 2 / 3 * (1 - ori.2.2 * ori.2.2 * ori.2.2) with hT1
  set x0o := lambertInitialGuess TT T0 T1 lam2 lam3 with hx0o
  set gam := JSNum.sqrt (mu * sS / 2) with hgam
  set rho := (m1 - m2) / ch with hrho
  set sig := JSNum.sqrt (JSNum.jmax 0 (1 - rho * rho)) with hsig
  rcases Classical.em (¬ t.IsFinite ∨ t ≤ 0) with hc1 | hc1
  · rw [if_pos hc1] at h
    exact Option.noConfusion h
  rw [if_neg hc1] at h
  rcases Classical.em (¬ mu.IsFinite ∨ mu ≤ 0) with hc2 | hc2
  · rw [if_pos hc2] at h
    exact Option.noConfusion h
  rw [if_neg hc2] at h
  rcases Classical.em (m1 ≤ 0 ∨ m2 ≤ 0) with hc3 | hc3
  · rw [if_pos hc3] at h
    exact Option.noConfusion h
  rw [if_neg hc3] at h
  rcases Classical.em (ch ≤ 0) with hc4 | hc4
  · rw [if_pos hc4] at h
    exact Option.noConfusion h
  rw [if_neg hc4] at h
  rcases Classical.em (sS ≤ 0) with hc5 | hc5
  · rw [if_pos hc5] at h
    exact Option.noConfusion h
  rw [if_neg hc5] at h
  rcases Classical.em (¬ TT.IsFinite ∨ TT ≤ 0) with hc6 | hc6
  · rw [if_pos hc6] at h
    exact Option.noConfusion h
  rw [if_neg hc6] at h
  clear_value x0o
  cases hx0 : x0o with
  | none =>
    rw [hx0] at h
    dsimp only at h
    exact Option.noConfusion h
  | some x0 =>
    rw [hx0] at h
    dsimp only at h
    set xx := lambertHouseholder TT ori.2.2 lam2 lam3 x0 15 x0 with hxx
    rcases Classical.em (¬ x0.IsFinite) with hc7 | hc7
    · rw [if_pos hc7] at h
      exact Option.noConfusion h
    rw [if_neg hc7] at h
    rcases Classical.em ((1 : JSNum) - lam2 * xx * xx + lam2 ≤ 0) with hc8 | hc8
    · rw [if_pos hc8] at h
      exact Option.noConfusion h
    rw [if_neg hc8] at h
    set W := JSNum.sqrt (1 - lam2 * xx * xx + lam2) with hW
    set iv := vecAdd
      (vecScale r1h (gam * (ori.2.2 * W - xx - rho * (ori.2.2 * W + xx)) / m1))
      (vecScale ori.1 (gam * sig * (W + ori.2.2 * xx) / m1)) with hivdef
    set fv := vecAdd
      (vecScale r2h (-gam * (ori.2.2 * W - xx + rho * (ori.2.2 * W + xx)) / m2))
      (vecScale ori.2.1 (gam * sig * (W + ori.2.2 * xx) / m2)) with hfvdef
    rcases Classical.em (¬ (vecMag iv).IsFinite ∨ ¬ (vecMag fv).IsFinite)
      with hc9 | hc9
    · rw [if_pos hc9] at h
      exact Option.noConfusion h
    rw [if_neg hc9] at h
    rcases Classical.em
        (¬ (vecMag (vecSub iv s1.vel) + vecMag (vecSub s2.vel fv)).IsFinite)
      with hc10 | hc10
    · rw [if_pos hc10] at h
      exact Option.noConfusion h
    rw [if_neg hc10] at h
    injection h with h1
    subst h1
    obtain ⟨hivf, hfvf⟩ := not_or.mp hc9
    obtain ⟨hb0, hb1⟩ := JSNum.add_isFinite_parts (not_not.mp hc10)
      (vecMag_ne_negInf _) (vecMag_ne_negInf _)
    exact ⟨not_not.mp hivf, not_not.mp hfvf, hb0, hb1, rfl⟩

/-- C8.  `solveLambert` returns either `null` or a result whose
`initialVelocity`, `finalVelocity`, `burn0` and `burn1` components and
`totalDV` are all finite numbers (never NaN or an infinity). -/
theorem c8_lambert_finite (t : JSNum) (s1 s2 : OrbitalState) (mu : JSNum)
    (retro : Bool) :
    match solveLambert t s1 s2 mu retro with
    | none => True
    | some res =>
      (res.initialVelocity.x.IsFinite ∧ res.initialVelocity.y.IsFinite
        ∧ res.initialVelocity.z.IsFinite)
      ∧ (res.finalVelocity.x.IsFinite ∧ res.finalVelocity.y.IsFinite
        ∧ res.finalVelocity.z.IsFinite)
      ∧ (res.burn0.x.IsFinite ∧ res.burn0.y.IsFinite ∧ res.burn0.z.IsFinite)
      ∧ (res.burn1.x.IsFinite ∧ res.burn1.y.IsFinite ∧ res.burn1.z.IsFinite)
      ∧ res.totalDV.IsFinite := by
  cases hres : solveLambert t s1 s2 mu retro with
  | none => trivial
  | some res =>
    obtain ⟨hiv, hfv, hb0, hb1, htot⟩ := solveLambert_some t s1 s2 mu retro
      res hres
    refine ⟨vecMag_isFinite_components _ hiv, vecMag_isFinite_components _ hfv,
      vecMag_isFinite_components _ hb0, vecMag_isFinite_components _ hb1, ?_⟩
    rw [htot]
    obtain ⟨v0, h0⟩ := (JSNum.isFinite_iff _).mp hb0
    obtain ⟨v1, h1⟩ := (JSNum.isFinite_iff _).mp hb1
    rw [h0, h1]
    exact trivial

/-- A non-`-Infinity` numerator whose JS quotient is finite is itself a
finite number. -/
theorem JSNum.div_isFinite_num : ∀ {dv a : JSNum}, dv ≠ JSNum.negInf →
    (dv / a).IsFinite → ∃ v : ℝ, dv = JSNum.num v := by
  intro dv a hne h
  cases dv <;> cases a <;>
    first
      | exact ⟨_, rfl⟩
      | exact h.elim
      | exact absurd rfl hne
      | skip
  rename_i y
  have h2 : (if (0:ℝ) ≤ y then JSNum.posInf else JSNum.negInf).IsFinite := h
  rcases le_or_lt 0 y with hy | hy
  · rw [if_pos hy] at h2
    exact h2.elim
  · rw [if_neg (not_le.mpr hy)] at h2
    exact h2.elim

/-- The primary branch selected by `chooseLambert` is one of the two
Lambert results. -/
theorem chooseLambert_fst_mem (p r : Option LambertResult)
    (res : LambertResult) (h : (chooseLambert p r).1 = some res) :
    p = some res ∨ r = some res := by
  unfold chooseLambert at h
  cases p with
  | none =>
    cases r with
    | none => exact Option.noConfusion h
    | some rr => exact Or.inr h
  | some pp =>
    cases r with
    | none => exact Or.inl h
    | some rr =>
      dsimp only at h
      split at h
      · exact Or.inl h
      · exact Or.inr h

/-- The fallback branch kept by `chooseLambert` is one of the two
Lambert results. -/
theorem chooseLambert_snd_mem (p r : Option LambertResult)
    (res : LambertResult) (h : (chooseLambert p r).2 = some res) :
    p = some res ∨ r = some res := by
  unfold chooseLambert at h
  cases p with
  | none =>
    cases r with
    | none => exact Option.noConfusion h
    | some rr => exact Option.noConfusion h
  | some pp =>
    cases r with
    | none => exact Option.noConfusion h
    | some rr =>
      dsimp only at h
      split at h
      · exact Or.inr h
      · exact Or.inl h

/-- A successful torch solution carries finite ΔV figures, with
`totalDV` their sum. -/
theorem solveTorchTransfer_success_dv (input : TwoBurnTransferInput)
    (s : TwoBurnTransferSolution) (hEq : solveTorchTransfer input = s)
    (hS : s.result.outcome = TransferOutcome.Success) :
    ∃ b d : ℝ, s.boostDV_mps = JSNum.num b ∧ s.decelDV_mps = JSNum.num d
      ∧ s.totalDV_mps = JSNum.num (b + d) := by
  unfold solveTorchTransfer at hEq
  dsimp only at hEq
  rcases Classical.em (input.arrivalTime_s - input.launchTime_s ≤ 0) with ht | ht
  · rw [if_pos ht] at hEq
    subst hEq
    exact TransferOutcome.noConfusion hS
  rw [if_neg ht] at hEq
  rcases Classical.em (¬ input.fleetAcceleration_mps2.IsFinite
      ∨ input.fleetAcceleration_mps2 ≤ 0) with ha | ha
  · rw [if_pos ha] at hEq
    subst hEq
    exact TransferOutcome.noConfusion hS
  rw [if_neg ha] at hEq
  set avgV := vecScale
    (vecAdd input.sourceState_m.vel input.destinationState_m.vel)
    (0.5 : JSNum) with havgV
  set mIV := vecSub input.sourceState_m.vel avgV with hmIV
  set mFP := vecSub input.destinationState_m.pos
    (vecScale avgV (input.arrivalTime_s - input.launchTime_s)) with hmFP
  set dP := vecSub mFP input.sourceState_m.pos with hdP
  set dir := vecNormalize dP with hdir
  set dist := f32 (vecMag dP) with hdist
  set vAl := f32 (vecDot mIV dir) with hvAl
  set vPerpVec := vecSub mIV (vecScale dir vAl) with hvPerpVec
  set vPerp := f32 (vecMag vPerpVec) with hvPerp
  set perpDir := vecNormalize vPerpVec with hperpDir
  set acc := f32 input.fleetAcceleration_mps2 with hacc
  set invAcc := f32 (1 / acc) with hinvAcc
  set tr := f32 (input.arrivalTime_s - input.launchTime_s) with htr2
  set sp := torchSeed vAl tr acc dist with hsp
  set w0v := f32 (f32 (-2 * vAl) - sp.1) with hw0
  set fin := torchLoop vPerp vAl tr acc invAcc dist 20 true
    ⟨sp.1, f32 (-vPerp), w0v, f32 (-vPerp), JSNum.posInf, JSNum.posInf⟩
    with hfin
  set rev := torchRevert fin sp.2 sp.1 (f32 (-vPerp)) w0v (f32 (-vPerp))
    with hrev
  clear_value rev
  cases hrv : rev with
  | none =>
    rw [hrv] at hEq
    dsimp only at hEq
    subst hEq
    exact TransferOutcome.noConfusion hS
  | some st =>
    rw [hrv] at hEq
    dsimp only at hEq
    set bb := vecAdd (vecScale dir st.u) (vecScale perpDir st.v) with hbb
    set db := vecAdd (vecScale dir st.w) (vecScale perpDir st.z) with hdb
    rcases Classical.em (¬ (vecMag bb / input.fleetAcceleration_mps2).IsFinite
        ∨ ¬ (vecMag db / input.fleetAcceleration_mps2).IsFinite) with hbf | hbf
    · rw [if_pos hbf] at hEq
      subst hEq
      exact TransferOutcome.noConfusion hS
    rw [if_neg hbf] at hEq
    rcases Classical.em (input.arrivalTime_s - input.launchTime_s
        < vecMag bb / input.fleetAcceleration_mps2
          + vecMag db / input.fleetAcceleration_mps2) with hbl | hbl
    · rw [if_pos hbl] at hEq
      subst hEq
      exact TransferOutcome.noConfusion hS
    rw [if_neg hbl] at hEq
    subst hEq
    obtain ⟨hb, hd⟩ := not_or.mp hbf
    obtain ⟨b, hbv⟩ := JSNum.div_isFinite_num (vecMag_ne_negInf _)
      (not_not.mp hb)
    obtain ⟨d, hdv⟩ := JSNum.div_isFinite_num (vecMag_ne_negInf _)
      (not_not.mp hd)
    refine ⟨b, d, hbv, hdv, ?_⟩
    show vecMag bb + vecMag db = JSNum.num (b + d)
    rw [hbv, hdv]
    exact JSNum.num_add_num b d

/-- A successful pure-Lambert solution carries finite ΔV figures, with
`totalDV` their sum. -/
theorem solvePureLambertTransfer_success_dv (input : TwoBurnTransferInput)
    (s : TwoBurnTransferSolution) (hEq : solvePureLambertTransfer input = s)
    (hS : s.result.outcome = TransferOutcome.Success) :
    ∃ b d : ℝ, s.boostDV_mps = JSNum.num b ∧ s.decelDV_mps = JSNum.num d
      ∧ s.totalDV_mps = JSNum.num (b + d) := by
  unfold solvePureLambertTransfer at hEq
  try dsimp only at hEq
  rcases Classical.em (input.arrivalTime_s - input.launchTime_s ≤ 0) with ht | ht
  · rw [if_pos ht] at hEq
    subst hEq
    exact TransferOutcome.noConfusion hS
  rw [if_neg ht] at hEq
  set slP := solveLambert (input.arrivalTime_s - input.launchTime_s)
    input.sourceState_m input.destinationState_m input.barycenterMu_m3s2 false
    with hslP
  set slR := solveLambert (input.arrivalTime_s - input.launchTime_s)
    input.sourceState_m input.destinationState_m input.barycenterMu_m3s2 true
    with hslR
  set cl := chooseLambert slP slR with hcl
  cases hc1 : cl.1 with
  | none =>
    rw [hc1] at hEq
    try dsimp only at hEq
    subst hEq
    exact TransferOutcome.noConfusion hS
  | some primary =>
    rw [hc1] at hEq
    try dsimp only at hEq
    set orb1 := cartesianToOrbitalElements
      ⟨input.sourceState_m.pos, primary.initialVelocity⟩
      input.barycenterMu_m3s2 input.launchTime_s with horb1
    rcases Classical.em (¬ orb1.meanAnomalyAtEpoch_Rad.IsFinite
        ∨ orb1.meanAnomalyAtEpoch_Rad.IsNaN) with hv1 | hv1
    · rw [if_pos hv1] at hEq
      subst hEq
      exact TransferOutcome.noConfusion hS
    rw [if_neg hv1] at hEq
    rcases Classical.em (approximately orb1.eccentricity 1) with hp1 | hp1
    · rw [if_pos hp1] at hEq
      subst hEq
      exact TransferOutcome.noConfusion hS
    rw [if_neg hp1] at hEq
    set col1 := wouldCollideWithBarycenter orb1 input.launchTime_s
      input.arrivalTime_s input.barycenterMeanRadius_m input.barycenterMu_m3s2
      with hcol1
    have hprimaryFin : (vecMag primary.burn0).IsFinite
        ∧ (vecMag primary.burn1).IsFinite := by
      rcases chooseLambert_fst_mem slP slR primary hc1 with hsl | hsl
      · rw [hslP] at hsl
        obtain ⟨_, _, hb0, hb1, _⟩ := solveLambert_some _ _ _ _ _ _ hsl
        exact ⟨hb0, hb1⟩
      · rw [hslR] at hsl
        obtain ⟨_, _, hb0, hb1, _⟩ := solveLambert_some _ _ _ _ _ _ hsl
        exact ⟨hb0, hb1⟩
    cases hc2 : cl.2 with
    | none =>
      rw [hc2] at hEq
      try dsimp only at hEq
      try simp only [if_false_bool, Bool.false_eq_true, if_false] at hEq
      rcases Classical.em col1 with hcc | hcc
      · simp only [if_pos hcc] at hEq
        subst hEq
        exact TransferOutcome.noConfusion hS
      simp only [if_neg hcc] at hEq
      rcases Classical.em (orb1.eccentricity < 1
          ∧ (31556924 : JSNum)
            < orbitalPeriodSeconds orb1 input.barycenterMu_m3s2 / 7500)
        with hpd | hpd
      · rw [if_pos hpd] at hEq
        subst hEq
        exact TransferOutcome.noConfusion hS
      rw [if_neg hpd] at hEq
      rcases Classical.em (2 * (input.arrivalTime_s - input.launchTime_s)
          < vecMag primary.burn0 / input.fleetAcceleration_mps2
            + vecMag primary.burn1 / input.fleetAcceleration_mps2)
        with hbl | hbl
      · rw [if_pos hbl] at hEq
        subst hEq
        exact TransferOutcome.noConfusion hS
      rw [if_neg hbl] at hEq
      rcases Classical.em
          ((vecMag primary.burn0 / input.fleetAcceleration_mps2).IsNaN
            ∨ (vecMag primary.burn1 / input.fleetAcceleration_mps2).IsNaN)
        with hbn | hbn
      · rw [if_pos hbn] at hEq
        subst hEq
        exact TransferOutcome.noConfusion hS
      rw [if_neg hbn] at hEq
      subst hEq
      obtain ⟨b, hbv⟩ := (JSNum.isFinite_iff _).mp hprimaryFin.1
      obtain ⟨d, hdv⟩ := (JSNum.isFinite_iff _).mp hprimaryFin.2
      refine ⟨b, d, hbv, hdv, ?_⟩
      show vecMag primary.burn0 + vecMag primary.burn1 = JSNum.num (b + d)
      rw [hbv, hdv]
      exact JSNum.num_add_num b d
    | some secondary =>
      rw [hc2] at hEq
      try dsimp only at hEq
      set orb2 := cartesianToOrbitalElements
        ⟨input.sourceState_m.pos, secondary.initialVelocity⟩
        input.barycenterMu_m3s2 input.launchTime_s with horb2
      rcases Classical.em col1 with hcc | hcc
      · simp only [if_pos hcc] at hEq
        rcases Classical.em (¬ orb2.meanAnomalyAtEpoch_Rad.IsFinite
            ∨ orb2.meanAnomalyAtEpoch_Rad.IsNaN) with hv2 | hv2
        · simp only [if_pos hv2] at hEq
          try dsimp only at hEq
          subst hEq
          exact TransferOutcome.noConfusion hS
        simp only [if_neg hv2] at hEq
        rcases Classical.em (approximately orb2.eccentricity 1) with hp2 | hp2
        · simp only [if_pos hp2] at hEq
          try dsimp only at hEq
          subst hEq
          exact TransferOutcome.noConfusion hS
        simp only [if_neg hp2] at hEq
        try dsimp only at hEq
        try simp only [if_true_bool, if_true] at hEq
        try simp only [← horb2] at hEq
        rcases Classical.em (wouldCollideWithBarycenter orb2 input.launchTime_s
            input.arrivalTime_s input.barycenterMeanRadius_m
            input.barycenterMu_m3s2) with hc2c | hc2c
        · simp only [if_pos hc2c] at hEq
          subst hEq
          exact TransferOutcome.noConfusion hS
        simp only [if_neg hc2c] at hEq
        rcases Classical.em (orb2.eccentricity < 1
            ∧ (31556924 : JSNum)
              < orbitalPeriodSeconds orb2 input.barycenterMu_m3s2 / 7500)
          with hpd | hpd
        · rw [if_pos hpd] at hEq
          subst hEq
          exact TransferOutcome.noConfusion hS
        rw [if_neg hpd] at hEq
        rcases Classical.em (2 * (input.arrivalTime_s - input.launchTime_s)
            < vecMag secondary.burn0 / input.fleetAcceleration_mps2
              + vecMag secondary.burn1 / input.fleetAcceleration_mps2)
          with hbl | hbl
        · rw [if_pos hbl] at hEq
          subst hEq
          exact TransferOutcome.noConfusion hS
        rw [if_neg hbl] at hEq
        rcases Classical.em
            ((vecMag secondary.burn0 / input.fleetAcceleration_mps2).IsNaN
              ∨ (vecMag secondary.burn1 / input.fleetAcceleration_mps2).IsNaN)
          with hbn | hbn
        · rw [if_pos hbn] at hEq
          subst hEq
          exact TransferOutcome.noConfusion hS
        rw [if_neg hbn] at hEq
        subst hEq
        have hsecFin : (vecMag secondary.burn0).IsFinite
            ∧ (vecMag secondary.burn1).IsFinite := by
          rcases chooseLambert_snd_mem slP slR secondary hc2 with hsl | hsl
          · rw [hslP] at hsl
            obtain ⟨_, _, hb0, hb1, _⟩ := solveLambert_some _ _ _ _ _ _ hsl
            exact ⟨hb0, hb1⟩
          · rw [hslR] at hsl
            obtain ⟨_, _, hb0, hb1, _⟩ := solveLambert_some _ _ _ _ _ _ hsl
            exact ⟨hb0, hb1⟩
        obtain ⟨b, hbv⟩ := (JSNum.isFinite_iff _).mp hsecFin.1
        obtain ⟨d, hdv⟩ := (JSNum.isFinite_iff _).mp hsecFin.2
        refine ⟨b, d, hbv, hdv, ?_⟩
        show vecMag secondary.burn0 + vecMag secondary.burn1
          = JSNum.num (b + d)
        rw [hbv, hdv]
        exact JSNum.num_add_num b d
      · simp only [if_neg hcc] at hEq
        try dsimp only at hEq
        try simp only [if_false_bool, Bool.false_eq_true, if_false] at hEq
        try simp only [if_neg hcc] at hEq
        rcases Classical.em (orb1.eccentricity < 1
            ∧ (31556924 : JSNum)
              < orbitalPeriodSeconds orb1 input.barycenterMu_m3s2 / 7500)
          with hpd | hpd
        · rw [if_pos hpd] at hEq
          subst hEq
          exact TransferOutcome.noConfusion hS
        rw [if_neg hpd] at hEq
        rcases Classical.em (2 * (input.arrivalTime_s - input.launchTime_s)
            < vecMag primary.burn0 / input.fleetAcceleration_mps2
              + vecMag primary.burn1 / input.fleetAcceleration_mps2)
          with hbl | hbl
        · rw [if_pos hbl] at hEq
          subst hEq
          exact TransferOutcome.noConfusion hS
        rw [if_neg hbl] at hEq
        rcases Classical.em
            ((vecMag primary.burn0 / input.fleetAcceleration_mps2).IsNaN
              ∨ (vecMag primary.burn1 / input.fleetAcceleration_mps2).IsNaN)
          with hbn | hbn
        · rw [if_pos hbn] at hEq
          subst hEq
          exact TransferOutcome.noConfusion hS
        rw [if_neg hbn] at hEq
        subst hEq
        obtain ⟨b, hbv⟩ := (JSNum.isFinite_iff _).mp hprimaryFin.1
        obtain ⟨d, hdv⟩ := (JSNum.isFinite_iff _).mp hprimaryFin.2
        refine ⟨b, d, hbv, hdv, ?_⟩
        show vecMag primary.burn0 + vecMag primary.burn1 = JSNum.num (b + d)
        rw [hbv, hdv]
        exact JSNum.num_add_num b d

/-- With no hybrid remap requested, a successful full-evaluator solution
carries finite ΔV figures with `totalDV` their sum. -/
theorem solveTwoBurn_success_dv_nohybrid (input : TwoBurnTransferInput)
    (hnone : input.hybridRemap = none)
    (s : TwoBurnTransferSolution) (hEq : solveTwoBurnLambertTransfer input = s)
    (hS : s.result.outcome = TransferOutcome.Success) :
    ∃ b d : ℝ, s.boostDV_mps = JSNum.num b ∧ s.decelDV_mps = JSNum.num d
      ∧ s.totalDV_mps = JSNum.num (b + d) := by
  unfold solveTwoBurnLambertTransfer at hEq
  dsimp only at hEq
  have hrm : remapHybridInput input = none := by
    unfold remapHybridInput
    rw [hnone]
  rw [hrm, hnone] at hEq
  dsimp only at hEq
  rcases bestSolution_eq_or (solvePureLambertTransfer input)
      (solveTorchTransfer input) input.fleetAcceleration_mps2 with hb | hb
  · rw [hb] at hEq
    exact solvePureLambertTransfer_success_dv input s hEq hS
  · rw [hb] at hEq
    exact solveTorchTransfer_success_dv input s hEq hS

/-- A porkchop cell kept by the sweep (evaluation `Success`) has a
finite `totalDV`. -/
theorem porkchopCellOutcome_success (p : PorkchopParams) (t : JSNum) (j : ℕ)
    (h : (porkchopCellOutcome p t j).2.outcome = TransferOutcome.Success) :
    ∃ w : ℝ,
      (transferSolutionToCell (porkchopCellOutcome p t j).1).totalDV
        = JSNum.num w := by
  have h2 : (porkchopCellOutcome p t j).1.result.outcome
      = TransferOutcome.Success := by
    have h' := h
    unfold porkchopCellOutcome at h'
    dsimp only at h'
    set src := (if p.useLocalCircularModel then
        circularStateAtTime p.originRadius_m p.barycenterMu_m3s2 p.startTime_s t
      else toSIState (bodyStateAt p.originHelioBody
        (p.startJY + daysToJY ((t - p.startTime_s) / 86400)))) with hsrcdef
    set dst := (if p.useLocalCircularModel then
        circularStateAtTime p.destinationRadius_m p.barycenterMu_m3s2
          p.startTime_s (t + (p.minTransit_s + JSNum.num j * p.transitStep_s))
      else toSIState (bodyStateAt p.destHelioBody
        (p.startJY + daysToJY
          ((t + (p.minTransit_s + JSNum.num j * p.transitStep_s)
            - p.startTime_s) / 86400)))) with hdstdef
    set sol := solveTwoBurnLambertTransfer
      ⟨t, t + (p.minTransit_s + JSNum.num j * p.transitStep_s), src, dst,
        p.barycenterMu_m3s2, p.barycenterMeanRadius_m,
        p.fleetAcceleration_mps2, none⟩ with hsoldef
    rcases Classical.em (sol.result.outcome = TransferOutcome.Success)
      with hS0 | hS0
    · exact hS0
    · rw [if_neg hS0] at h'
      exact absurd h' hS0
  obtain ⟨b, d, _, _, htot⟩ := solveTwoBurn_success_dv_nohybrid
    ⟨t, t + (p.minTransit_s + JSNum.num j * p.transitStep_s),
      (if p.useLocalCircularModel then
          circularStateAtTime p.originRadius_m p.barycenterMu_m3s2
            p.startTime_s t
        else toSIState (bodyStateAt p.originHelioBody
          (p.startJY + daysToJY ((t - p.startTime_s) / 86400)))),
      (if p.useLocalCircularModel then
          circularStateAtTime p.destinationRadius_m p.barycenterMu_m3s2
            p.startTime_s (t + (p.minTransit_s + JSNum.num j * p.transitStep_s))
        else toSIState (bodyStateAt p.destHelioBody
          (p.startJY + daysToJY
            ((t + (p.minTransit_s + JSNum.num j * p.transitStep_s)
              - p.startTime_s) / 86400)))),
      p.barycenterMu_m3s2, p.barycenterMeanRadius_m,
      p.fleetAcceleration_mps2, none⟩ rfl
    ((porkchopCellOutcome p t j).1) rfl h2
  refine ⟨(b + d) / 1000, ?_⟩
  show (porkchopCellOutcome p t j).1.totalDV_mps / 1000 = _
  rw [htot, JSNum.num_ofNat]
  rw [JSNum.num_div_num _ _ (by norm_num)]

/-- `≤`-transitivity with finite numbers on the left (the right operand
may be any JS number). -/
theorem JSNum.num_le_trans {w v : ℝ} {c : JSNum} (h1 : w ≤ v)
    (h2 : JSNum.num v ≤ c) : JSNum.num w ≤ c := by
  cases c
  · exact le_trans h1 h2
  · trivial
  · exact h2.elim
  · exact h2.elim

/-- Sweep invariant: either no non-null cell has been produced (and the
running minimum is still `+∞`, the optimal still null), or the optimal
is one of the produced cells, its `totalDV` equals the running minimum,
and the minimum bounds every produced cell from below. -/
def CellsInv (cells : List PorkchopCell) (acc : PorkchopAcc) : Prop :=
  (cells = [] ∧ acc.minDV = JSNum.posInf ∧ acc.optimal = none)
  ∨ (∃ (opt : PorkchopCell) (v : ℝ),
      acc.optimal = some opt ∧ opt ∈ cells
      ∧ acc.minDV = JSNum.num v ∧ opt.totalDV = JSNum.num v
      ∧ ∀ c ∈ cells, JSNum.num v ≤ c.totalDV)

/-- The invariant only reads `minDV` and `optimal`. -/
theorem CellsInv_congr {cells : List PorkchopCell} {acc acc' : PorkchopAcc}
    (hm : acc'.minDV = acc.minDV) (ho : acc'.optimal = acc.optimal)
    (h : CellsInv cells acc) : CellsInv cells acc' := by
  rcases h with ⟨h1, h2, h3⟩ | ⟨opt, v, h1, h2, h3, h4, h5⟩
  · exact Or.inl ⟨h1, hm.trans h2, ho.trans h3⟩
  · exact Or.inr ⟨opt, v, ho.trans h1, h2, hm.trans h3, h4, h5⟩

/-- Pushing a strictly better finite cell: it becomes the optimal. -/
theorem CellsInv_push {cells : List PorkchopCell} {acc acc' : PorkchopAcc}
    {cell : PorkchopCell} {w : ℝ} (hw : cell.totalDV = JSNum.num w)
    (hlt : cell.totalDV < acc.minDV)
    (hm : acc'.minDV = cell.totalDV) (ho : acc'.optimal = some cell)
    (h : CellsInv cells acc) : CellsInv (cells ++ [cell]) acc' := by
  refine Or.inr ⟨cell, w, ho, List.mem_append_right _ (List.mem_singleton.mpr rfl),
    hm.trans hw, hw, ?_⟩
  intro c hc
  rcases List.mem_append.mp hc with hc | hc
  · rcases h with ⟨h1, _, _⟩ | ⟨opt, v, _, _, h3, _, h5⟩
    · rw [h1] at hc
      cases hc
    · have hwv : w < v := by
        have := hlt
        rw [hw, h3] at this
        exact this
      exact JSNum.num_le_trans (le_of_lt hwv) (h5 c hc)
  · rcases List.mem_singleton.mp hc with rfl
    rw [hw]
    exact le_refl w

/-- Pushing a not-better finite cell: optimal and minimum unchanged. -/
theorem CellsInv_skip {cells : List PorkchopCell} {acc acc' : PorkchopAcc}
    {cell : PorkchopCell} {w : ℝ} (hw : cell.totalDV = JSNum.num w)
    (hnlt : ¬ cell.totalDV < acc.minDV)
    (hm : acc'.minDV = acc.minDV) (ho : acc'.optimal = acc.optimal)
    (h : CellsInv cells acc) : CellsInv (cells ++ [cell]) acc' := by
  rcases h with ⟨_, h2, _⟩ | ⟨opt, v, h1, h2, h3, h4, h5⟩
  · exfalso
    rw [hw, h2] at hnlt
    exact hnlt trivial
  · refine Or.inr ⟨opt, v, ho.trans h1, List.mem_append_left _ h2,
      hm.trans h3, h4, ?_⟩
    intro c hc
    rcases List.mem_append.mp hc with hc | hc
    · exact h5 c hc
    · rcases List.mem_singleton.mp hc with rfl
      rw [hw, h3] at hnlt
      rw [hw]
      show (v : ℝ) ≤ w
      exact not_lt.mp hnlt

/-- What one inner-loop step does to the row and to the running
minimum / optimal. -/
theorem porkchopCellStep_behavior (p : PorkchopParams) (t : JSNum)
    (st : List (Option PorkchopCell) × PorkchopAcc) (j : ℕ) :
    ((porkchopCellStep p t st j).1 = st.1 ++ [none]
      ∧ (porkchopCellStep p t st j).2.minDV = st.2.minDV
      ∧ (porkchopCellStep p t st j).2.optimal = st.2.optimal)
    ∨ (∃ (cell : PorkchopCell) (w : ℝ),
        cell.totalDV = JSNum.num w
        ∧ (porkchopCellStep p t st j).1 = st.1 ++ [some cell]
        ∧ ((cell.totalDV < st.2.minDV
            ∧ (porkchopCellStep p t st j).2.minDV = cell.totalDV
            ∧ (porkchopCellStep p t st j).2.optimal = some cell)
          ∨ (¬ cell.totalDV < st.2.minDV
            ∧ (porkchopCellStep p t st j).2.minDV = st.2.minDV
            ∧ (porkchopCellStep p t st j).2.optimal = st.2.optimal))) := by
  unfold porkchopCellStep
  dsimp only
  rcases Classical.em ((porkchopCellOutcome p t j).2.outcome
      = TransferOutcome.Success) with hsucc | hsucc
  · simp only [if_pos hsucc]
    obtain ⟨w, hw⟩ := porkchopCellOutcome_success p t j hsucc
    refine Or.inr ⟨transferSolutionToCell (porkchopCellOutcome p t j).1, w, hw,
      rfl, ?_⟩
    rcases Classical.em
        ((transferSolutionToCell (porkchopCellOutcome p t j).1).totalDV
          < st.2.minDV) with hlt | hlt
    · refine Or.inl ⟨hlt, ?_, ?_⟩
      · simp only [if_pos hlt]
        split <;> rfl
      · simp only [if_pos hlt]
        split <;> rfl
    · refine Or.inr ⟨hlt, ?_, ?_⟩
      · simp only [if_neg hlt]
        split <;> rfl
      · simp only [if_neg hlt]
        split <;> rfl
  · simp only [if_neg hsucc]
    exact Or.inl ⟨by trivial, by trivial, by trivial⟩

/-- The inner (transit) loop preserves the sweep invariant. -/
theorem porkchopCellFold_inv (p : PorkchopParams) (t : JSNum) :
    ∀ (n : ℕ) (st : List (Option PorkchopCell) × PorkchopAcc)
      (C : List PorkchopCell),
      CellsInv (C ++ st.1.reduceOption) st.2 →
      CellsInv
        (C ++ ((List.range n).foldl (porkchopCellStep p t) st).1.reduceOption)
        (((List.range n).foldl (porkchopCellStep p t) st).2) := by
  intro n
  induction n with
  | zero =>
    intro st C h
    simpa using h
  | succ m ih =>
    intro st C h
    rw [List.range_succ, List.foldl_append, List.foldl_cons, List.foldl_nil]
    have hmid := ih st C h
    rcases porkchopCellStep_behavior p t
        ((List.range m).foldl (porkchopCellStep p t) st) m
      with ⟨h1, h2, h3⟩ | ⟨cell, w, hw, h1, hcase⟩
    · rw [h1]
      simp only [List.reduceOption_append, List.reduceOption_cons_of_none,
        List.reduceOption_nil, List.append_nil]
      exact CellsInv_congr h2 h3 hmid
    · rw [h1]
      simp only [List.reduceOption_append, List.reduceOption_cons_of_some,
        List.reduceOption_nil]
      rw [← List.append_assoc]
      rcases hcase with ⟨hlt, h2, h3⟩ | ⟨hnlt, h2, h3⟩
      · exact CellsInv_push hw hlt h2 h3 hmid
      · exact CellsInv_skip hw hnlt h2 h3 hmid

/-- The outer (launch) loop preserves the sweep invariant. -/
theorem porkchopRowFold_inv (p : PorkchopParams) (NN : ℕ) :
    ∀ (n : ℕ) (st : List (List (Option PorkchopCell)) × PorkchopAcc),
      CellsInv st.1.flatten.reduceOption st.2 →
      CellsInv
        (((List.range n).foldl (porkchopRowStep p NN) st).1.flatten.reduceOption)
        (((List.range n).foldl (porkchopRowStep p NN) st).2) := by
  intro n
  induction n with
  | zero =>
    intro st h
    exact h
  | succ m ih =>
    intro st h
    rw [List.range_succ, List.foldl_append, List.foldl_cons, List.foldl_nil]
    have hmid := ih st h
    show CellsInv
      ((((List.range m).foldl (porkchopRowStep p NN) st).1
          ++ [((List.range NN).foldl (porkchopCellStep p _)
                ([], ((List.range m).foldl (porkchopRowStep p NN) st).2)).1]).flatten.reduceOption)
      (((List.range NN).foldl (porkchopCellStep p _)
          ([], ((List.range m).foldl (porkchopRowStep p NN) st).2)).2)
    rw [List.flatten_append]
    simp only [List.flatten_cons, List.flatten_nil, List.append_nil]
    rw [List.reduceOption_append]
    exact porkchopCellFold_inv p _ NN
      ([], ((List.range m).foldl (porkchopRowStep p NN) st).2)
      (((List.range m).foldl (porkchopRowStep p NN) st).1.flatten.reduceOption)
      (by simpa using hmid)

/-- Optimal/minimum invariant of the assembled sweep result. -/
theorem porkchopSweepResult_optimal (p : PorkchopParams) (NN : ℕ) :
    (porkchopSweepResult p NN).grid.flatten.reduceOption = []
    ∨ ∃ opt : PorkchopCell,
        (porkchopSweepResult p NN).optimal = some opt
        ∧ opt ∈ (porkchopSweepResult p NN).grid.flatten.reduceOption
        ∧ opt.totalDV = (porkchopSweepResult p NN).minDV
        ∧ ∀ c ∈ (porkchopSweepResult p NN).grid.flatten.reduceOption,
            (porkchopSweepResult p NN).minDV ≤ c.totalDV := by
  have hinv := porkchopRowFold_inv p NN NN
    ([], ⟨JSNum.posInf, 0, none, fun _ => 0, none⟩)
    (Or.inl ⟨rfl, rfl, rfl⟩)
  rcases hinv with ⟨h1, _h2, _h3⟩ | ⟨opt, v, h1, h2, h3, h4, h5⟩
  · exact Or.inl h1
  · have hmin : (porkchopSweepResult p NN).minDV = JSNum.num v := by
      unfold porkchopSweepResult
      dsimp only
      rw [h3, if_neg (not_not_intro
        (show (JSNum.num v).IsFinite from trivial))]
    refine Or.inr ⟨opt, h1, h2, ?_, ?_⟩
    · rw [hmin]
      exact h4
    · intro c hc
      rw [hmin]
      exact h5 c hc

/-- C6.  Whenever the porkchop sweep produces at least one non-null
cell, the returned result has a non-null `optimal` cell that is one of
the grid's non-null cells, `optimal.totalDV` equals `minDV`, and
`minDV` is the minimum `totalDV` over all non-null cells (it bounds
every cell from below and is attained by `optimal`). -/
theorem c6_porkchop_optimal_invariants (inputs : TransferInputs)
    (bodies : List SpaceBody) (orbits : List Orbit)
    (dateParse : String → JSNum) :
    (computePorkchopGrid inputs bodies orbits
        dateParse).grid.flatten.reduceOption = []
    ∨ ∃ opt : PorkchopCell,
        (computePorkchopGrid inputs bodies orbits dateParse).optimal = some opt
        ∧ opt ∈ (computePorkchopGrid inputs bodies orbits
            dateParse).grid.flatten.reduceOption
        ∧ opt.totalDV = (computePorkchopGrid inputs bodies orbits
            dateParse).minDV
        ∧ ∀ c ∈ (computePorkchopGrid inputs bodies orbits
            dateParse).grid.flatten.reduceOption,
            (computePorkchopGrid inputs bodies orbits dateParse).minDV
              ≤ c.totalDV := by
  have hcases := computePorkchopGrid_cases inputs bodies orbits dateParse
  unfold IsSweepShape at hcases
  rcases hcases with hE | ⟨p, hP⟩
  · rw [hE]
    exact Or.inl rfl
  · rw [hP]
    exact porkchopSweepResult_optimal p (specGridN inputs.gridResolution)

/-! ## A concrete exactly-evaluable transfer (half-period circular
rendezvous: `r2 = -r1`, `λ = 0`, `T = T0 = π/2`, `x = 0`) -/

/-- First-iteration convergence of the Householder loop: when the
initial guess already matches the target time within `1e-11`, the loop
returns it unchanged. -/
theorem lambertHouseholder_break (T lambda lambda2 lambda3 x0 : JSNum)
    (fuel : ℕ) (hTx : (xToTimeOfTransit x0 lambda lambda2).IsFinite)
    (hd1 : (dTdx x0 (xToTimeOfTransit x0 lambda lambda2) lambda2 lambda3).1.IsFinite)
    (hd2 : (dTdx x0 (xToTimeOfTransit x0 lambda lambda2) lambda2 lambda3).2.1.IsFinite)
    (hd3 : (dTdx x0 (xToTimeOfTransit x0 lambda lambda2) lambda2 lambda3).2.2.IsFinite)
    (hdelta : JSNum.abs (xToTimeOfTransit x0 lambda lambda2 - T)
      < (1e-11 : JSNum)) :
    lambertHouseholder T lambda lambda2 lambda3 x0 (fuel + 1) x0 = x0 := by
  rw [lambertHouseholder]
  dsimp only
  rw [if_neg (not_not_intro hTx)]
  rw [if_neg (show ¬ (¬ (dTdx x0 (xToTimeOfTransit x0 lambda lambda2) lambda2
      lambda3).1.IsFinite ∨ _ ∨ _) from
    not_or.mpr ⟨not_not_intro hd1, not_or.mpr ⟨not_not_intro hd2,
      not_not_intro hd3⟩⟩)]
  rw [if_pos hdelta]

/-- Source-state of the concrete transfer: circular radius-5 orbit
position with a velocity 3 m/s short of circular speed. -/
def c2SrcState : OrbitalState := ⟨⟨5, 0, 0⟩, ⟨0, 7, 0⟩⟩

/-- Destination state: the antipodal point, velocity 4 m/s beyond the
circular speed there. -/
def c2DstState : OrbitalState := ⟨⟨-5, 0, 0⟩, ⟨0, -6, 0⟩⟩

/-- The concrete transfer input: half-period transit `π/2` seconds
around a `μ = 500` barycenter of mean radius 1, fleet acceleration
`100 m/s²`, no hybrid remap. -/
def c2Input : TwoBurnTransferInput :=
  ⟨0, JSNum.num (Real.pi / 2), c2SrcState, c2DstState, 500, 1, 100, none⟩

/-- Square-root evaluation on perfect squares. -/
theorem real_sqrt_eval (a b : ℝ) (hb : 0 ≤ b) (h : b * b = a) :
    Real.sqrt a = b := by
  subst h
  rw [show b * b = b ^ 2 by ring, Real.sqrt_sq hb]

theorem acos_num (x : ℝ) (h1 : -1 ≤ x) (h2 : x ≤ 1) :
    JSNum.acos (JSNum.num x) = JSNum.num (Real.arccos x) := by
  simp [JSNum.acos, h1, h2]

theorem asin_num (x : ℝ) (h1 : -1 ≤ x) (h2 : x ≤ 1) :
    JSNum.asin (JSNum.num x) = JSNum.num (Real.arcsin x) := by
  simp [JSNum.asin, h1, h2]

theorem sin_num (x : ℝ) : JSNum.sin (JSNum.num x) = JSNum.num (Real.sin x) :=
  rfl


/-- Normalized time-of-flight at the Lancaster–Blanchard origin with
`λ = 0`: exactly the half-period value `π/2`. -/
theorem c2_xT : xToTimeOfTransit (JSNum.num 0) (JSNum.num 0) (JSNum.num 0)
    = JSNum.num (Real.pi / 2) := by
  have harc : Real.arccos 0 = Real.pi / 2 := Real.arccos_zero
  have hsin2 : Real.sin (2 * (Real.pi / 2)) = 0 := by
    rw [show (2 : ℝ) * (Real.pi / 2) = Real.pi by ring, Real.sin_pi]
  have hmin : min (1 : ℝ) 0 = 0 := by norm_num
  have hmax : max (-1 : ℝ) 0 = 0 := by norm_num
  have hc1 : ¬ ((1 : ℝ) ≤ 1 / 100000000000000) := by norm_num
  simp [xToTimeOfTransit, acos_num, asin_num, sin_num, harc, hsin2,
    hmin, hmax, Real.arcsin_zero, hc1]
  norm_num

/-- The slope triple at the origin is finite for `λ = 0`, `T = π/2`. -/
theorem c2_dTdx_finite :
    (dTdx (JSNum.num 0) (JSNum.num (Real.pi / 2)) (JSNum.num 0)
      (JSNum.num 0)).1.IsFinite
    ∧ (dTdx (JSNum.num 0) (JSNum.num (Real.pi / 2)) (JSNum.num 0)
      (JSNum.num 0)).2.1.IsFinite
    ∧ (dTdx (JSNum.num 0) (JSNum.num (Real.pi / 2)) (JSNum.num 0)
      (JSNum.num 0)).2.2.IsFinite := by
  have hc1 : ¬ ((1 : ℝ) ≤ (1e-14 : ℝ)) := by norm_num
  have hy : ¬ ((1 : ℝ) ≤ 0) := by norm_num
  simp [dTdx, hc1, hy]

/-- The Householder loop started at the converged guess `x = 0`
returns `0` on the first iteration. -/
theorem c2_householder :
    lambertHouseholder (JSNum.num (Real.pi / 2)) (JSNum.num 0) (JSNum.num 0)
      (JSNum.num 0) (JSNum.num 0) 15 (JSNum.num 0) = JSNum.num 0 := by
  rw [show (15 : ℕ) = 14 + 1 from rfl]
  refine lambertHouseholder_break _ _ _ _ _ 14 ?_ ?_ ?_ ?_ ?_
  · rw [c2_xT]; exact trivial
  · rw [c2_xT]; exact c2_dTdx_finite.1
  · rw [c2_xT]; exact c2_dTdx_finite.2.1
  · rw [c2_xT]; exact c2_dTdx_finite.2.2
  · rw [c2_xT]
    simp
    norm_num

set_option maxHeartbeats 1000000 in
/-- The degenerate-plane fallback of the concrete transfer: both orbit
normals are `+z`, so the merged normal is `(0, 0, 1)`. -/
theorem c2_nhat :
    lambertNhat
      ⟨⟨JSNum.num 5, JSNum.num 0, JSNum.num 0⟩,
        ⟨JSNum.num 0, JSNum.num 7, JSNum.num 0⟩⟩
      ⟨⟨JSNum.num (-5), JSNum.num 0, JSNum.num 0⟩,
        ⟨JSNum.num 0, JSNum.num (-6), JSNum.num 0⟩⟩
      ⟨JSNum.num 0, JSNum.num 0, JSNum.num 0⟩ (JSNum.num 0)
      = ⟨JSNum.num 0, JSNum.num 0, JSNum.num 1⟩ := by
  have h05 : (0 : ℝ) < (0.5 : ℝ) := by norm_num
  have h57 : (5 : ℝ) * 7 = 35 := by norm_num
  have h56a : (-5 : ℝ) * -6 = 30 := by norm_num
  have h56b : (5 : ℝ) * 6 = 30 := by norm_num
  have h3535 : (35 : ℝ) * 35 = 1225 := by norm_num
  have h3030 : (30 : ℝ) * 30 = 900 := by norm_num
  have h0le1225 : (0 : ℝ) ≤ 1225 := by norm_num
  have h0le900 : (0 : ℝ) ≤ 900 := by norm_num
  have hs1225 : Real.sqrt 1225 = 35 :=
    real_sqrt_eval 1225 35 (by norm_num) (by norm_num)
  have hs900 : Real.sqrt 900 = 30 :=
    real_sqrt_eval 900 30 (by norm_num) (by norm_num)
  have hc35 : ¬ ((35 : ℝ) ≤ (1e-14 : ℝ)) := by norm_num
  have hc30 : ¬ ((30 : ℝ) ≤ (1e-14 : ℝ)) := by norm_num
  have hc2e : ¬ ((2 : ℝ) ≤ (1e-14 : ℝ)) := by norm_num
  have hc11 : ¬ ((1 : ℝ) + 1 ≤ (1e-14 : ℝ)) := by norm_num
  have hne35 : (35 : ℝ) ≠ 0 := by norm_num
  have hne30 : (30 : ℝ) ≠ 0 := by norm_num
  have hne2 : (2 : ℝ) ≠ 0 := by norm_num
  have h35inv : (35 : ℝ) * (1 / 35) = 1 := by norm_num
  have h30inv : (30 : ℝ) * (1 / 30) = 1 := by norm_num
  have h2inv : (2 : ℝ) * (1 / 2) = 1 := by norm_num
  have h11 : (1 : ℝ) + 1 = 2 := by norm_num
  have h22 : (2 : ℝ) * 2 = 4 := by norm_num
  have h0le4 : (0 : ℝ) ≤ 4 := by norm_num
  have hs4 : Real.sqrt 4 = 2 := real_sqrt_eval 4 2 (by norm_num) (by norm_num)
  have hy1 : ¬ ((1 : ℝ) ≤ 0) := by norm_num
  simp [lambertNhat, normalizeV, vecMag, vecDot, vecCross, vecScale, vecAdd,
    h05, h57, h56a, h56b, h3535, h3030, h0le1225, h0le900, hs1225, hs900,
    hc35, hc30, hc2e, hc11, hne35, hne30, hne2, h35inv, h30inv, h2inv,
    h11, h22, h0le4, hs4, hy1]

/-- The initial guess of the concrete transfer: `T = T0 = π/2` gives
`x0 = 0` on the first branch. -/
theorem c2_guess :
    lambertInitialGuess (JSNum.num (Real.pi / 2)) (JSNum.num (Real.pi / 2))
      (JSNum.num (2 / 3)) (JSNum.num 0) (JSNum.num 0) = some (JSNum.num 0) := by
  have hne4 : (4 : ℝ) ≠ 0 := by norm_num
  simp [lambertInitialGuess, hne4]

set_option maxHeartbeats 2000000 in
/-- Full evaluation of the prograde Lambert arc of the concrete
half-period transfer: a `10 m/s` tangential burn pair split `3 + 4`. -/
theorem c2_lambert_prograde :
    solveLambert (JSNum.num (Real.pi / 2))
      ⟨⟨JSNum.num 5, JSNum.num 0, JSNum.num 0⟩,
        ⟨JSNum.num 0, JSNum.num 7, JSNum.num 0⟩⟩
      ⟨⟨JSNum.num (-5), JSNum.num 0, JSNum.num 0⟩,
        ⟨JSNum.num 0, JSNum.num (-6), JSNum.num 0⟩⟩
      (JSNum.num 500) false
      = some ⟨⟨0, 10, 0⟩, ⟨0, -10, 0⟩, ⟨0, 3, 0⟩, ⟨0, 4, 0⟩, 7⟩ := by
  have hpi0 : ¬ (Real.pi / 2 ≤ 0) := not_le.mpr (by positivity)
  have h500 : ¬ ((500 : ℝ) ≤ 0) := by norm_num
  have h55 : (5 : ℝ) * 5 = 25 := by norm_num
  have hm55 : (-5 : ℝ) * -5 = 25 := by norm_num
  have h0le25 : (0 : ℝ) ≤ 25 := by norm_num
  have hs25 : Real.sqrt 25 = 5 := real_sqrt_eval 25 5 (by norm_num) (by norm_num)
  have hn5 : ¬ ((5 : ℝ) ≤ 0) := by norm_num
  have hne5 : (5 : ℝ) ≠ 0 := by norm_num
  have hmm10 : (-5 : ℝ) - 5 = -10 := by norm_num
  have h1010n : (-10 : ℝ) * -10 = 100 := by norm_num
  have h1010 : (10 : ℝ) * 10 = 100 := by norm_num
  have h0le100 : (0 : ℝ) ≤ 100 := by norm_num
  have hs100 : Real.sqrt 100 = 10 :=
    real_sqrt_eval 100 10 (by norm_num) (by norm_num)
  have hn10 : ¬ ((10 : ℝ) ≤ 0) := by norm_num
  have hne10 : (10 : ℝ) ≠ 0 := by norm_num
  have hne2 : (2 : ℝ) ≠ 0 := by norm_num
  have hsum : ((10 : ℝ) + 5 + 5) / 2 = 10 := by norm_num
  have hl2 : (1 : ℝ) - 10 / 10 = 0 := by norm_num
  have hmin : min (1 : ℝ) 0 = 0 := by norm_num
  have hmax : max (-1 : ℝ) 0 = 0 := by norm_num
  have hmax01 : max (0 : ℝ) 1 = 1 := by norm_num
  have hn10' : (-1 : ℝ) ≤ 0 := by norm_num
  have hmu : (2 : ℝ) * 500 / (100 * 10) = 1 := by norm_num
  have h0lemu : (0 : ℝ) ≤ 2 * 500 / (100 * 10) := by norm_num
  have hne1000 : ((100 : ℝ) * 10) ≠ 0 := by norm_num
  have hne3 : (3 : ℝ) ≠ 0 := by norm_num
  have hg : (500 : ℝ) * 10 / 2 = 2500 := by norm_num
  have h0le2500 : (0 : ℝ) ≤ 2500 := by norm_num
  have hs2500 : Real.sqrt 2500 = 50 :=
    real_sqrt_eval 2500 50 (by norm_num) (by norm_num)
  have h505 : (50 : ℝ) / 5 = 10 := by norm_num
  have h107 : (10 : ℝ) - 7 = 3 := by norm_num
  have h6a : (-6 : ℝ) - -10 = 4 := by norm_num
  have h6b : (-6 : ℝ) + 10 = 4 := by norm_num
  have h33 : (3 : ℝ) * 3 = 9 := by norm_num
  have h44 : (4 : ℝ) * 4 = 16 := by norm_num
  have h0le9 : (0 : ℝ) ≤ 9 := by norm_num
  have h0le16 : (0 : ℝ) ≤ 16 := by norm_num
  have hs9 : Real.sqrt 9 = 3 := real_sqrt_eval 9 3 (by norm_num) (by norm_num)
  have hs16 : Real.sqrt 16 = 4 := real_sqrt_eval 16 4 (by norm_num) (by norm_num)
  have h34 : (3 : ℝ) + 4 = 7 := by norm_num
  simp [solveLambert, lambertOrientation, vecMag, vecDot, vecCross, vecScale,
    vecAdd, vecSub, c2SrcState, c2DstState, c2_nhat, c2_guess, c2_householder,
    acos_num, Real.arccos_zero,
    hpi0, h500, h55, hm55, h0le25, hs25, hn5, hne5, hmm10, h1010n, h1010,
    h0le100, hs100, hn10, hne10, hne2, hsum, hl2, hmin, hmax, hmax01, hn10',
    hmu, h0lemu, hne1000, hne3, hg, h0le2500, hs2500, h505, h107, h6a, h6b, h33,
    h44, h0le9, h0le16, hs9, hs16, h34]

set_option maxHeartbeats 2000000 in
/-- Full evaluation of the retrograde Lambert arc of the concrete
half-period transfer: burns of `17` and `16 m/s`, total `33`. -/
theorem c2_lambert_retro :
    solveLambert (JSNum.num (Real.pi / 2))
      ⟨⟨JSNum.num 5, JSNum.num 0, JSNum.num 0⟩,
        ⟨JSNum.num 0, JSNum.num 7, JSNum.num 0⟩⟩
      ⟨⟨JSNum.num (-5), JSNum.num 0, JSNum.num 0⟩,
        ⟨JSNum.num 0, JSNum.num (-6), JSNum.num 0⟩⟩
      (JSNum.num 500) true
      = some ⟨⟨0, -10, 0⟩, ⟨0, 10, 0⟩, ⟨0, -17, 0⟩, ⟨0, -16, 0⟩, 33⟩ := by
  have hpi0 : ¬ (Real.pi / 2 ≤ 0) := not_le.mpr (by positivity)
  have h500 : ¬ ((500 : ℝ) ≤ 0) := by norm_num
  have h55 : (5 : ℝ) * 5 = 25 := by norm_num
  have hm55 : (-5 : ℝ) * -5 = 25 := by norm_num
  have h0le25 : (0 : ℝ) ≤ 25 := by norm_num
  have hs25 : Real.sqrt 25 = 5 := real_sqrt_eval 25 5 (by norm_num) (by norm_num)
  have hn5 : ¬ ((5 : ℝ) ≤ 0) := by norm_num
  have hne5 : (5 : ℝ) ≠ 0 := by norm_num
  have hmm10 : (-5 : ℝ) - 5 = -10 := by norm_num
  have h1010n : (-10 : ℝ) * -10 = 100 := by norm_num
  have h1010 : (10 : ℝ) * 10 = 100 := by norm_num
  have h0le100 : (0 : ℝ) ≤ 100 := by norm_num
  have hs100 : Real.sqrt 100 = 10 :=
    real_sqrt_eval 100 10 (by norm_num) (by norm_num)
  have hn10 : ¬ ((10 : ℝ) ≤ 0) := by norm_num
  have hne10 : (10 : ℝ) ≠ 0 := by norm_num
  have hne2 : (2 : ℝ) ≠ 0 := by norm_num
  have hsum : ((10 : ℝ) + 5 + 5) / 2 = 10 := by norm_num
  have hl2 : (1 : ℝ) - 10 / 10 = 0 := by norm_num
  have hmin : min (1 : ℝ) 0 = 0 := by norm_num
  have hmax : max (-1 : ℝ) 0 = 0 := by norm_num
  have hmax01 : max (0 : ℝ) 1 = 1 := by norm_num
  have hn10' : (-1 : ℝ) ≤ 0 := by norm_num
  have hmu : (2 : ℝ) * 500 / (100 * 10) = 1 := by norm_num
  have h0lemu : (0 : ℝ) ≤ 2 * 500 / (100 * 10) := by norm_num
  have hne1000 : ((100 : ℝ) * 10) ≠ 0 := by norm_num
  have hne3 : (3 : ℝ) ≠ 0 := by norm_num
  have hg : (500 : ℝ) * 10 / 2 = 2500 := by norm_num
  have h0le2500 : (0 : ℝ) ≤ 2500 := by norm_num
  have hs2500 : Real.sqrt 2500 = 50 :=
    real_sqrt_eval 2500 50 (by norm_num) (by norm_num)
  have h505 : (50 : ℝ) / 5 = 10 := by norm_num
  have h107 : (-10 : ℝ) - 7 = -17 := by norm_num
  have h6a : (-6 : ℝ) - 10 = -16 := by norm_num
  have h1717 : (17 : ℝ) * 17 = 289 := by norm_num
  have h1616 : (16 : ℝ) * 16 = 256 := by norm_num
  have h1717n : (-17 : ℝ) * -17 = 289 := by norm_num
  have h1616n : (-16 : ℝ) * -16 = 256 := by norm_num
  have h0le289 : (0 : ℝ) ≤ 289 := by norm_num
  have h0le256 : (0 : ℝ) ≤ 256 := by norm_num
  have hs289 : Real.sqrt 289 = 17 :=
    real_sqrt_eval 289 17 (by norm_num) (by norm_num)
  have hs256 : Real.sqrt 256 = 16 :=
    real_sqrt_eval 256 16 (by norm_num) (by norm_num)
  have h1716 : (17 : ℝ) + 16 = 33 := by norm_num
  simp [solveLambert, lambertOrientation, vecMag, vecDot, vecCross, vecScale,
    vecAdd, vecSub, c2SrcState, c2DstState, c2_nhat, c2_guess, c2_householder,
    acos_num, Real.arccos_zero,
    hpi0, h500, h55, hm55, h0le25, hs25, hn5, hne5, hmm10, h1010n, h1010,
    h0le100, hs100, hn10, hne10, hne2, hsum, hl2, hmin, hmax, hmax01, hn10',
    hmu, h0lemu, hne1000, hne3, hg, h0le2500, hs2500, h505, h107, h6a,
    h1717, h1616, h1717n, h1616n, h0le289, h0le256, hs289, hs256, h1716]

set_option maxHeartbeats 1000000 in
/-- Orbital elements of the transfer arc: an exactly circular radius-5
orbit (`e = 0`, `a = 5`, mean anomaly `0`). -/
theorem c2_orbit :
    cartesianToOrbitalElements
      ⟨⟨JSNum.num 5, JSNum.num 0, JSNum.num 0⟩,
        ⟨JSNum.num 0, JSNum.num 10, JSNum.num 0⟩⟩
      (JSNum.num 500) (JSNum.num 0)
      = ⟨JSNum.num 0, JSNum.num 5, JSNum.num 0, JSNum.num 0,
          JSNum.num 5, JSNum.num 5⟩ := by
  have h55 : (5 : ℝ) * 5 = 25 := by norm_num
  have h0le25 : (0 : ℝ) ≤ 25 := by norm_num
  have hs25 : Real.sqrt 25 = 5 := real_sqrt_eval 25 5 (by norm_num) (by norm_num)
  have h1010 : (10 : ℝ) * 10 = 100 := by norm_num
  have h510 : (5 : ℝ) * 10 = 50 := by norm_num
  have h1050 : (10 : ℝ) * 50 = 500 := by norm_num
  have h500inv : (500 : ℝ) * (1 / 500) = 1 := by norm_num
  have h5inv : (5 : ℝ) * (1 / 5) = 1 := by norm_num
  have hne500 : (500 : ℝ) ≠ 0 := by norm_num
  have hne5 : (5 : ℝ) ≠ 0 := by norm_num
  have hne2 : (2 : ℝ) ≠ 0 := by norm_num
  have hE1 : (100 : ℝ) / 2 = 50 := by norm_num
  have hE2 : (500 : ℝ) / 5 = 100 := by norm_num
  have hE3 : (50 : ℝ) - 100 = -50 := by norm_num
  have hEab : |(-50 : ℝ)| = 50 := by norm_num
  have hEab2 : |(50 : ℝ)| = 50 := by norm_num
  have hEb : (1e-20 : ℝ) < 50 := by norm_num
  have hEc : (2 : ℝ) * -50 = -100 := by norm_num
  have hEd : (-100 : ℝ) ≠ 0 := by norm_num
  have hEe : (-500 : ℝ) / -100 = 5 := by norm_num
  have hEf : ¬ ((1e-12 : ℝ) < 0) := by norm_num
  have hEg : ¬ ((1 : ℝ) + (1e-12 : ℝ) < 0) := by norm_num
  have hEi : (0 : ℝ) ≤ (1e-12 : ℝ) := by norm_num
  have hEj : (0 : ℝ) < 5 := by norm_num
  have hEh : ¬ ((5 : ℝ) < 0) := by norm_num
  have hpi2 : (2 : ℝ) * Real.pi ≠ 0 := by positivity
  have hEab5 : |(5 : ℝ)| = 5 := by norm_num
  simp [cartesianToOrbitalElements, normalizeAngleRad, JSNum.atan2,
    JSNum.rem, JSNum.rtrunc, vecMag, vecDot, vecCross, vecScale, vecSub,
    Real.arctan_zero,
    h55, h0le25, hs25, h1010, h510, h1050, h500inv, h5inv, hne500, hne5,
    hne2, hE1, hE2, hE3, hEab, hEab2, hEb, hEc, hEd, hEe, hEf, hEg, hEi,
    hEj, hEh, hpi2, hEab5]

/-- The circular transfer orbit never reaches the barycenter's mean
radius 1 (periapsis is 5). -/
theorem c2_radius :
    getMeanAnomalyWhenAtRadius
      ⟨JSNum.num 0, JSNum.num 5, JSNum.num 0, JSNum.num 0,
        JSNum.num 5, JSNum.num 5⟩ (JSNum.num 1) = none := by
  have hy1 : ¬ ((1 : ℝ) ≤ 0) := by norm_num
  have hn5 : ¬ ((5 : ℝ) ≤ 0) := by norm_num
  have hr15 : (1 : ℝ) < 5 := by norm_num
  simp [getMeanAnomalyWhenAtRadius, hy1, hn5, hr15]

/-- Period of the circular radius-5 transfer orbit around `μ = 500`:
exactly `π` seconds. -/
theorem c2_period :
    orbitalPeriodSeconds
      ⟨JSNum.num 0, JSNum.num 5, JSNum.num 0, JSNum.num 0,
        JSNum.num 5, JSNum.num 5⟩ (JSNum.num 500) = JSNum.num Real.pi := by
  have hy1 : ¬ ((1 : ℝ) ≤ 0) := by norm_num
  have hn5 : ¬ ((5 : ℝ) ≤ 0) := by norm_num
  have h55 : (5 : ℝ) * 5 = 25 := by norm_num
  have h255 : (25 : ℝ) * 5 = 125 := by norm_num
  have hne500 : (500 : ℝ) ≠ 0 := by norm_num
  have h125 : (125 : ℝ) / 500 = 1 / 4 := by norm_num
  have h0le14 : (0 : ℝ) ≤ 1 / 4 := by norm_num
  have hs14 : Real.sqrt (1 / 4) = 1 / 2 :=
    real_sqrt_eval (1 / 4) (1 / 2) (by norm_num) (by norm_num)
  have hs4 : Real.sqrt 4 = 2 := real_sqrt_eval 4 2 (by norm_num) (by norm_num)
  simp [orbitalPeriodSeconds, hy1, hn5, h55, h255, hne500, h125, h0le14,
    hs14, hs4]
  ring

/-- The expected successful solution of the concrete transfer: note the
launch time is pulled `0.015 s` earlier and the arrival pushed `0.02 s`
later than the request, while `transitDuration_s` stays `π/2`. -/
def c2Success : TwoBurnTransferSolution :=
  { result := ⟨TransferOutcome.Success, 0, 0⟩
    launchTime_s := JSNum.num (-(3 / 200))
    arrivalTime_s := JSNum.num (Real.pi / 2 + 1 / 50)
    transitDuration_s := JSNum.num (Real.pi / 2)
    boostDV_mps := JSNum.num 3
    decelDV_mps := JSNum.num 4
    totalDV_mps := JSNum.num 7
    boostBurnTime_s := JSNum.num (3 / 100)
    decelBurnTime_s := JSNum.num (4 / 100)
    transferOrbit := some ⟨JSNum.num 0, JSNum.num 5, JSNum.num 0,
      JSNum.num 0, JSNum.num 5, JSNum.num 5⟩ }

set_option maxHeartbeats 1000000 in
/-- Full evaluation of the pure Lambert transfer on the concrete input:
it succeeds, with shifted launch/arrival times. -/
theorem c2_pure : solvePureLambertTransfer c2Input = c2Success := by
  have hpi0 : ¬ (Real.pi / 2 ≤ 0) := not_le.mpr (by positivity)
  have h733 : (7 : ℝ) < 33 := by norm_num
  have hap2 : ¬ ((1 : ℝ) ≤ (1e-6 : ℝ)) := by norm_num
  have hmax01 : max (0 : ℝ) 1 = 1 := by norm_num
  have h33 : (3 : ℝ) * 3 = 9 := by norm_num
  have h44 : (4 : ℝ) * 4 = 16 := by norm_num
  have h0le9 : (0 : ℝ) ≤ 9 := by norm_num
  have h0le16 : (0 : ℝ) ≤ 16 := by norm_num
  have hs9 : Real.sqrt 9 = 3 := real_sqrt_eval 9 3 (by norm_num) (by norm_num)
  have hs16 : Real.sqrt 16 = 4 := real_sqrt_eval 16 4 (by norm_num) (by norm_num)
  have h34 : (3 : ℝ) + 4 = 7 := by norm_num
  have hne100 : (100 : ℝ) ≠ 0 := by norm_num
  have hne7500 : (7500 : ℝ) ≠ 0 := by norm_num
  have hburn : ¬ ((2 : ℝ) * (Real.pi / 2) < 3 / 100 + 4 / 100) := by
    rw [not_lt]
    nlinarith [Real.pi_gt_three]
  have hperiod : ¬ ((31556924 : ℝ) < Real.pi / 7500) := by
    rw [not_lt, div_le_iff (by norm_num : (0 : ℝ) < 7500)]
    nlinarith [Real.pi_lt_315]
  simp [solvePureLambertTransfer, c2Input, c2SrcState, c2DstState,
    c2_lambert_prograde, c2_lambert_retro, chooseLambert, c2_orbit,
    c2_radius, c2_period, wouldCollideWithBarycenter, approximately,
    c2Success, makeResult, vecMag,
    hpi0, h733, hap2, hmax01, h33, h44, h0le9, h0le16, hs9, hs16, h34,
    hne100, hne7500, hburn, hperiod]
  norm_num

/-- The hybrid ΔV adjustment never touches the time fields. -/
theorem applyHybridDVAdjustment_times (s : TwoBurnTransferSolution)
    (f g : JSNum) :
    (applyHybridDVAdjustment s f g).launchTime_s = s.launchTime_s
    ∧ (applyHybridDVAdjustment s f g).arrivalTime_s = s.arrivalTime_s
    ∧ (applyHybridDVAdjustment s f g).transitDuration_s
      = s.transitDuration_s := by
  unfold applyHybridDVAdjustment
  dsimp only
  split
  · exact ⟨rfl, rfl, rfl⟩
  · split
    · exact ⟨rfl, rfl, rfl⟩
    · split
      · exact ⟨rfl, rfl, rfl⟩
      · exact ⟨rfl, rfl, rfl⟩

/-- Every torch solution (success or failure) satisfies the
transit-time identity between its own fields. -/
theorem solveTorchTransfer_transit (input : TwoBurnTransferInput) :
    (solveTorchTransfer input).transitDuration_s
      = (solveTorchTransfer input).arrivalTime_s
        - (solveTorchTransfer input).launchTime_s := by
  unfold solveTorchTransfer
  dsimp only
  repeat' split
  all_goals rfl

/-- Every non-successful pure Lambert solution satisfies the
transit-time identity between its own fields (the successful branch is
the only one that shifts the endpoint times). -/
theorem solvePureLambertTransfer_transit (input : TwoBurnTransferInput)
    (s : TwoBurnTransferSolution) (hEq : solvePureLambertTransfer input = s)
    (hS : s.result.outcome ≠ TransferOutcome.Success) :
    s.transitDuration_s = s.arrivalTime_s - s.launchTime_s := by
  unfold solvePureLambertTransfer at hEq
  dsimp only at hEq
  by_cases habl : input.arrivalTime_s - input.launchTime_s ≤ 0
  · rw [if_pos habl] at hEq
    subst hEq
    rfl
  · rw [if_neg habl] at hEq
    cases hc1 : (chooseLambert
        (solveLambert (input.arrivalTime_s - input.launchTime_s)
          input.sourceState_m input.destinationState_m
          input.barycenterMu_m3s2 false)
        (solveLambert (input.arrivalTime_s - input.launchTime_s)
          input.sourceState_m input.destinationState_m
          input.barycenterMu_m3s2 true)).1
    · rw [hc1] at hEq
      dsimp only at hEq
      subst hEq
      rfl
    · rw [hc1] at hEq
      dsimp only at hEq
      cases hc2 : (chooseLambert
          (solveLambert (input.arrivalTime_s - input.launchTime_s)
            input.sourceState_m input.destinationState_m
            input.barycenterMu_m3s2 false)
          (solveLambert (input.arrivalTime_s - input.launchTime_s)
            input.sourceState_m input.destinationState_m
            input.barycenterMu_m3s2 true)).2
      all_goals rw [hc2] at hEq
      all_goals dsimp only at hEq
      all_goals repeat' split at hEq
      all_goals try (subst hEq; rfl)
      all_goals try (subst hEq; exact absurd rfl hS)
      all_goals rename_i earlyReturn heq
      all_goals split at heq
      · split at heq
        · injection heq with h1
          subst h1
          subst hEq
          rfl
        · split at heq
          · injection heq with h1
            subst h1
            subst hEq
            rfl
          · exact Option.noConfusion heq
      · exact Option.noConfusion heq

/-- Any non-successful Lambert/torch selection satisfies the
transit-time identity. -/
theorem bestSolution_transit (i : TwoBurnTransferInput) (f : JSNum)
    (s : TwoBurnTransferSolution)
    (hEq : bestSolution (solvePureLambertTransfer i) (solveTorchTransfer i) f
      = s) (hS : ¬ isSuccess s) :
    s.transitDuration_s = s.arrivalTime_s - s.launchTime_s := by
  rcases bestSolution_eq_or (solvePureLambertTransfer i)
      (solveTorchTransfer i) f with hb | hb
  · rw [hb] at hEq
    exact solvePureLambertTransfer_transit i s hEq hS
  · rw [hb] at hEq
    rw [← hEq]
    exact solveTorchTransfer_transit i

/-- The transit-time identity survives the hybrid ΔV adjustment. -/
theorem applyHybrid_transit (b : TwoBurnTransferSolution) (f g : JSNum)
    (s : TwoBurnTransferSolution) (hEq : applyHybridDVAdjustment b f g = s)
    (hS : ¬ isSuccess s)
    (hb : ¬ isSuccess b →
      b.transitDuration_s = b.arrivalTime_s - b.launchTime_s) :
    s.transitDuration_s = s.arrivalTime_s - s.launchTime_s := by
  subst hEq
  obtain ⟨hl, ha, ht⟩ := applyHybridDVAdjustment_times b f g
  rw [ht, ha, hl]
  apply hb
  intro hSb
  apply hS
  show (applyHybridDVAdjustment b f g).result.outcome = TransferOutcome.Success
  rw [applyHybridDVAdjustment_result]
  exact hSb

/-- Any non-successful top-level solution satisfies the transit-time
identity, through every remap / adjustment path. -/
theorem solveTwoBurn_transit_aux (input : TwoBurnTransferInput)
    (s : TwoBurnTransferSolution) (hEq : solveTwoBurnLambertTransfer input = s)
    (hS : ¬ isSuccess s) :
    s.transitDuration_s = s.arrivalTime_s - s.launchTime_s := by
  unfold solveTwoBurnLambertTransfer at hEq
  dsimp only at hEq
  cases hrm : remapHybridInput input
  · rw [hrm] at hEq
    dsimp only at hEq
    cases hhy : input.hybridRemap
    · rw [hhy] at hEq
      dsimp only at hEq
      exact bestSolution_transit input input.fleetAcceleration_mps2 s hEq hS
    · rw [hhy] at hEq
      dsimp only at hEq
      exact applyHybrid_transit _ _ _ s hEq hS
        (fun h2 =>
          bestSolution_transit input input.fleetAcceleration_mps2 _ rfl h2)
  · rename_i remapped
    rw [hrm] at hEq
    dsimp only at hEq
    cases hhy : input.hybridRemap
    · rw [hhy] at hEq
      dsimp only at hEq
      split at hEq
      · split at hEq
        · dsimp only at hEq
          exact bestSolution_transit remapped input.fleetAcceleration_mps2
            s hEq hS
        · dsimp only at hEq
          exact bestSolution_transit input input.fleetAcceleration_mps2
            s hEq hS
      · dsimp only at hEq
        rcases chooseBetterSolution_eq_or
            (bestSolution (solvePureLambertTransfer input)
              (solveTorchTransfer input) input.fleetAcceleration_mps2)
            (bestSolution (solvePureLambertTransfer remapped)
              (solveTorchTransfer remapped) input.fleetAcceleration_mps2)
            input.fleetAcceleration_mps2 with hc | hc
        · rw [hc] at hEq
          exact bestSolution_transit input input.fleetAcceleration_mps2
            s hEq hS
        · rw [hc] at hEq
          exact bestSolution_transit remapped input.fleetAcceleration_mps2
            s hEq hS
    · rw [hhy] at hEq
      dsimp only at hEq
      split at hEq
      · split at hEq
        · dsimp only at hEq
          exact applyHybrid_transit _ _ _ s hEq hS
            (fun h2 => bestSolution_transit remapped
              input.fleetAcceleration_mps2 _ rfl h2)
        · dsimp only at hEq
          exact applyHybrid_transit _ _ _ s hEq hS
            (fun h2 => bestSolution_transit input
              input.fleetAcceleration_mps2 _ rfl h2)
      · dsimp only at hEq
        rcases chooseBetterSolution_eq_or
            (bestSolution (solvePureLambertTransfer input)
              (solveTorchTransfer input) input.fleetAcceleration_mps2)
            (bestSolution (solvePureLambertTransfer remapped)
              (solveTorchTransfer remapped) input.fleetAcceleration_mps2)
            input.fleetAcceleration_mps2 with hc | hc
        · rw [hc] at hEq
          exact applyHybrid_transit _ _ _ s hEq hS
            (fun h2 => bestSolution_transit input
              input.fleetAcceleration_mps2 _ rfl h2)
        · rw [hc] at hEq
          exact applyHybrid_transit _ _ _ s hEq hS
            (fun h2 => bestSolution_transit remapped
              input.fleetAcceleration_mps2 _ rfl h2)

/-- A successful Lambert solution is returned by `bestSolution`
unconditionally. -/
theorem bestSolution_of_success (l t : TwoBurnTransferSolution) (f : JSNum)
    (h : isSuccess l) : bestSolution l t f = l := by
  unfold bestSolution
  dsimp only
  rw [if_pos h]

/-- Top-level evaluation of the concrete transfer: the successful
Lambert solution with shifted endpoint times is returned as-is. -/
theorem c2_twoburn : solveTwoBurnLambertTransfer c2Input = c2Success := by
  unfold solveTwoBurnLambertTransfer
  dsimp only
  have hremap : remapHybridInput c2Input = none := rfl
  rw [hremap]
  dsimp only
  have hhyb : c2Input.hybridRemap = none := rfl
  rw [hhyb]
  dsimp only
  rw [c2_pure]
  exact bestSolution_of_success _ _ _ rfl

/-- C2 (corrected): for every input whose returned solution is not a
success, the returned `TwoBurnTransferSolution` satisfies
`transitDuration_s = arrivalTime_s - launchTime_s` between its own
fields.  (The success branch of `solvePureLambertTransfer` shifts the
endpoint times by half a burn time each while keeping
`transitDuration_s`, so the unrestricted claim is false; see the
counterexample.) -/
theorem c2_transit_invariant_nonsuccess (input : TwoBurnTransferInput)
    (h : ¬ isSuccess (solveTwoBurnLambertTransfer input)) :
    (solveTwoBurnLambertTransfer input).transitDuration_s
      = (solveTwoBurnLambertTransfer input).arrivalTime_s
        - (solveTwoBurnLambertTransfer input).launchTime_s :=
  solveTwoBurn_transit_aux input _ rfl h

/-- A trivially failing input (arrival before launch) for the C2
witness. -/
def c2AblInput : TwoBurnTransferInput :=
  ⟨1, 0, ⟨⟨0, 0, 0⟩, ⟨0, 0, 0⟩⟩, ⟨⟨0, 0, 0⟩, ⟨0, 0, 0⟩⟩, 1, 1, 1, none⟩

/-- Witness for the corrected C2 at the arrival-before-launch input. -/
theorem c2_witness :
    (solveTwoBurnLambertTransfer c2AblInput).transitDuration_s
      = (solveTwoBurnLambertTransfer c2AblInput).arrivalTime_s
        - (solveTwoBurnLambertTransfer c2AblInput).launchTime_s :=
  c2_transit_invariant_nonsuccess c2AblInput (by
    intro hSuc
    rw [solveTwoBurnLambertTransfer_of_nonpos c2AblInput
      (by simp [c2AblInput])] at hSuc
    exact TransferOutcome.noConfusion hSuc)

/-- Counterexample to the literal C2: on the concrete half-period
transfer the returned solution is successful and its endpoint times are
shifted, so `transitDuration_s ≠ arrivalTime_s - launchTime_s`. -/
theorem c2_counterexample :
    ¬ ((solveTwoBurnLambertTransfer c2Input).transitDuration_s
      = (solveTwoBurnLambertTransfer c2Input).arrivalTime_s
        - (solveTwoBurnLambertTransfer c2Input).launchTime_s) := by
  rw [c2_twoburn]
  intro h
  simp [c2Success] at h
  linarith
